import Mathlib

/-!
# Ray tracer scene packing, acceleration structures and frame accumulation

A shallow embedding of `006 - RayTracer/src/RayTracer.cpp`.  Host vectors are
lists, `uint32_t` values are natural numbers reduced modulo `2^32` wherever the
source computes in 32 bits, and `vk::DeviceSize` / `size_t` values are natural
numbers (64-bit overflow would need more memory than any host has).  A
function of the source that can run into an out-of-range access or a fatal
error returns an `Option` or an `Except`.
-/

namespace RayTracer

/-! ## Data model -/

/-- A 32-bit float, carried as its raw bit pattern.  The host code studied here
only stores and copies floats; it never computes with them. -/
abbrev F32 := Nat

/-- The conversion `static_cast<uint32_t>(n)`. -/
def toU32 (n : Nat) : Nat := n % 2 ^ 32

/-- The type `glm::vec2`. -/
structure Vec2 where
  x : F32
  y : F32
deriving DecidableEq, Repr

/-- The type `glm::vec3`. -/
structure Vec3 where
  x : F32
  y : F32
  z : F32
deriving DecidableEq, Repr

/-- The `Vertex` record of `Vertex.h`: position, normal, colour and texture
coordinate, in that order. -/
structure Vertex where
  pos : Vec3
  normal : Vec3
  color : Vec3
  textureCoordinate : Vec2
deriving DecidableEq, Repr

/-- The `Offset` record (`Offset.h`): two `uint32_t` element offsets. -/
structure Offset where
  vertexOffset : Nat
  indexOffset : Nat
deriving DecidableEq, Repr

/-- The shading models a material can have. -/
inductive MaterialType where
  | Lambertian
  | Metallic
  | Dielectric
  | Phong
  | Light
  | Smoke
deriving DecidableEq, Repr

/-- The texture variants a material can carry. -/
inductive TextureType where
  | FlatColor
  | CheckerBoard
  | Simplex3D
  | Turbulence
  | Marble
  | ImageTexture
  | NormalsDebug
deriving DecidableEq, Repr

/-- Modelled from the spec: `Material.h` is not among the sources.  A material
is a value made of a shading model, a texture variant and scalar parameters;
`RayTracer.cpp` only copies materials. -/
structure Material where
  type : MaterialType
  texture : TextureType
  parameters : List F32
deriving DecidableEq, Repr

/-- An axis-aligned bounding box, `std::array<glm::vec3, 2>`. -/
structure AABB where
  lo : Vec3
  hi : Vec3
deriving DecidableEq, Repr

/-- A `glm::mat3x4` transform, as its twelve floats in storage order. -/
abbrev Mat3x4 := List F32

/-- A model as `RayTracer.cpp` reads it through `GetVertices`, `GetIndices`,
`IsProcedural`, `GetBoundingBox` and `GetShaderHitGroupIndex` (the class is
declared in `Model.h`).  Index values are `uint32_t`. -/
structure Model where
  vertices : List Vertex
  indices : List Nat
  isProcedural : Bool
  boundingBox : AABB
  shaderHitGroupIndex : Nat
deriving DecidableEq, Repr

/-- An instance as `RayTracer.cpp` reads it through `GetModelIndex`,
`GetTransform` and `GetMaterial` (the class is declared in `Instance.h`). -/
structure Instance where
  modelIndex : Nat
  transform : Mat3x4
  material : Material
deriving DecidableEq, Repr

/-- The scene `m_Scene` as `RayTracer.cpp` reads it through `GetModels`,
`GetInstances`, `GetAccumulateFrames`, `GetHorizonColor`, `GetZenithColor` and
`GetTextureFileNames`. -/
structure Scene where
  models : List Model
  instances : List Instance
  accumulateFrames : Bool
  horizonColor : Vec3
  zenithColor : Vec3
  textureFileNames : List String
deriving DecidableEq, Repr

/-- A device buffer as far as the host code determines it: the elements copied
into it through the staging buffer and its size in bytes. -/
structure Buffer (α : Type) where
  data : List α
  size : Nat
deriving DecidableEq, Repr

/-- The value of `sizeof(Vertex)`: eleven 4-byte floats. -/
def sizeofVertex : Nat := 44

/-- The value of `sizeof(Offset)`: two `uint32_t`. -/
def sizeofOffset : Nat := 8

/-- The value of `sizeof(uint32_t)`. -/
def sizeofU32 : Nat := 4

/-! ## Resource buffer packing -/

/-- The first loop of `CreateOffsetBuffer`: each model pushes the current pair
of running offsets, then the two `uint32_t` counters advance by the model's
vertex and index counts (both cast to `uint32_t`). -/
def modelOffsetsLoop : List Model → Nat → Nat → List Offset → List Offset
  | [], _, _, acc => acc
  | m :: ms, vertexOffset, indexOffset, acc =>
    modelOffsetsLoop ms
      ((vertexOffset + toU32 m.vertices.length) % 2 ^ 32)
      ((indexOffset + toU32 m.indices.length) % 2 ^ 32)
      (acc ++ [{ vertexOffset := vertexOffset, indexOffset := indexOffset }])

/-- The local `modelOffsets` of `CreateOffsetBuffer` after its first loop. -/
def modelOffsets (models : List Model) : List Offset :=
  modelOffsetsLoop models 0 0 []

/-- The second loop of `CreateOffsetBuffer`: each instance pushes
`modelOffsets[instance->GetModelIndex()]`.  The subscript is unchecked in the
source; an out-of-range one is undefined behaviour and gives `none` here. -/
def instanceOffsetsLoop (table : List Offset) : List Instance → List Offset → Option (List Offset)
  | [], acc => some acc
  | inst :: rest, acc =>
    match table[inst.modelIndex]? with
    | none => none
    | some o => instanceOffsetsLoop table rest (acc ++ [o])

/-- The function `RayTracer::CreateOffsetBuffer`: the content and byte size of
`m_OffsetBuffer`. -/
def CreateOffsetBuffer (s : Scene) : Option (Buffer Offset) :=
  match instanceOffsetsLoop (modelOffsets s.models) s.instances [] with
  | none => none
  | some instanceOffsets =>
    some { data := instanceOffsets, size := instanceOffsets.length * sizeofOffset }

/-- The sum of the vertex counts of the first `i` models. -/
def vertexCountBefore (models : List Model) (i : Nat) : Nat :=
  ((models.take i).map (fun m => m.vertices.length)).sum

/-- The sum of the index counts of the first `i` models. -/
def indexCountBefore (models : List Model) (i : Nat) : Nat :=
  ((models.take i).map (fun m => m.indices.length)).sum

/-- The packing loop of `CreateVertexBuffer`: each model's vertex range is
inserted at the end of the local `vertices`. -/
def packVertices : List Model → List Vertex → List Vertex
  | [], acc => acc
  | m :: ms, acc => packVertices ms (acc ++ m.vertices)

/-- The local `vertices` of `CreateVertexBuffer` after its packing loop. -/
def flattenedVertices (models : List Model) : List Vertex :=
  packVertices models []

/-- The function `RayTracer::CreateVertexBuffer`: the content and byte size of
`m_VertexBuffer`. -/
def CreateVertexBuffer (s : Scene) : Buffer Vertex :=
  let vertices := flattenedVertices s.models
  { data := vertices, size := vertices.length * sizeofVertex }

/-- The packing loop of `CreateIndexBuffer`: each model's index range is
inserted at the end of the local `indices`. -/
def packIndices : List Model → List Nat → List Nat
  | [], acc => acc
  | m :: ms, acc => packIndices ms (acc ++ m.indices)

/-- The local `indices` of `CreateIndexBuffer` after its packing loop. -/
def flattenedIndices (models : List Model) : List Nat :=
  packIndices models []

/-- The object `Vulkan::IndexBuffer`: a buffer that also stores its element count. -/
structure IndexBuffer where
  data : List Nat
  size : Nat
  count : Nat
deriving DecidableEq, Repr

/-- The function `RayTracer::CreateIndexBuffer`.  The element count is cast to
`uint32_t`, the byte size is computed from that count, and `size` bytes of the
host vector are copied. -/
def CreateIndexBuffer (s : Scene) : IndexBuffer :=
  let indices := flattenedIndices s.models
  let count := toU32 indices.length
  let size := count * sizeofU32
  { data := indices.take count, size := size, count := count }

/-- The loop of `CreateAABBBuffer`: procedural models append their bounding box. -/
def collectAABBs : List Model → List AABB → List AABB
  | [], acc => acc
  | m :: ms, acc => collectAABBs ms (if m.isProcedural then acc ++ [m.boundingBox] else acc)

/-- The value of `sizeof(std::array<glm::vec3, 2>)`. -/
def sizeofAABB : Nat := 24

/-- The function `RayTracer::CreateAABBBuffer`: the new value of `m_AABBBuffer`,
which stays null when the byte size is zero. -/
def CreateAABBBuffer (s : Scene) : Option (Buffer AABB) :=
  let aabbs := collectAABBs s.models []
  let size := aabbs.length * sizeofAABB
  if size > 0 then some { data := aabbs, size := size } else none

/-- The loop of `CreateMaterialBuffer`: each instance appends a copy of its material. -/
def collectMaterials : List Instance → List Material → List Material
  | [], acc => acc
  | inst :: rest, acc => collectMaterials rest (acc ++ [inst.material])

/-- The function `RayTracer::CreateMaterialBuffer`: the content and byte size
of `m_MaterialBuffer`.  The value of `sizeof(Material)` comes from `Material.h`
and is a parameter. -/
def CreateMaterialBuffer (sizeofMaterial : Nat) (s : Scene) : Buffer Material :=
  let materials := collectMaterials s.instances []
  { data := materials, size := materials.length * sizeofMaterial }

/-! ## Acceleration structures -/

/-- The ways a host function of the source stops without a result. -/
inductive Fault where
  | outOfRange
  | assertion
  | nullPointer
  | runtimeError
  | undefinedBehaviour
deriving DecidableEq, Repr

/-- The enumeration `vk::GeometryTypeNV`. -/
inductive GeometryType where
  | eTriangles
  | eAabbs
deriving DecidableEq, Repr

/-- The fields of `vk::GeometryTrianglesNV` that depend on the scene. -/
structure GeometryTriangles where
  vertexOffset : Nat
  vertexCount : Nat
  vertexStride : Nat
  indexOffset : Nat
  indexCount : Nat
deriving DecidableEq, Repr

/-- The fields of `vk::GeometryAABBNV` that depend on the scene. -/
structure GeometryAABB where
  numAABBs : Nat
  stride : Nat
  offset : Nat
deriving DecidableEq, Repr

/-- One `vk::GeometryNV` entry. -/
structure GeometryNV where
  geometryType : GeometryType
  triangles : GeometryTriangles
  aabbs : GeometryAABB
  opaqueFlag : Bool
deriving DecidableEq, Repr

/-- The geometry entry `CreateAccelerationStructures` builds for one model at
the current running byte offsets.  The procedural branch reads through
`m_AABBBuffer`, which is null when `CreateAABBBuffer` created no buffer. -/
def geometryFor (aabbBuffer : Option (Buffer AABB)) (m : Model)
    (vertexOffset indexOffset aabbOffset : Nat) : Except Fault GeometryNV :=
  if m.isProcedural then
    match aabbBuffer with
    | none => .error Fault.nullPointer
    | some _ =>
      .ok { geometryType := GeometryType.eAabbs
            triangles := { vertexOffset := 0, vertexCount := 0, vertexStride := 0,
                           indexOffset := 0, indexCount := 0 }
            aabbs := { numAABBs := 1, stride := 2 * 12, offset := aabbOffset }
            opaqueFlag := true }
  else
    .ok { geometryType := GeometryType.eTriangles
          triangles := { vertexOffset := vertexOffset
                         vertexCount := toU32 m.vertices.length
                         vertexStride := sizeofVertex
                         indexOffset := indexOffset
                         indexCount := toU32 m.indices.length }
          aabbs := { numAABBs := 0, stride := 0, offset := 0 }
          opaqueFlag := true }

/-- The first loop of `CreateAccelerationStructures`: one geometry group with
one entry per model, while three `vk::DeviceSize` byte offsets advance. -/
def geometryGroupsLoop (aabbBuffer : Option (Buffer AABB)) :
    List Model → Nat → Nat → Nat → List (List GeometryNV) → Except Fault (List (List GeometryNV))
  | [], _, _, _, acc => .ok acc
  | m :: ms, vertexOffset, indexOffset, aabbOffset, acc =>
    match geometryFor aabbBuffer m vertexOffset indexOffset aabbOffset with
    | .error e => .error e
    | .ok g =>
      geometryGroupsLoop aabbBuffer ms
        (vertexOffset + m.vertices.length * sizeofVertex)
        (indexOffset + m.indices.length * sizeofU32)
        (if m.isProcedural then aabbOffset + 2 * 12 else aabbOffset)
        (acc ++ [[g]])

/-- One `Vulkan::GeometryInstance` record, holding the six constructor
arguments `CreateAccelerationStructures` passes. -/
structure GeometryInstance where
  transform : Mat3x4
  instanceId : Nat
  mask : Nat
  hitGroupIndex : Nat
  flags : Nat
  accelerationStructureHandle : Nat
deriving DecidableEq, Repr

/-- The value of `vk::GeometryInstanceFlagBitsNV::eTriangleCullDisable`. -/
def eTriangleCullDisable : Nat := 1

/-- The second loop of `CreateAccelerationStructures`.  `blas` holds the
handles of `m_BLAS` (0 is the null handle); `.at` throws on an index out of
range; the `uint32_t` counter `i` is post-incremented for each record.
Modelled from the spec: the `ASSERT` macro of `Core.h` is not among the
sources; a failed assertion is a fatal error. -/
def geometryInstancesLoop (models : List Model) (blas : List Nat) :
    List Instance → Nat → List GeometryInstance → Except Fault (List GeometryInstance)
  | [], _, acc => .ok acc
  | inst :: rest, i, acc =>
    match blas[inst.modelIndex]? with
    | none => .error Fault.outOfRange
    | some handle =>
      if handle = 0 then .error Fault.assertion
      else
        match models[inst.modelIndex]? with
        | none => .error Fault.outOfRange
        | some model =>
          geometryInstancesLoop models blas rest ((i + 1) % 2 ^ 32)
            (acc ++ [{ transform := inst.transform
                       instanceId := i
                       mask := 0xff
                       hitGroupIndex := model.shaderHitGroupIndex
                       flags := eTriangleCullDisable
                       accelerationStructureHandle := handle }])

/-- What `CreateAccelerationStructures` leaves behind: the geometry groups
handed to the bottom-level build, the handles of `m_BLAS`, and the instance
records handed to the top-level build. -/
structure AccelerationStructures where
  geometryGroups : List (List GeometryNV)
  blas : List Nat
  geometryInstances : List GeometryInstance
deriving DecidableEq, Repr

/-- The function `RayTracer::CreateAccelerationStructures`.  The helper
`CreateBottomLevelAccelerationStructures` is defined outside the sources; the
handles it leaves in `m_BLAS` for given geometry groups are the parameter
`createBottomLevel`. -/
def CreateAccelerationStructures (createBottomLevel : List (List GeometryNV) → List Nat)
    (aabbBuffer : Option (Buffer AABB)) (s : Scene) : Except Fault AccelerationStructures :=
  match geometryGroupsLoop aabbBuffer s.models 0 0 0 [] with
  | .error e => .error e
  | .ok geometryGroups =>
    let blas := createBottomLevel geometryGroups
    match geometryInstancesLoop s.models blas s.instances 0 [] with
    | .error e => .error e
    | .ok geometryInstances =>
      .ok { geometryGroups := geometryGroups, blas := blas, geometryInstances := geometryInstances }

/-! ## Shader binding table layout -/

/-- Addition of two `uint32_t` values. -/
def addU32 (a b : Nat) : Nat := (a + b) % 2 ^ 32

/-- Subtraction of two `uint32_t` values (wrapping below zero). -/
def subU32 (a b : Nat) : Nat := (a % 2 ^ 32 + 2 ^ 32 - b % 2 ^ 32) % 2 ^ 32

/-- Bitwise complement of a `uint32_t` value. -/
def notU32 (a : Nat) : Nat := 2 ^ 32 - 1 - a % 2 ^ 32

/-- The expression
`(shaderGroupHandleSize + shaderGroupBaseAlignment - 1) & ~(shaderGroupBaseAlignment - 1)`
of `CreatePipeline` and `RecordCommandBuffers`, evaluated in `uint32_t`. -/
def shaderBindingTableEntrySize (handleSize alignment : Nat) : Nat :=
  subU32 (addU32 handleSize alignment) 1 &&& notU32 (subU32 alignment 1)

/-- The sizes `CreatePipeline` derives for the shader binding table. -/
structure TableLayout where
  entrySize : Nat
  tableSize : Nat
  handlesSize : Nat
  tableStride : Nat
  handleStride : Nat
deriving DecidableEq, Repr

/-- The size computations of `CreatePipeline`.  Both products are taken in
`vk::DeviceSize` after widening the 32-bit factor.  The enumerator
`eNumShaderGroups` is declared in `RayTracer.h` and is the parameter
`numGroups`. -/
def tableLayout (numGroups handleSize alignment : Nat) : TableLayout :=
  let entrySize := shaderBindingTableEntrySize handleSize alignment
  { entrySize := entrySize
    tableSize := entrySize * numGroups
    handlesSize := handleSize * numGroups
    tableStride := entrySize
    handleStride := handleSize }

/-! ## Frame accumulation -/

/-- What `Update` reads after the base class has run its own update: the six
key states returned by `glfwGetKey` (true for `GLFW_PRESS`) and the member
`m_LeftMouseDown`. -/
structure Input where
  keyW : Bool
  keyA : Bool
  keyS : Bool
  keyD : Bool
  keyR : Bool
  keyF : Bool
  leftMouseDown : Bool
deriving DecidableEq, Repr

/-- The condition of the first `if` of `Update`. -/
def Input.movement (i : Input) : Bool :=
  i.keyW || i.keyA || i.keyS || i.keyD || i.keyR || i.keyF || i.leftMouseDown

/-- The function `RayTracer::Update` on the member `m_AccumulatedImageCount`:
two conditional resets, then a pre-increment.  Modelled from the spec: the
member is declared in `RayTracer.h`, which is not among the sources; the
uniform block it is written to holds it as a `u32`. -/
def Update (input : Input) (accumulateFrames : Bool) (accumulatedImageCount : Nat) : Nat :=
  let c1 := if input.movement then 0 else accumulatedImageCount
  let c2 := if !accumulateFrames then 0 else c1
  (c2 + 1) % 2 ^ 32

/-- Consecutive calls of `Update`, one per frame, on a scene whose accumulation
setting does not change. -/
def UpdateFrames (accumulateFrames : Bool) : List Input → Nat → Nat
  | [], count => count
  | input :: rest, count => UpdateFrames accumulateFrames rest (Update input accumulateFrames count)

/-- The input with no key pressed and the mouse button up. -/
def Input.idle : Input :=
  { keyW := false, keyA := false, keyS := false, keyD := false, keyR := false, keyF := false
    leftMouseDown := false }

/-! ## Frame-slot resources and window resize -/

/-- An image with its view, as far as the host code determines it. -/
structure Image where
  width : Nat
  height : Nat
  format : Nat
deriving DecidableEq, Repr

/-- The value of `vk::Format::eR32G32B32A32Sfloat`. -/
def eR32G32B32A32Sfloat : Nat := 109

/-- The push-constant block `Constants`. -/
structure Constants where
  minRayBounces : Nat
  maxRayBounces : Nat
  lensAperture : F32
  lensFocalLength : F32
deriving DecidableEq, Repr

/-- One descriptor set after `updateDescriptorSets`: what each of its nine
bindings refers to.  The uniform-buffer binding points at one element of
`m_UniformBuffers` and is kept as that element's index. -/
structure DescriptorSet where
  accelerationStructure : Nat
  accumulationImage : Image
  outputImage : Image
  uniformBufferIndex : Nat
  vertexBuffer : Buffer Vertex
  indexBuffer : IndexBuffer
  offsetBuffer : Buffer Offset
  materialBuffer : Buffer Material
  textureSamplers : List Image
deriving DecidableEq, Repr

/-- The image a barrier or copy names: a swap-chain image or `m_OutputImage`. -/
inductive ImageRef where
  | swapChain (handle : Nat)
  | output
deriving DecidableEq, Repr

/-- The image layouts used by `RecordCommandBuffers`. -/
inductive ImageLayout where
  | eUndefined
  | eGeneral
  | eTransferSrcOptimal
  | eTransferDstOptimal
  | ePresentSrcKHR
deriving DecidableEq, Repr

/-- One recorded command. -/
inductive Command where
  | pushConstants (constants : Constants)
  | bindPipeline
  | bindDescriptorSets (set : DescriptorSet)
  | traceRaysNV (raygenOffset missOffset missStride hitOffset hitStride width height depth : Nat)
  | pipelineBarrier (image : ImageRef) (oldLayout newLayout : ImageLayout)
  | copyImage (dst : Nat) (width height : Nat)
deriving DecidableEq, Repr

/-- The members of the base class `Vulkan::Application` that the functions
below read or write. -/
structure Application where
  deviceValid : Bool
  extentWidth : Nat
  extentHeight : Nat
  format : Nat
  swapChainFrameBuffers : Nat
  swapChainImages : List Nat
  commandBuffers : List (List Command)
deriving DecidableEq, Repr

/-- The members of `RayTracer` (with its base-class part `app`). -/
structure RayTracerState where
  app : Application
  scene : Scene
  vertexBuffer : Option (Buffer Vertex)
  indexBuffer : Option IndexBuffer
  offsetBuffer : Option (Buffer Offset)
  aabbBuffer : Option (Buffer AABB)
  materialBuffer : Option (Buffer Material)
  textures : List Image
  tlas : Nat
  outputImage : Option Image
  accumulationImage : Option Image
  uniformBuffers : List Nat
  shaderGroupHandleSize : Nat
  shaderGroupBaseAlignment : Nat
  shaderBindingTable : Option (Buffer Nat)
  descriptorSets : List DescriptorSet
  accumulatedImageCount : Nat
deriving DecidableEq, Repr

/-- The function `RayTracer::DestroyDescriptorSets`. -/
def DestroyDescriptorSets (st : RayTracerState) : RayTracerState :=
  if st.app.deviceValid then { st with descriptorSets := [] } else st

/-- The function `RayTracer::CreateStorageImages`: both images are created
anew at the current extent. -/
def CreateStorageImages (st : RayTracerState) : RayTracerState :=
  { st with
    outputImage := some { width := st.app.extentWidth, height := st.app.extentHeight
                          format := st.app.format }
    accumulationImage := some { width := st.app.extentWidth, height := st.app.extentHeight
                                format := eR32G32B32A32Sfloat } }

/-- The body of the loop of `CreateDescriptorSets` for frame slot `i`: the nine
writes into `m_DescriptorSets[i]`.  A null buffer or image pointer, or an
index past the end of `m_UniformBuffers`, is undefined behaviour in the source
and gives `none`. -/
def writeDescriptorSet (st : RayTracerState) (i : Nat) : Option DescriptorSet :=
  match st.accumulationImage, st.outputImage, st.uniformBuffers[i]?, st.vertexBuffer,
        st.indexBuffer, st.offsetBuffer, st.materialBuffer with
  | some accumulation, some output, some _, some vb, some ib, some ob, some mb =>
    some { accelerationStructure := st.tlas
           accumulationImage := accumulation
           outputImage := output
           uniformBufferIndex := i
           vertexBuffer := vb
           indexBuffer := ib
           offsetBuffer := ob
           materialBuffer := mb
           textureSamplers := st.textures }
  | _, _, _, _, _, _, _ => none

/-- The loop of `CreateDescriptorSets` over the frame slots `i, i+1, ...`
(`remaining` of them are left). -/
def descriptorSetsLoop (st : RayTracerState) : Nat → Nat → List DescriptorSet → Option (List DescriptorSet)
  | 0, _, acc => some acc
  | remaining + 1, i, acc =>
    match writeDescriptorSet st i with
    | none => none
    | some set => descriptorSetsLoop st remaining (i + 1) (acc ++ [set])

/-- The function `RayTracer::CreateDescriptorSets`: one set per swap-chain
frame buffer. -/
def CreateDescriptorSets (st : RayTracerState) : Option RayTracerState :=
  match descriptorSetsLoop st st.app.swapChainFrameBuffers 0 [] with
  | none => none
  | some sets => some { st with descriptorSets := sets }

/-- The constant block recorded by `RecordCommandBuffers`; the two floats are
the bit patterns of `0.0` and `800.0`. -/
def recordedConstants : Constants :=
  { minRayBounces := 3, maxRayBounces := 64, lensAperture := 0, lensFocalLength := 0x44480000 }

/-- The body of the loop of `RecordCommandBuffers` for command buffer `i`.  The
group enumerators of `RayTracer.h` are the parameters `eRayGenGroup`,
`eMissGroup` and `eFirstHitGroup`.  An index past the end of
`m_DescriptorSets` or `m_SwapChainImages`, or a null binding table or output
image, is undefined behaviour in the source and gives `none`. -/
def recordCommandBuffer (eRayGenGroup eMissGroup eFirstHitGroup : Nat) (st : RayTracerState)
    (i : Nat) : Option (List Command) :=
  match st.descriptorSets[i]?, st.app.swapChainImages[i]?, st.shaderBindingTable, st.outputImage with
  | some set, some image, some _, some _ =>
    let entrySize := shaderBindingTableEntrySize st.shaderGroupHandleSize st.shaderGroupBaseAlignment
    some [ Command.pushConstants recordedConstants
         , Command.bindPipeline
         , Command.bindDescriptorSets set
         , Command.traceRaysNV (entrySize * eRayGenGroup) (entrySize * eMissGroup) entrySize
             (entrySize * eFirstHitGroup) entrySize st.app.extentWidth st.app.extentHeight 1
         , Command.pipelineBarrier (ImageRef.swapChain image) ImageLayout.eUndefined
             ImageLayout.eTransferDstOptimal
         , Command.pipelineBarrier ImageRef.output ImageLayout.eGeneral
             ImageLayout.eTransferSrcOptimal
         , Command.copyImage image st.app.extentWidth st.app.extentHeight
         , Command.pipelineBarrier (ImageRef.swapChain image) ImageLayout.eTransferDstOptimal
             ImageLayout.ePresentSrcKHR
         , Command.pipelineBarrier ImageRef.output ImageLayout.eTransferSrcOptimal
             ImageLayout.eGeneral ]
  | _, _, _, _ => none

/-- The loop of `RecordCommandBuffers` over the command buffers `i, i+1, ...`
(`remaining` of them are left). -/
def recordLoop (eRayGenGroup eMissGroup eFirstHitGroup : Nat) (st : RayTracerState) :
    Nat → Nat → List (List Command) → Option (List (List Command))
  | 0, _, acc => some acc
  | remaining + 1, i, acc =>
    match recordCommandBuffer eRayGenGroup eMissGroup eFirstHitGroup st i with
    | none => none
    | some commands =>
      recordLoop eRayGenGroup eMissGroup eFirstHitGroup st remaining (i + 1) (acc ++ [commands])

/-- The function `RayTracer::RecordCommandBuffers`: every command buffer of
`m_CommandBuffers` is recorded anew. -/
def RecordCommandBuffers (eRayGenGroup eMissGroup eFirstHitGroup : Nat) (st : RayTracerState) :
    Option RayTracerState :=
  match recordLoop eRayGenGroup eMissGroup eFirstHitGroup st st.app.commandBuffers.length 0 [] with
  | none => none
  | some recorded => some { st with app := { st.app with commandBuffers := recorded } }

/-- The function `RayTracer::OnWindowResized`.  The base-class handler
`Application::OnWindowResized` is defined outside the sources; it can reach
only the base-class members and is the parameter `superOnWindowResized`. -/
def OnWindowResized (superOnWindowResized : Application → Application)
    (eRayGenGroup eMissGroup eFirstHitGroup : Nat) (st : RayTracerState) : Option RayTracerState :=
  let st1 := { st with app := superOnWindowResized st.app }
  let st2 := DestroyDescriptorSets st1
  let st3 := CreateStorageImages st2
  match CreateDescriptorSets st3 with
  | none => none
  | some st4 =>
    match RecordCommandBuffers eRayGenGroup eMissGroup eFirstHitGroup st4 with
    | none => none
    | some st5 => some { st5 with accumulatedImageCount := 0 }

/-! ## Shader groups and dispatch tags -/

/-- The shader-group enumerators that `RayTracer.cpp` uses; the enumeration
itself is declared in `RayTracer.h`. -/
structure ShaderGroups where
  eRayGenGroup : Nat
  eMissGroup : Nat
  eTrianglesHitGroup : Nat
  eSphereHitGroup : Nat
  eBoxHitGroup : Nat
  eFirstHitGroup : Nat
  eNumShaderGroups : Nat
deriving DecidableEq, Repr

/-- Modelled from the spec: the enumeration of `RayTracer.h` is not among the
sources.  The groups are declared in the order ray generation, miss, triangles
hit group, then one procedural hit group per primitive kind (sphere, box); the
first hit group is the triangles one. -/
def declaredGroups : ShaderGroups :=
  { eRayGenGroup := 0, eMissGroup := 1, eTrianglesHitGroup := 2, eSphereHitGroup := 3
    eBoxHitGroup := 4, eFirstHitGroup := 2, eNumShaderGroups := 5 }

/-- The three class-wide default hit-group indices set at the start of
`CreateScene`. -/
structure DefaultHitGroupIndices where
  model : Nat
  sphere : Nat
  box : Nat
deriving DecidableEq, Repr

/-- The first three statements of `RayTracer::CreateScene`: each
`SetDefaultShaderHitGroupIndex` receives the kind's group enumerator minus
`eFirstHitGroup`, converted to `uint32_t`. -/
def registerDefaultHitGroups (g : ShaderGroups) : DefaultHitGroupIndices :=
  { model := subU32 g.eTrianglesHitGroup g.eFirstHitGroup
    sphere := subU32 g.eSphereHitGroup g.eFirstHitGroup
    box := subU32 g.eBoxHitGroup g.eFirstHitGroup }

/-! ## Binding slots -/

/-- Modelled from the spec: the header `Bindings.glsl` that `RayTracer.cpp`
includes is not among the sources (the `Bindings.h` of `005 - RayTraceSpheres`
belongs to an earlier program and declares no offset-buffer and no
texture-sampler slot).  Slot of the top-level acceleration structure. -/
def BINDING_TLAS : Nat := 0

/-- Modelled from the spec: `Bindings.glsl` is not among the sources.  Slot of
the accumulation image. -/
def BINDING_ACCUMULATIONIMAGE : Nat := 1

/-- Modelled from the spec: `Bindings.glsl` is not among the sources.  Slot of
the output image. -/
def BINDING_OUTPUTIMAGE : Nat := 2

/-- Modelled from the spec: `Bindings.glsl` is not among the sources.  Slot of
the uniform block. -/
def BINDING_UNIFORMBUFFER : Nat := 3

/-- Modelled from the spec: `Bindings.glsl` is not among the sources.  Slot of
the vertex buffer. -/
def BINDING_VERTEXBUFFER : Nat := 4

/-- Modelled from the spec: `Bindings.glsl` is not among the sources.  Slot of
the index buffer. -/
def BINDING_INDEXBUFFER : Nat := 5

/-- Modelled from the spec: `Bindings.glsl` is not among the sources.  Slot of
the offset buffer. -/
def BINDING_OFFSETBUFFER : Nat := 6

/-- Modelled from the spec: `Bindings.glsl` is not among the sources.  Slot of
the material buffer. -/
def BINDING_MATERIALBUFFER : Nat := 7

/-- Modelled from the spec: `Bindings.glsl` is not among the sources.  Slot of
the texture sampler array. -/
def BINDING_TEXTURESAMPLERS : Nat := 8

/-- Modelled from the spec: `Bindings.glsl` is not among the sources.  The
declared number of binding slots. -/
def BINDING_NUMBINDINGS : Nat := 9

/-- The enumeration `vk::DescriptorType`, as far as it is used. -/
inductive DescriptorType where
  | eAccelerationStructureNV
  | eStorageImage
  | eUniformBuffer
  | eStorageBuffer
  | eCombinedImageSampler
deriving DecidableEq, Repr

/-- One `vk::DescriptorSetLayoutBinding`: slot, descriptor type and descriptor
count (the stage flags are constants of the source and are left out). -/
structure DescriptorSetLayoutBinding where
  binding : Nat
  descriptorType : DescriptorType
  descriptorCount : Nat
deriving DecidableEq, Repr

/-- The nine initialisers of the array `layoutBindings` of
`CreateDescriptorSetLayout`, in the order in which the source lists them. -/
def listedLayoutBindings (textureCount : Nat) : List DescriptorSetLayoutBinding :=
  [ { binding := BINDING_TLAS, descriptorType := DescriptorType.eAccelerationStructureNV
      descriptorCount := 1 }
  , { binding := BINDING_ACCUMULATIONIMAGE, descriptorType := DescriptorType.eStorageImage
      descriptorCount := 1 }
  , { binding := BINDING_OUTPUTIMAGE, descriptorType := DescriptorType.eStorageImage
      descriptorCount := 1 }
  , { binding := BINDING_UNIFORMBUFFER, descriptorType := DescriptorType.eUniformBuffer
      descriptorCount := 1 }
  , { binding := BINDING_VERTEXBUFFER, descriptorType := DescriptorType.eStorageBuffer
      descriptorCount := 1 }
  , { binding := BINDING_INDEXBUFFER, descriptorType := DescriptorType.eStorageBuffer
      descriptorCount := 1 }
  , { binding := BINDING_OFFSETBUFFER, descriptorType := DescriptorType.eStorageBuffer
      descriptorCount := 1 }
  , { binding := BINDING_MATERIALBUFFER, descriptorType := DescriptorType.eStorageBuffer
      descriptorCount := 1 }
  , { binding := BINDING_TEXTURESAMPLERS, descriptorType := DescriptorType.eCombinedImageSampler
      descriptorCount := toU32 textureCount } ]

/-- The function `RayTracer::CreateDescriptorSetLayout`: the content of the
array `layoutBindings`, which has `BINDING_NUMBINDINGS` elements (elements
past the listed initialisers are value-initialised), and the binding count
passed to the device, `layoutBindings.size()`. -/
def CreateDescriptorSetLayout (textureCount : Nat) : List DescriptorSetLayoutBinding × Nat :=
  let listed := listedLayoutBindings textureCount
  let layoutBindings := listed ++ List.replicate (BINDING_NUMBINDINGS - listed.length)
    { binding := 0, descriptorType := DescriptorType.eAccelerationStructureNV, descriptorCount := 0 }
  (layoutBindings, toU32 layoutBindings.length)

/-- The slots `dstBinding` of the nine writes that `CreateDescriptorSets`
collects in its array `writeDescriptorSets`, in the order of the source. -/
def writeDescriptorSlots : List Nat :=
  [ BINDING_TLAS, BINDING_ACCUMULATIONIMAGE, BINDING_OUTPUTIMAGE, BINDING_UNIFORMBUFFER
  , BINDING_VERTEXBUFFER, BINDING_INDEXBUFFER, BINDING_OFFSETBUFFER, BINDING_MATERIALBUFFER
  , BINDING_TEXTURESAMPLERS ]

/-- The slot definitions of `005 - RayTraceSpheres/Assets/Shaders/Bindings.h`,
in the order of the file: the six slots from `BINDING_TLAS` to
`BINDING_INDEXBUFFER`, then `BINDING_MATERIALBUFFER` and
`BINDING_NUMBINDINGS`. -/
def raySpheresBindings : List (String × Nat) :=
  [ ("BINDING_TLAS", 0), ("BINDING_ACCUMULATIONIMAGE", 1), ("BINDING_OUTPUTIMAGE", 2)
  , ("BINDING_UNIFORMBUFFER", 3), ("BINDING_VERTEXBUFFER", 4), ("BINDING_INDEXBUFFER", 5)
  , ("BINDING_MATERIALBUFFER", 6), ("BINDING_NUMBINDINGS", 7) ]

/-! ## Vertex record layout -/

/-- A member of a record with its size and alignment in bytes. -/
structure Member where
  name : String
  size : Nat
  align : Nat
deriving DecidableEq, Repr

/-- The value of `sizeof(float)`. -/
def sizeofFloat : Nat := 4

/-- A `glm::vec3` member: three packed floats. -/
def vec3Member (name : String) : Member :=
  { name := name, size := 3 * sizeofFloat, align := sizeofFloat }

/-- A `glm::vec2` member: two packed floats. -/
def vec2Member (name : String) : Member :=
  { name := name, size := 2 * sizeofFloat, align := sizeofFloat }

/-- The data members of `struct Vertex` in declaration order. -/
def vertexMembers : List Member :=
  [vec3Member "pos", vec3Member "normal", vec3Member "color", vec2Member "textureCoordinate"]

/-- The smallest multiple of `align` that is at least `offset`. -/
def alignUp (offset align : Nat) : Nat := (offset + align - 1) / align * align

/-- The offsets of the members of a standard-layout record: each member is
placed at the first offset past the previous member that its alignment
allows. -/
def memberOffsets : List Member → Nat → List (String × Nat)
  | [], _ => []
  | m :: ms, offset =>
    (m.name, alignUp offset m.align) :: memberOffsets ms (alignUp offset m.align + m.size)

/-- The end of the last member of a record laid out from `offset`. -/
def membersEnd : List Member → Nat → Nat
  | [], offset => offset
  | m :: ms, offset => membersEnd ms (alignUp offset m.align + m.size)

/-- The size of a record: the end of its last member, rounded up to the
largest member alignment. -/
def recordSize (members : List Member) : Nat :=
  alignUp (membersEnd members 0) ((members.map (fun m => m.align)).foldl max 1)

/-- The value of `offsetof(Vertex, member)`. -/
def offsetofVertex (name : String) : Nat :=
  ((memberOffsets vertexMembers 0).lookup name).getD 0

/-- The formats used by the vertex attributes. -/
inductive VertexFormat where
  | eR32G32B32Sfloat
  | eR32G32Sfloat
deriving DecidableEq, Repr

/-- One `vk::VertexInputAttributeDescription`. -/
structure VertexInputAttributeDescription where
  location : Nat
  binding : Nat
  format : VertexFormat
  offset : Nat
deriving DecidableEq, Repr

/-- The function `Vertex::GetAttributeDescriptions`. -/
def GetAttributeDescriptions : List VertexInputAttributeDescription :=
  [ { location := 0, binding := 0, format := VertexFormat.eR32G32B32Sfloat
      offset := offsetofVertex "pos" }
  , { location := 1, binding := 0, format := VertexFormat.eR32G32B32Sfloat
      offset := offsetofVertex "normal" }
  , { location := 2, binding := 0, format := VertexFormat.eR32G32B32Sfloat
      offset := offsetofVertex "color" }
  , { location := 3, binding := 0, format := VertexFormat.eR32G32Sfloat
      offset := offsetofVertex "textureCoordinate" } ]

/-- The function `Vertex::GetBindingDescription`: binding 0 with stride
`sizeof(Vertex)` (the input rate is the constant `eVertex`). -/
def GetBindingDescription : Nat × Nat := (0, recordSize vertexMembers)

/-- The number of procedural models among the first `i` models. -/
def proceduralCountBefore (models : List Model) (i : Nat) : Nat :=
  ((models.take i).filter (fun m => m.isProcedural)).length

/-! ## Scene assembly and initialisation -/

/-- Modelled from the spec: the class `Scene` is not among the sources.
Registering a model gives it the next identity in registration order and
never fails except on malformed geometry: a triangle model with zero vertices
is a fatal configuration error. -/
def Scene.AddModel (s : Scene) (m : Model) : Except Fault (Scene × Nat) :=
  if !m.isProcedural && m.vertices.isEmpty then .error Fault.assertion
  else .ok ({ s with models := s.models ++ [m] }, s.models.length)

/-- Modelled from the spec: the class `Scene` is not among the sources.  Adding
an instance fails fatally if its model identity was never registered;
otherwise the instance is appended and gets its position as identity. -/
def Scene.AddInstance (s : Scene) (inst : Instance) : Except Fault (Scene × Nat) :=
  if inst.modelIndex < s.models.length then
    .ok ({ s with instances := s.instances ++ [inst] }, s.instances.length)
  else .error Fault.assertion

/-- Modelled from the spec: the class `Scene` is not among the sources.  A
texture resource is recorded by its file path and gets the next texture slot. -/
def Scene.AddTextureResource (s : Scene) (fileName : String) : Scene × Nat :=
  ({ s with textureFileNames := s.textureFileNames ++ [fileName] }, s.textureFileNames.length)

/-- One call that `CreateScene` makes on `m_Scene`, with the argument it
passes.  The geometry, transforms and materials come from classes and files
outside the sources. -/
inductive SceneCall where
  | AddTextureResource (name fileName : String)
  | AddModel (model : Model)
  | AddInstance (inst : Instance)
  | SetHorizonColor (color : Vec3)
  | SetZenithColor (color : Vec3)
  | SetAccumulateFrames (accumulateFrames : Bool)
deriving DecidableEq, Repr

/-- The effect of one call of `CreateScene` on `m_Scene`. -/
def applySceneCall (s : Scene) : SceneCall → Except Fault Scene
  | SceneCall.AddTextureResource _ fileName => .ok (s.AddTextureResource fileName).1
  | SceneCall.AddModel model =>
    match s.AddModel model with
    | .error e => .error e
    | .ok r => .ok r.1
  | SceneCall.AddInstance inst =>
    match s.AddInstance inst with
    | .error e => .error e
    | .ok r => .ok r.1
  | SceneCall.SetHorizonColor color => .ok { s with horizonColor := color }
  | SceneCall.SetZenithColor color => .ok { s with zenithColor := color }
  | SceneCall.SetAccumulateFrames b => .ok { s with accumulateFrames := b }

/-- The function `RayTracer::CreateScene` on `m_Scene`: its calls are made in
order and the first fatal error stops it.  The result is the fault, if any,
and the scene as it stands then. -/
def CreateScene : List SceneCall → Scene → Option Fault × Scene
  | [], s => (none, s)
  | call :: rest, s =>
    match applySceneCall s call with
    | .error e => (some e, s)
    | .ok s2 => CreateScene rest s2

/-- The value of `vk::Format::eR8G8B8A8Unorm`. -/
def eR8G8B8A8Unorm : Nat := 37

/-- The function `RayTracer::CreateTextureResources` on `m_Textures`: each
texture file of the scene is decoded by `stbi_load` (the parameter
`loadTexture`, giving width and height, or nothing when the file cannot be
read) and appended; a file that cannot be read is a failed assertion. -/
def CreateTextureResources (loadTexture : String → Option (Nat × Nat)) :
    List String → List Image → Option Fault × List Image
  | [], textures => (none, textures)
  | fileName :: rest, textures =>
    match loadTexture fileName with
    | none => (some Fault.assertion, textures)
    | some (width, height) =>
      CreateTextureResources loadTexture rest
        (textures ++ [{ width := width, height := height, format := eR8G8B8A8Unorm }])

/-- The function `RayTracer::CreateUniformBuffers`: one uniform buffer of
`sizeof(UniformBufferObject)` bytes is appended per command buffer. -/
def CreateUniformBuffers (sizeofUniformBufferObject : Nat) (st : RayTracerState) : RayTracerState :=
  { st with
    uniformBuffers := st.uniformBuffers ++
      List.replicate st.app.commandBuffers.length sizeofUniformBufferObject }

/-- The call `std::memcpy(dst + dstOffset, src + srcOffset, n)` on byte
vectors; a range that leaves either vector is undefined behaviour and gives
`none`. -/
def memcpy (dst : List Nat) (dstOffset : Nat) (src : List Nat) (srcOffset n : Nat) :
    Option (List Nat) :=
  if srcOffset + n ≤ src.length ∧ dstOffset + n ≤ dst.length then
    some (dst.take dstOffset ++ (src.drop srcOffset).take n ++ dst.drop (dstOffset + n))
  else none

/-- The copy loop of `CreatePipeline` over the groups `i, i+1, ...`
(`remaining` of them are left).  Both offsets are products of two `uint32_t`
values. -/
def copyGroupHandles (tableStride handleStride : Nat) (shaderHandleStorage : List Nat) :
    Nat → Nat → List Nat → Option (List Nat)
  | 0, _, table => some table
  | remaining + 1, i, table =>
    match memcpy table ((i * tableStride) % 2 ^ 32) shaderHandleStorage
        ((i * handleStride) % 2 ^ 32) handleStride with
    | none => none
    | some table2 =>
      copyGroupHandles tableStride handleStride shaderHandleStorage remaining (i + 1) table2

/-- The shader-binding-table part of `RayTracer::CreatePipeline`: the content
and byte size of `m_ShaderBindingTable`.  `deviceHandles` are the bytes that
`getRayTracingShaderGroupHandlesNV` writes into the handle storage of
`handlesSize` bytes; the table starts zero-filled. -/
def CreatePipeline (numGroups handleSize alignment : Nat) (deviceHandles : List Nat) :
    Option (Buffer Nat) :=
  let layout := tableLayout numGroups handleSize alignment
  let shaderHandleStorage := (List.range layout.handlesSize).map (fun j => deviceHandles.getD j 0)
  let shaderBindingTable := List.replicate layout.tableSize 0
  match copyGroupHandles layout.tableStride layout.handleStride shaderHandleStorage numGroups 0
      shaderBindingTable with
  | none => none
  | some table => some { data := table, size := layout.tableSize }

/-- Modelled from the spec: the header `Constants.glsl` is not among the
sources.  The push-constant block holds the minimum and maximum bounce counts
and the lens aperture and focal length, four 4-byte values. -/
def sizeofConstants : Nat := 16

/-- What `Init` obtains from outside the sources: the device limits and
properties, the calls of `CreateScene`, the image decoder, the bottom-level
and top-level builds, the device's shader-group handles, two record sizes, the
shader-group enumerators and the base-class initialisation. -/
structure Environment where
  maxPushConstantsSize : Nat
  shaderGroupHandleSize : Nat
  shaderGroupBaseAlignment : Nat
  sceneCalls : List SceneCall
  loadTexture : String → Option (Nat × Nat)
  createBottomLevel : List (List GeometryNV) → List Nat
  topLevelHandle : List GeometryInstance → Nat
  shaderGroupHandles : List Nat
  sizeofMaterial : Nat
  sizeofUniformBufferObject : Nat
  groups : ShaderGroups
  superInit : Application → Application

/-- How `Init` ends: the fault that stopped it, if any, the members as they
stand then, and the acceleration structures if they were built. -/
structure InitOutcome where
  fault : Option Fault
  state : RayTracerState
  accelerationStructures : Option AccelerationStructures
deriving DecidableEq, Repr

/-- The members after the base-class initialisation and the query of the ray
tracing properties, the first two statements of `Init`. -/
def initQueried (env : Environment) (st : RayTracerState) : RayTracerState :=
  { st with
    app := env.superInit st.app
    shaderGroupHandleSize := env.shaderGroupHandleSize
    shaderGroupBaseAlignment := env.shaderGroupBaseAlignment }

/-- The members after the buffer-building calls of `Init` that cannot fail:
`CreateVertexBuffer` and `CreateIndexBuffer`. -/
def initGeometryBuffers (st : RayTracerState) : RayTracerState :=
  { st with
    vertexBuffer := some (CreateVertexBuffer st.scene)
    indexBuffer := some (CreateIndexBuffer st.scene) }

/-- The members after `CreateAABBBuffer` and `CreateMaterialBuffer`; the AABB
member keeps its value when no buffer is created. -/
def initInstanceBuffers (env : Environment) (st : RayTracerState) : RayTracerState :=
  { st with
    aabbBuffer := match CreateAABBBuffer st.scene with
      | some b => some b
      | none => st.aabbBuffer
    materialBuffer := some (CreateMaterialBuffer env.sizeofMaterial st.scene) }

/-- The calls of `Init` from `CreateStorageImages` to `RecordCommandBuffers`
(the layout, pipeline-layout and pool calls only create device handles). -/
def initFrameResources (env : Environment) (acc : AccelerationStructures) (st : RayTracerState) :
    InitOutcome :=
  let st1 := CreateUniformBuffers env.sizeofUniformBufferObject (CreateStorageImages st)
  match CreatePipeline env.groups.eNumShaderGroups st1.shaderGroupHandleSize
      st1.shaderGroupBaseAlignment env.shaderGroupHandles with
  | none => { fault := some Fault.undefinedBehaviour, state := st1, accelerationStructures := some acc }
  | some table =>
    let st2 := { st1 with shaderBindingTable := some table }
    match CreateDescriptorSets st2 with
    | none =>
      { fault := some Fault.undefinedBehaviour, state := st2, accelerationStructures := some acc }
    | some st3 =>
      match RecordCommandBuffers env.groups.eRayGenGroup env.groups.eMissGroup
          env.groups.eFirstHitGroup st3 with
      | none =>
        { fault := some Fault.undefinedBehaviour, state := st3, accelerationStructures := some acc }
      | some st4 => { fault := none, state := st4, accelerationStructures := some acc }

/-- The calls of `Init` from `CreateVertexBuffer` on, made once `CreateScene`
has returned. -/
def initResources (env : Environment) (st : RayTracerState) : InitOutcome :=
  let st1 := initGeometryBuffers st
  match CreateOffsetBuffer st1.scene with
  | none => { fault := some Fault.undefinedBehaviour, state := st1, accelerationStructures := none }
  | some offsetBuffer =>
    let st2 := initInstanceBuffers env { st1 with offsetBuffer := some offsetBuffer }
    match CreateTextureResources env.loadTexture st2.scene.textureFileNames st2.textures with
    | (some e, textures) =>
      { fault := some e, state := { st2 with textures := textures }, accelerationStructures := none }
    | (none, textures) =>
      let st3 := { st2 with textures := textures }
      match CreateAccelerationStructures env.createBottomLevel st3.aabbBuffer st3.scene with
      | .error e => { fault := some e, state := st3, accelerationStructures := none }
      | .ok acc =>
        initFrameResources env acc { st3 with tlas := env.topLevelHandle acc.geometryInstances }

/-- The function `RayTracer::Init`: base-class initialisation, the property
query, the push-constant check (which throws `std::runtime_error`), then
`CreateScene` and the resource-building calls in the order of the source. -/
def Init (env : Environment) (st : RayTracerState) : InitOutcome :=
  let st0 := initQueried env st
  if env.maxPushConstantsSize < sizeofConstants then
    { fault := some Fault.runtimeError, state := st0, accelerationStructures := none }
  else
    match CreateScene env.sceneCalls st0.scene with
    | (some e, scene) =>
      { fault := some e, state := { st0 with scene := scene }, accelerationStructures := none }
    | (none, scene) => initResources env { st0 with scene := scene }

/-! ## Box instances -/

/-- The initial value of the static `BoxInstance::sm_ModelIndex` of `Box.cpp`:
the `int` value `~0` converted to `uint32_t`. -/
def BoxInstance.sm_ModelIndex : Nat := notU32 0

/-- The function `BoxInstance::SetModelIndex`: the new value of the static
`sm_ModelIndex`.  The parameter is a `uint32_t`. -/
def BoxInstance.SetModelIndex (modelIndex : Nat) : Nat := modelIndex

/-- The value of the static `sm_ModelIndex` after a sequence of calls of
`SetModelIndex`, oldest first. -/
def BoxInstance.afterCalls (calls : List Nat) : Nat :=
  calls.foldl (fun _ modelIndex => BoxInstance.SetModelIndex modelIndex) BoxInstance.sm_ModelIndex

/-- The constructor `BoxInstance::BoxInstance`.  The base `Instance` is built
from the current value of the static, from the transform that `glm` computes
in floating point from centre, size and rotation (the parameter
`glmTransform`) and from the material; the body then asserts
`sm_ModelIndex != ~0`, the right-hand side being converted to `uint32_t`.
Modelled from the spec: the `ASSERT` macro of `Core.h` is not among the
sources; a failed assertion is a fatal error. -/
def BoxInstance.construct (glmTransform : Vec3 → Vec3 → Vec3 → Mat3x4) (sm_ModelIndex : Nat)
    (centre size rotateRadians : Vec3) (material : Material) : Except Fault Instance :=
  let base : Instance :=
    { modelIndex := sm_ModelIndex
      transform := glmTransform centre size rotateRadians
      material := material }
  if sm_ModelIndex ≠ notU32 0 then .ok base else .error Fault.assertion

/-! ## Per-frame uniform block -/

/-- The type `glm::vec4`. -/
structure Vec4 where
  x : F32
  y : F32
  z : F32
  w : F32
deriving DecidableEq, Repr

/-- The record `UniformBufferObject` as `RenderFrame` initialises it. -/
structure UniformBufferObject where
  viewInverse : List F32
  projInverse : List F32
  horizonColor : Vec4
  zenithColor : Vec4
  accumulatedImageCount : Nat
deriving DecidableEq, Repr

/-- The uniform block that `RayTracer::RenderFrame` builds and copies into the
current uniform buffer.  The two inverse matrices are computed by `glm` in
floating point and are parameters; the colours get the alpha value `0.0`. -/
def frameUniforms (viewInverse projInverse : List F32) (scene : Scene)
    (accumulatedImageCount : Nat) : UniformBufferObject :=
  { viewInverse := viewInverse
    projInverse := projInverse
    horizonColor := { x := scene.horizonColor.x, y := scene.horizonColor.y
                      z := scene.horizonColor.z, w := 0 }
    zenithColor := { x := scene.zenithColor.x, y := scene.zenithColor.y
                     z := scene.zenithColor.z, w := 0 }
    accumulatedImageCount := accumulatedImageCount }

/-- The null-pointer checks that `CreateDescriptorSets` and
`RecordCommandBuffers` rely on: the four scene buffers, both storage images
and the shader binding table exist. -/
def resourcesPresent (st : RayTracerState) : Bool :=
  st.vertexBuffer.isSome && st.indexBuffer.isSome && st.offsetBuffer.isSome &&
  st.materialBuffer.isSome && st.accumulationImage.isSome && st.outputImage.isSome &&
  st.shaderBindingTable.isSome

/-! ## Concrete inputs used below -/

/-- A vertex with all components zero. -/
def vertex0 : Vertex :=
  { pos := { x := 0, y := 0, z := 0 }, normal := { x := 0, y := 0, z := 0 }
    color := { x := 0, y := 0, z := 0 }, textureCoordinate := { x := 0, y := 0 } }

/-- A degenerate bounding box. -/
def aabb0 : AABB := { lo := { x := 0, y := 0, z := 0 }, hi := { x := 0, y := 0, z := 0 } }

/-- A triangle model with the given numbers of vertices and indices. -/
def meshOf (vertexCount indexCount hitGroup : Nat) : Model :=
  { vertices := List.replicate vertexCount vertex0
    indices := List.replicate indexCount 0
    isProcedural := false
    boundingBox := aabb0
    shaderHitGroupIndex := hitGroup }

/-- Model A of the example scenario: 4 vertices, 6 indices. -/
def modelA : Model := meshOf 4 6 0

/-- Model B of the example scenario: 8 vertices, 36 indices. -/
def modelB : Model := meshOf 8 36 0

/-- A grey diffuse material. -/
def greyMaterial : Material :=
  { type := MaterialType.Lambertian, texture := TextureType.FlatColor, parameters := [1, 2, 3] }

/-- A metallic material. -/
def metalMaterial : Material :=
  { type := MaterialType.Metallic, texture := TextureType.FlatColor, parameters := [4] }

/-- An instance of the model with the given index. -/
def instanceOf (modelIndex : Nat) (material : Material) : Instance :=
  { modelIndex := modelIndex, transform := [1, 0, 0, 0, 0, 1, 0, 0, 0, 0, 1, 0]
    material := material }

/-- The example scenario: models `[A, B]`, instances `[B, A, B]`. -/
def exampleScene : Scene :=
  { models := [modelA, modelB]
    instances := [instanceOf 1 greyMaterial, instanceOf 0 metalMaterial, instanceOf 1 greyMaterial]
    accumulateFrames := true
    horizonColor := { x := 0, y := 0, z := 0 }
    zenithColor := { x := 0, y := 0, z := 0 }
    textureFileNames := [] }

/-- A model list whose first model has `2^32` vertices and `2^32` indices. -/
def hugeModels : List Model := [meshOf (2 ^ 32) (2 ^ 32) 0, modelA]

/-- A bottom-level build that gives the structure of geometry group `k` the
handle `k + 1`. -/
def numberedHandles (groups : List (List GeometryNV)) : List Nat :=
  (List.range groups.length).map (fun k => k + 1)

/-- A list of `2^32 + 1` instances of model 0. -/
def hugeInstances : List Instance := List.replicate (2 ^ 32 + 1) (instanceOf 0 greyMaterial)

/-- A scene with one model and `2^32 + 1` instances of it. -/
def hugeScene : Scene :=
  { models := [modelA]
    instances := hugeInstances
    accumulateFrames := true
    horizonColor := { x := 0, y := 0, z := 0 }
    zenithColor := { x := 0, y := 0, z := 0 }
    textureFileNames := [] }

/-- The geometry entry of model A at byte offsets 0. -/
def geometryA : GeometryNV :=
  { geometryType := GeometryType.eTriangles
    triangles := { vertexOffset := 0, vertexCount := 4, vertexStride := 44
                   indexOffset := 0, indexCount := 6 }
    aabbs := { numAABBs := 0, stride := 0, offset := 0 }
    opaqueFlag := true }

/-- The geometry entry of model B behind model A. -/
def geometryB : GeometryNV :=
  { geometryType := GeometryType.eTriangles
    triangles := { vertexOffset := 176, vertexCount := 8, vertexStride := 44
                   indexOffset := 24, indexCount := 36 }
    aabbs := { numAABBs := 0, stride := 0, offset := 0 }
    opaqueFlag := true }

/-- The top-level record of an instance of the example scene. -/
def exampleRecord (instanceId handle : Nat) : GeometryInstance :=
  { transform := [1, 0, 0, 0, 0, 1, 0, 0, 0, 0, 1, 0]
    instanceId := instanceId
    mask := 255
    hitGroupIndex := 0
    flags := 1
    accelerationStructureHandle := handle }

/-- The acceleration structures of the example scene. -/
def exampleStructures : AccelerationStructures :=
  { geometryGroups := [[geometryA], [geometryB]]
    blas := [1, 2]
    geometryInstances := [exampleRecord 0 2, exampleRecord 1 1, exampleRecord 2 2] }

/-- The input with only the W key pressed. -/
def Input.forward : Input := { Input.idle with keyW := true }

/-- A state of the application after `Init` on the example scene, with two
frame slots and 41 samples accumulated. -/
def exampleState : RayTracerState :=
  { app := { deviceValid := true, extentWidth := 800, extentHeight := 600, format := 44
             swapChainFrameBuffers := 2, swapChainImages := [11, 12]
             commandBuffers := [[], []] }
    scene := exampleScene
    vertexBuffer := some (CreateVertexBuffer exampleScene)
    indexBuffer := some (CreateIndexBuffer exampleScene)
    offsetBuffer := CreateOffsetBuffer exampleScene
    aabbBuffer := CreateAABBBuffer exampleScene
    materialBuffer := some (CreateMaterialBuffer 64 exampleScene)
    textures := []
    tlas := 3
    outputImage := some { width := 800, height := 600, format := 44 }
    accumulationImage := some { width := 800, height := 600, format := eR32G32B32A32Sfloat }
    uniformBuffers := [148, 148]
    shaderGroupHandleSize := 16
    shaderGroupBaseAlignment := 64
    shaderBindingTable := some { data := [], size := 320 }
    descriptorSets := []
    accumulatedImageCount := 41 }

/-- A base-class resize handler that adopts a 1024 x 768 extent. -/
def resizeTo1024 (app : Application) : Application :=
  { app with extentWidth := 1024, extentHeight := 768 }

/-- A procedural model with the given bounding box and hit-group index. -/
def proceduralOf (box : AABB) (hitGroup : Nat) : Model :=
  { vertices := [], indices := [], isProcedural := true, boundingBox := box
    shaderHitGroupIndex := hitGroup }

/-- The unit box around the origin (the floats are the bit patterns of -1 and 1). -/
def unitBox : AABB :=
  { lo := { x := 0xbf800000, y := 0xbf800000, z := 0xbf800000 }
    hi := { x := 0x3f800000, y := 0x3f800000, z := 0x3f800000 } }

/-- A model list with a triangle model between two procedural ones. -/
def mixedModels : List Model := [proceduralOf unitBox 1, modelA, proceduralOf aabb0 2]

/-- A scene over `mixedModels` with one instance of each model. -/
def mixedScene : Scene :=
  { exampleScene with
    models := mixedModels
    instances := [instanceOf 0 greyMaterial, instanceOf 1 metalMaterial, instanceOf 2 greyMaterial] }

/-- The scene of a freshly constructed application: nothing registered. -/
def emptyScene : Scene :=
  { models := [], instances := [], accumulateFrames := true
    horizonColor := { x := 0, y := 0, z := 0 }, zenithColor := { x := 0, y := 0, z := 0 }
    textureFileNames := [] }

/-- The members of a freshly constructed application, before `Init`. -/
def freshState : RayTracerState :=
  { app := { deviceValid := false, extentWidth := 0, extentHeight := 0, format := 0
             swapChainFrameBuffers := 0, swapChainImages := [], commandBuffers := [] }
    scene := emptyScene
    vertexBuffer := none, indexBuffer := none, offsetBuffer := none, aabbBuffer := none
    materialBuffer := none, textures := [], tlas := 0, outputImage := none
    accumulationImage := none, uniformBuffers := [], shaderGroupHandleSize := 0
    shaderGroupBaseAlignment := 0, shaderBindingTable := none, descriptorSets := []
    accumulatedImageCount := 0 }

/-- A base-class initialisation that creates the device and two frame slots. -/
def twoFrameInit (app : Application) : Application :=
  { app with deviceValid := true, extentWidth := 800, extentHeight := 600, format := 44
             swapChainFrameBuffers := 2, swapChainImages := [11, 12], commandBuffers := [[], []] }

/-- The calls that assemble the example scene, with one texture. -/
def exampleCalls : List SceneCall :=
  [ SceneCall.AddTextureResource "Earth" "Assets/Textures/earthmap.jpg"
  , SceneCall.AddModel modelA, SceneCall.AddModel modelB
  , SceneCall.AddInstance (instanceOf 1 greyMaterial)
  , SceneCall.AddInstance (instanceOf 0 metalMaterial)
  , SceneCall.AddInstance (instanceOf 1 greyMaterial) ]

/-- An environment in which `Init` completes on the example scene. -/
def exampleEnvironment : Environment :=
  { maxPushConstantsSize := 128, shaderGroupHandleSize := 16, shaderGroupBaseAlignment := 64
    sceneCalls := exampleCalls
    loadTexture := fun _ => some (4, 2)
    createBottomLevel := numberedHandles
    topLevelHandle := fun _ => 7
    shaderGroupHandles := List.range 80
    sizeofMaterial := 64, sizeofUniformBufferObject := 176
    groups := declaredGroups
    superInit := twoFrameInit }

/-- The example environment on a device whose push-constant limit is 8 bytes. -/
def smallLimitEnvironment : Environment := { exampleEnvironment with maxPushConstantsSize := 8 }

/-- The example environment with an instance of a model that was never
registered. -/
def danglingEnvironment : Environment :=
  { exampleEnvironment with
    sceneCalls := [SceneCall.AddModel modelA, SceneCall.AddInstance (instanceOf 3 greyMaterial)] }

/-- The example environment in which the texture file cannot be read. -/
def missingTextureEnvironment : Environment :=
  { exampleEnvironment with loadTexture := fun _ => none }

/-- The example scene with an extra instance of a model that was never
registered. -/
def danglingScene : Scene :=
  { exampleScene with instances := exampleScene.instances ++ [instanceOf 3 greyMaterial] }

/-- A bottom-level build that leaves every handle unbound. -/
def unboundHandles (groups : List (List GeometryNV)) : List Nat :=
  groups.map (fun _ => 0)

/-- A triangle model with `2^32` vertices and `2^32` indices. -/
def hugeMesh : Model := meshOf (2 ^ 32) (2 ^ 32) 0

/-- A transform computation that ignores its arguments. -/
def identityTransform (_centre _size _rotateRadians : Vec3) : Mat3x4 :=
  [1, 0, 0, 0, 0, 1, 0, 0, 0, 0, 1, 0]

/-- The zero vector. -/
def zeroVec3 : Vec3 := { x := 0, y := 0, z := 0 }

/-- Five one-byte shader-group handles. -/
def fiveHandles : List Nat := [10, 11, 12, 13, 14]

/-- A base-class initialisation like `twoFrameInit` with a third swap-chain
image. -/
def threeImageInit (app : Application) : Application :=
  { twoFrameInit app with swapChainImages := [11, 12, 13] }

/-- The example environment with three swap-chain images for two frame slots. -/
def threeImageEnvironment : Environment := { exampleEnvironment with superInit := threeImageInit }

/-- Five two-byte shader-group handles. -/
def tenHandles : List Nat := [1, 2, 3, 4, 5, 6, 7, 8, 9, 10]

/-- The example state before `CreateUniformBuffers` has run. -/
def framesState : RayTracerState := { exampleState with uniformBuffers := [] }

/-! ## Lemmas on the packing loops -/

theorem modelOffsetsLoop_append (ms : List Model) :
    ∀ (vo io : Nat) (acc : List Offset),
      modelOffsetsLoop ms vo io acc = acc ++ modelOffsetsLoop ms vo io [] := by
  induction ms with
  | nil => intro vo io acc; simp [modelOffsetsLoop]
  | cons m ms ih =>
    intro vo io acc
    simp only [modelOffsetsLoop]
    rw [ih _ _ (acc ++ _), ih _ _ ([] ++ _)]
    simp

theorem modelOffsetsLoop_length (ms : List Model) :
    ∀ (vo io : Nat), (modelOffsetsLoop ms vo io []).length = ms.length := by
  induction ms with
  | nil => intro vo io; simp [modelOffsetsLoop]
  | cons m ms ih =>
    intro vo io
    simp only [modelOffsetsLoop]
    rw [modelOffsetsLoop_append, List.length_append, ih]
    simp [Nat.add_comm]

theorem modelOffsetsLoop_getElem (ms : List Model) :
    ∀ (vo io i : Nat), vo < 2 ^ 32 → io < 2 ^ 32 → i < ms.length →
      (modelOffsetsLoop ms vo io [])[i]? =
        some { vertexOffset := (vo + vertexCountBefore ms i) % 2 ^ 32
               indexOffset := (io + indexCountBefore ms i) % 2 ^ 32 } := by
  induction ms with
  | nil => intro vo io i _ _ hi; simp at hi
  | cons m ms ih =>
    intro vo io i hvo hio hi
    simp only [modelOffsetsLoop]
    rw [modelOffsetsLoop_append]
    cases i with
    | zero =>
      simp [vertexCountBefore, indexCountBefore]
      constructor <;> omega
    | succ k =>
      have hk : k < ms.length := by simpa using hi
      simp only [List.nil_append, List.singleton_append, List.getElem?_cons_succ]
      rw [ih _ _ k (Nat.mod_lt _ (by norm_num)) (Nat.mod_lt _ (by norm_num)) hk]
      simp only [vertexCountBefore, indexCountBefore, toU32, List.take_succ_cons, List.map_cons,
        List.sum_cons, Option.some.injEq, Offset.mk.injEq]
      constructor <;> omega

theorem instanceOffsetsLoop_spec (table : List Offset) (insts : List Instance) :
    ∀ (acc out : List Offset), instanceOffsetsLoop table insts acc = some out →
      (∀ inst ∈ insts, inst.modelIndex < table.length) ∧
      out = acc ++ insts.filterMap (fun inst => table[inst.modelIndex]?) ∧
      out.length = acc.length + insts.length := by
  induction insts with
  | nil =>
    intro acc out h
    simp [instanceOffsetsLoop] at h
    simp [h]
  | cons inst rest ih =>
    intro acc out h
    simp only [instanceOffsetsLoop] at h
    cases hlook : table[inst.modelIndex]? with
    | none => simp [hlook] at h
    | some o =>
      simp only [hlook] at h
      obtain ⟨hvalid, hout, hlen⟩ := ih _ _ h
      have hlt : inst.modelIndex < table.length := by
        rcases Nat.lt_or_ge inst.modelIndex table.length with hlt | hge
        · exact hlt
        · rw [List.getElem?_eq_none hge] at hlook; cases hlook
      refine ⟨?_, ?_, ?_⟩
      · intro x hx
        rcases List.mem_cons.mp hx with rfl | hx
        · exact hlt
        · exact hvalid x hx
      · simp [hout, List.filterMap_cons, hlook]
      · simp [hlen]; omega

theorem instanceOffsetsLoop_total (table : List Offset) (insts : List Instance) :
    ∀ (acc : List Offset), (∀ inst ∈ insts, inst.modelIndex < table.length) →
      ∃ out, instanceOffsetsLoop table insts acc = some out := by
  induction insts with
  | nil => intro acc _; exact ⟨acc, rfl⟩
  | cons inst rest ih =>
    intro acc hvalid
    have hlt : inst.modelIndex < table.length := hvalid inst (List.mem_cons_self _ _)
    simp only [instanceOffsetsLoop, List.getElem?_eq_getElem hlt]
    exact ih _ (fun x hx => hvalid x (List.mem_cons_of_mem _ hx))

theorem filterMap_lookup_getElem (table : List Offset) (insts : List Instance)
    (hvalid : ∀ inst ∈ insts, inst.modelIndex < table.length) :
    ∀ (i : Nat) (h : i < insts.length),
      (insts.filterMap (fun inst => table[inst.modelIndex]?))[i]? =
        table[(insts[i]).modelIndex]? := by
  induction insts with
  | nil => intro i h; simp at h
  | cons inst rest ih =>
    intro i h
    have hlt : inst.modelIndex < table.length := hvalid inst (List.mem_cons_self _ _)
    have hrest : ∀ x ∈ rest, x.modelIndex < table.length :=
      fun x hx => hvalid x (List.mem_cons_of_mem _ hx)
    rw [List.filterMap_cons, List.getElem?_eq_getElem hlt]
    cases i with
    | zero => simp [List.getElem?_eq_getElem hlt]
    | succ k =>
      have hk : k < rest.length := by simpa using h
      simpa using ih hrest k hk

theorem packVertices_eq (ms : List Model) :
    ∀ (acc : List Vertex), packVertices ms acc = acc ++ (ms.map (fun m => m.vertices)).flatten := by
  induction ms with
  | nil => intro acc; simp [packVertices]
  | cons m ms ih => intro acc; simp [packVertices, ih]

theorem packIndices_eq (ms : List Model) :
    ∀ (acc : List Nat), packIndices ms acc = acc ++ (ms.map (fun m => m.indices)).flatten := by
  induction ms with
  | nil => intro acc; simp [packIndices]
  | cons m ms ih => intro acc; simp [packIndices, ih]

theorem collectMaterials_eq (insts : List Instance) :
    ∀ (acc : List Material),
      collectMaterials insts acc = acc ++ insts.map (fun inst => inst.material) := by
  induction insts with
  | nil => intro acc; simp [collectMaterials]
  | cons inst rest ih => intro acc; simp [collectMaterials, ih]

/-! ## Offset table (C1) -/

/-- C1 (as amended): for every list of models and every index `i` below the
number of models, entry `i` of the model offset table holds the sums of the
vertex and index counts of models `0..i-1`, each reduced modulo `2^32`; they
are the plain sums whenever those sums are below `2^32`, entry 0 is `(0,0)`,
and for a model A with 4 vertices and 6 indices followed by any model B the
table is `[(0,0), (4,6)]`. -/
theorem modelOffsets_running_sums (models : List Model) (i : Nat) (h : i < models.length) :
    (modelOffsets models)[i]? =
        some { vertexOffset := vertexCountBefore models i % 2 ^ 32
               indexOffset := indexCountBefore models i % 2 ^ 32 } ∧
    (vertexCountBefore models i < 2 ^ 32 → indexCountBefore models i < 2 ^ 32 →
      (modelOffsets models)[i]? =
        some { vertexOffset := vertexCountBefore models i
               indexOffset := indexCountBefore models i }) ∧
    (modelOffsets models)[0]? = some { vertexOffset := 0, indexOffset := 0 } ∧
    (modelOffsets models).length = models.length ∧
    (∀ A B : Model, A.vertices.length = 4 → A.indices.length = 6 →
      modelOffsets [A, B] =
        [{ vertexOffset := 0, indexOffset := 0 }, { vertexOffset := 4, indexOffset := 6 }]) := by
  have hmain := modelOffsetsLoop_getElem models 0 0 i (by norm_num) (by norm_num) h
  simp only [Nat.zero_add] at hmain
  have hzero := modelOffsetsLoop_getElem models 0 0 0 (by norm_num) (by norm_num) (by omega)
  refine ⟨hmain, ?_, ?_, modelOffsetsLoop_length models 0 0, ?_⟩
  · intro hv hi
    rw [modelOffsets, hmain, Nat.mod_eq_of_lt hv, Nat.mod_eq_of_lt hi]
  · simpa [vertexCountBefore, indexCountBefore] using hzero
  · intro A B hA hB
    simp [modelOffsets, modelOffsetsLoop, toU32, hA, hB]

/-- Witness for C1: the amended statement at the example models `[A, B]`, index 1. -/
theorem modelOffsets_running_sums_witness :
    (modelOffsets [modelA, modelB])[1]? = some { vertexOffset := 4, indexOffset := 6 } := by
  have h := (modelOffsets_running_sums [modelA, modelB] 1 (by decide)).1
  simpa [vertexCountBefore, indexCountBefore, modelA, meshOf] using h

/-- Counterexample to C1 as stated: when the first model has `2^32` vertices
and `2^32` indices, entry 1 of the offset table is `(0,0)` while the sums of
the counts of the models before it are `2^32`. -/
theorem modelOffsets_wraps :
    (modelOffsets hugeModels)[1]? = some { vertexOffset := 0, indexOffset := 0 } ∧
    vertexCountBefore hugeModels 1 = 4294967296 ∧
    indexCountBefore hugeModels 1 = 4294967296 := by
  have hv : vertexCountBefore hugeModels 1 = 4294967296 := by
    simp only [vertexCountBefore, hugeModels, meshOf, List.take_succ_cons, List.take_zero,
      List.map_cons, List.map_nil, List.sum_cons, List.sum_nil, List.length_replicate]
    norm_num
  have hi : indexCountBefore hugeModels 1 = 4294967296 := by
    simp only [indexCountBefore, hugeModels, meshOf, List.take_succ_cons, List.take_zero,
      List.map_cons, List.map_nil, List.sum_cons, List.sum_nil, List.length_replicate]
    norm_num
  have hlen : 1 < hugeModels.length := by
    simp only [hugeModels, List.length_cons, List.length_nil]
    omega
  have h := modelOffsetsLoop_getElem hugeModels 0 0 1 (by norm_num) (by norm_num) hlen
  rw [hv, hi] at h
  exact ⟨h, hv, hi⟩

/-! ## Per-instance offset buffer (C2) -/

/-- C2: for every scene whose instances all name a registered model,
`CreateOffsetBuffer` produces a buffer; and whenever it produces a buffer,
every instance names a registered model, the buffer has exactly one entry per
instance, its byte size is 8 per entry, and for every instance index `i` the
entry `i` is the model-offset-table entry at `instances[i].modelIndex`. -/
theorem offsetBuffer_indirection (s : Scene) :
    ((∀ inst ∈ s.instances, inst.modelIndex < s.models.length) →
      ∃ b, CreateOffsetBuffer s = some b) ∧
    ∀ b, CreateOffsetBuffer s = some b →
      (∀ inst ∈ s.instances, inst.modelIndex < s.models.length) ∧
      b.data.length = s.instances.length ∧
      b.size = 8 * s.instances.length ∧
      ∀ (i : Nat) (hi : i < s.instances.length),
        ∃ o, b.data[i]? = some o ∧
          (modelOffsets s.models)[(s.instances[i]).modelIndex]? = some o := by
  have hmo : (modelOffsets s.models).length = s.models.length :=
    modelOffsetsLoop_length s.models 0 0
  constructor
  · intro hvalid
    obtain ⟨out, hout⟩ := instanceOffsetsLoop_total (modelOffsets s.models) s.instances []
      (fun x hx => hmo ▸ hvalid x hx)
    exact ⟨{ data := out, size := out.length * sizeofOffset },
      by simp only [CreateOffsetBuffer, hout]⟩
  intro b h
  unfold CreateOffsetBuffer at h
  cases hloop : instanceOffsetsLoop (modelOffsets s.models) s.instances [] with
  | none => simp [hloop] at h
  | some out =>
    simp only [hloop, Option.some.injEq] at h
    obtain ⟨hvalid, hout, hlen⟩ := instanceOffsetsLoop_spec _ _ _ _ hloop
    have hlen2 : out.length = s.instances.length := by simpa using hlen
    subst h
    refine ⟨fun x hx => hmo ▸ hvalid x hx, hlen2, ?_, ?_⟩
    · simp only [sizeofOffset, hlen2]; omega
    · intro i hi
      have hlt : (s.instances[i]).modelIndex < (modelOffsets s.models).length :=
        hvalid _ (List.getElem_mem hi)
      refine ⟨(modelOffsets s.models)[(s.instances[i]).modelIndex], ?_, List.getElem?_eq_getElem hlt⟩
      show out[i]? = _
      rw [hout, List.nil_append, filterMap_lookup_getElem _ _ hvalid i hi,
        List.getElem?_eq_getElem hlt]

/-- Witness for C2: the example scene, models `[A, B]` and instances
`[B, A, B]`, gets the buffer `[offset(B), offset(A), offset(B)]`, and the
theorem applies to it. -/
theorem offsetBuffer_indirection_witness :
    CreateOffsetBuffer exampleScene =
      some { data := [{ vertexOffset := 4, indexOffset := 6 }, { vertexOffset := 0, indexOffset := 0 },
                      { vertexOffset := 4, indexOffset := 6 }]
             size := 24 } ∧
    ∀ (i : Nat) (hi : i < exampleScene.instances.length),
      ∃ o, [({ vertexOffset := 4, indexOffset := 6 } : Offset), { vertexOffset := 0, indexOffset := 0 },
            { vertexOffset := 4, indexOffset := 6 }][i]? = some o ∧
        (modelOffsets exampleScene.models)[(exampleScene.instances[i]).modelIndex]? = some o :=
  have h : CreateOffsetBuffer exampleScene =
      some { data := [{ vertexOffset := 4, indexOffset := 6 }, { vertexOffset := 0, indexOffset := 0 },
                      { vertexOffset := 4, indexOffset := 6 }]
             size := 24 } := by decide
  ⟨h, ((offsetBuffer_indirection exampleScene).2 _ h).2.2.2⟩

/-! ## Material buffer (C3) -/

/-- C3: for every scene the material buffer has one entry per instance, and
entry `i` is the material of instance `i`: the buffer is the list of the
instances' materials in instance order. -/
theorem materialBuffer_in_instance_order (sizeofMaterial : Nat) (s : Scene) :
    (CreateMaterialBuffer sizeofMaterial s).data = s.instances.map (fun inst => inst.material) ∧
    (CreateMaterialBuffer sizeofMaterial s).data.length = s.instances.length ∧
    (CreateMaterialBuffer sizeofMaterial s).size = s.instances.length * sizeofMaterial ∧
    ∀ (i : Nat) (hi : i < s.instances.length),
      (CreateMaterialBuffer sizeofMaterial s).data[i]? = some (s.instances[i]).material := by
  have hdata : (CreateMaterialBuffer sizeofMaterial s).data =
      s.instances.map (fun inst => inst.material) := by
    simp [CreateMaterialBuffer, collectMaterials_eq]
  refine ⟨hdata, ?_, ?_, ?_⟩
  · rw [hdata, List.length_map]
  · simp [CreateMaterialBuffer, collectMaterials_eq]
  · intro i hi
    rw [hdata, List.getElem?_map, List.getElem?_eq_getElem hi]
    rfl

/-! ## Flattened vertex and index lists (C4) -/

/-- C4: for every list of models the flattened vertex list is the
concatenation of the models' vertex lists in registration order, the flattened
index list is the concatenation of the models' index lists with the values
unchanged, their lengths are the sums of the per-model counts, the vertex
buffer holds the flattened vertex list, and two models with 4/6 and 8/36
vertices/indices give lengths 12 and 42. -/
theorem flattened_lists_are_concatenations (models : List Model) :
    flattenedVertices models = (models.map (fun m => m.vertices)).flatten ∧
    flattenedIndices models = (models.map (fun m => m.indices)).flatten ∧
    (flattenedVertices models).length = (models.map (fun m => m.vertices.length)).sum ∧
    (flattenedIndices models).length = (models.map (fun m => m.indices.length)).sum ∧
    (∀ s : Scene, s.models = models → (CreateVertexBuffer s).data = flattenedVertices models) ∧
    (∀ A B : Model, A.vertices.length = 4 → A.indices.length = 6 →
      B.vertices.length = 8 → B.indices.length = 36 →
      (flattenedVertices [A, B]).length = 12 ∧ (flattenedIndices [A, B]).length = 42) := by
  have hv : flattenedVertices models = (models.map (fun m => m.vertices)).flatten := by
    simp [flattenedVertices, packVertices_eq]
  have hi : flattenedIndices models = (models.map (fun m => m.indices)).flatten := by
    simp [flattenedIndices, packIndices_eq]
  refine ⟨hv, hi, ?_, ?_, ?_, ?_⟩
  · rw [hv, List.length_flatten, List.map_map]; rfl
  · rw [hi, List.length_flatten, List.map_map]; rfl
  · intro s hs
    simp [CreateVertexBuffer, hs]
  · intro A B h1 h2 h3 h4
    simp [flattenedVertices, flattenedIndices, packVertices, packIndices, h1, h2, h3, h4]

/-! ## Top-level instance records (C5, C6) -/

theorem geometryInstancesLoop_spec (models : List Model) (blas : List Nat) (insts : List Instance) :
    ∀ (i : Nat) (acc out : List GeometryInstance), i < 2 ^ 32 →
      geometryInstancesLoop models blas insts i acc = .ok out →
      out.length = acc.length + insts.length ∧
      (∀ j, j < acc.length → out[j]? = acc[j]?) ∧
      ∀ (k : Nat) (hk : k < insts.length),
        ∃ handle model,
          blas[(insts[k]).modelIndex]? = some handle ∧ handle ≠ 0 ∧
          models[(insts[k]).modelIndex]? = some model ∧
          out[acc.length + k]? =
            some { transform := (insts[k]).transform
                   instanceId := (i + k) % 2 ^ 32
                   mask := 0xff
                   hitGroupIndex := model.shaderHitGroupIndex
                   flags := eTriangleCullDisable
                   accelerationStructureHandle := handle } := by
  induction insts with
  | nil =>
    intro i acc out _ h
    simp only [geometryInstancesLoop, Except.ok.injEq] at h
    subst h
    refine ⟨by simp, fun _ _ => rfl, fun k hk => by simp at hk⟩
  | cons inst rest ih =>
    intro i acc out hi h
    simp only [geometryInstancesLoop] at h
    cases hb : blas[inst.modelIndex]? with
    | none => simp [hb] at h
    | some handle =>
      simp only [hb] at h
      by_cases hz : handle = 0
      · simp [hz] at h
      · simp only [hz, if_false] at h
        cases hm : models[inst.modelIndex]? with
        | none => simp [hm] at h
        | some model =>
          simp only [hm] at h
          obtain ⟨hlen, hpre, hrec⟩ := ih _ _ out (Nat.mod_lt _ (by norm_num)) h
          refine ⟨?_, ?_, ?_⟩
          · simp only [List.length_append, List.length_cons, List.length_nil] at hlen ⊢
            omega
          · intro j hj
            rw [hpre j (by simp only [List.length_append, List.length_cons, List.length_nil]; omega),
              List.getElem?_append_left hj]
          · intro k hk
            cases k with
            | zero =>
              refine ⟨handle, model, hb, hz, hm, ?_⟩
              rw [Nat.add_zero, hpre acc.length (by simp)]
              simp
              omega
            | succ k =>
              have hk2 : k < rest.length := by simpa using hk
              obtain ⟨handle2, model2, h1, h2, h3, h4⟩ := hrec k hk2
              refine ⟨handle2, model2, by simpa using h1, h2, by simpa using h3, ?_⟩
              simp only [List.length_append, List.length_cons, List.length_nil,
                Nat.zero_add] at h4
              have e1 : acc.length + (k + 1) = acc.length + 1 + k := by omega
              have e2 : (i + (k + 1)) % 2 ^ 32 = ((i + 1) % 2 ^ 32 + k) % 2 ^ 32 := by omega
              rw [e1, e2, h4]
              simp

theorem geometryInstancesLoop_total (models : List Model) (blas : List Nat) (insts : List Instance) :
    ∀ (i : Nat) (acc : List GeometryInstance),
      (∀ inst ∈ insts, inst.modelIndex < models.length ∧
        ∃ handle, blas[inst.modelIndex]? = some handle ∧ handle ≠ 0) →
      ∃ out, geometryInstancesLoop models blas insts i acc = .ok out := by
  induction insts with
  | nil => intro i acc _; exact ⟨acc, rfl⟩
  | cons inst rest ih =>
    intro i acc hvalid
    obtain ⟨hlt, handle, hb, hz⟩ := hvalid inst (List.mem_cons_self _ _)
    simp only [geometryInstancesLoop, hb, hz, if_false, List.getElem?_eq_getElem hlt]
    exact ih _ _ (fun x hx => hvalid x (List.mem_cons_of_mem _ hx))

theorem createAccelerationStructures_ok (createBottomLevel : List (List GeometryNV) → List Nat)
    (aabbBuffer : Option (Buffer AABB)) (s : Scene) (acc : AccelerationStructures)
    (h : CreateAccelerationStructures createBottomLevel aabbBuffer s = .ok acc) :
    geometryInstancesLoop s.models acc.blas s.instances 0 [] = .ok acc.geometryInstances := by
  unfold CreateAccelerationStructures at h
  cases hg : geometryGroupsLoop aabbBuffer s.models 0 0 0 [] with
  | error e => simp [hg] at h
  | ok groups =>
    simp only [hg] at h
    cases hi : geometryInstancesLoop s.models (createBottomLevel groups) s.instances 0 [] with
    | error e => simp [hi] at h
    | ok insts =>
      simp only [hi, Except.ok.injEq] at h
      subst h
      exact hi

theorem createAccelerationStructures_of_loops
    (createBottomLevel : List (List GeometryNV) → List Nat) (aabbBuffer : Option (Buffer AABB))
    (s : Scene) (groups : List (List GeometryNV)) (out : List GeometryInstance)
    (hg : geometryGroupsLoop aabbBuffer s.models 0 0 0 [] = .ok groups)
    (hi : geometryInstancesLoop s.models (createBottomLevel groups) s.instances 0 [] = .ok out) :
    CreateAccelerationStructures createBottomLevel aabbBuffer s =
      .ok { geometryGroups := groups, blas := createBottomLevel groups, geometryInstances := out } := by
  unfold CreateAccelerationStructures
  rw [hg]
  simp only
  rw [hi]

/-- C5 (as amended): for every scene on which `CreateAccelerationStructures`
succeeds, the list of top-level instance records has the same length as the
scene's instance list, record `i` carries the transform of instance `i`, and
its custom index is `i` modulo `2^32`, hence `i` itself for every `i` below
`2^32`. -/
theorem topLevel_records_follow_instances
    (createBottomLevel : List (List GeometryNV) → List Nat) (aabbBuffer : Option (Buffer AABB))
    (s : Scene) (acc : AccelerationStructures)
    (h : CreateAccelerationStructures createBottomLevel aabbBuffer s = .ok acc) :
    acc.geometryInstances.length = s.instances.length ∧
    ∀ (i : Nat) (hi : i < s.instances.length),
      ∃ r, acc.geometryInstances[i]? = some r ∧
        r.transform = (s.instances[i]).transform ∧
        r.instanceId = i % 2 ^ 32 ∧
        (i < 2 ^ 32 → r.instanceId = i) := by
  have hloop := createAccelerationStructures_ok _ _ _ _ h
  obtain ⟨hlen, _, hrec⟩ := geometryInstancesLoop_spec _ _ _ 0 [] _ (by norm_num) hloop
  refine ⟨by simpa using hlen, ?_⟩
  intro i hi
  obtain ⟨handle, model, _, _, _, hr⟩ := hrec i hi
  simp only [List.length_nil, Nat.zero_add] at hr
  exact ⟨_, hr, rfl, rfl, fun hlt => Nat.mod_eq_of_lt hlt⟩

/-- Witness for C5: the example scene builds, and its three records carry the
custom indices 0, 1, 2. -/
theorem topLevel_records_follow_instances_witness :
    CreateAccelerationStructures numberedHandles none exampleScene = .ok exampleStructures ∧
    exampleStructures.geometryInstances.length = exampleScene.instances.length ∧
    ∀ (i : Nat) (hi : i < exampleScene.instances.length),
      ∃ r, exampleStructures.geometryInstances[i]? = some r ∧
        r.transform = (exampleScene.instances[i]).transform ∧
        r.instanceId = i % 2 ^ 32 ∧
        (i < 2 ^ 32 → r.instanceId = i) :=
  ⟨rfl, topLevel_records_follow_instances numberedHandles none exampleScene exampleStructures rfl⟩

/-- Counterexample to C5 as stated: a scene with `2^32 + 1` instances builds,
and the record at position `2^32` carries the custom index 0. -/
theorem instance_index_wraps :
    ∃ acc r, CreateAccelerationStructures numberedHandles none hugeScene = .ok acc ∧
      acc.geometryInstances[4294967296]? = some r ∧ r.instanceId = 0 := by
  have hg : geometryGroupsLoop none hugeScene.models 0 0 0 [] = .ok [[geometryA]] := rfl
  have hb : numberedHandles [[geometryA]] = [1] := rfl
  have hvalid : ∀ inst ∈ hugeScene.instances, inst.modelIndex < hugeScene.models.length ∧
      ∃ handle, [1][inst.modelIndex]? = some handle ∧ handle ≠ 0 := by
    intro inst hmem
    have hEq : inst = instanceOf 0 greyMaterial := List.eq_of_mem_replicate hmem
    subst hEq
    exact ⟨by decide, 1, by decide, by decide⟩
  obtain ⟨out, hout⟩ := geometryInstancesLoop_total hugeScene.models [1] hugeScene.instances 0 []
    hvalid
  have hlen : 4294967296 < hugeScene.instances.length := by
    show 4294967296 < hugeInstances.length
    simp only [hugeInstances, List.length_replicate]
    norm_num
  obtain ⟨_, _, hrec⟩ := geometryInstancesLoop_spec _ _ _ 0 [] _ (by norm_num) hout
  obtain ⟨handle, model, _, _, _, hr⟩ := hrec 4294967296 hlen
  simp only [List.length_nil, Nat.zero_add] at hr
  have hout2 : geometryInstancesLoop hugeScene.models (numberedHandles [[geometryA]])
      hugeScene.instances 0 [] = .ok out := by
    rw [hb]
    exact hout
  exact ⟨_, _, createAccelerationStructures_of_loops numberedHandles none hugeScene _ _ hg hout2,
    hr, by norm_num⟩

/-- C6: on every scene on which `CreateAccelerationStructures` succeeds, the
record of instance `i` carries the instance's own transform, the visibility
mask `0xff`, the hit-group index of the model at `instances[i].modelIndex`,
and the (non-null) handle stored at position `instances[i].modelIndex` of the
bottom-level list; two instances of the same model therefore carry the same
handle. -/
theorem topLevel_record_contents
    (createBottomLevel : List (List GeometryNV) → List Nat) (aabbBuffer : Option (Buffer AABB))
    (s : Scene) (acc : AccelerationStructures)
    (h : CreateAccelerationStructures createBottomLevel aabbBuffer s = .ok acc) :
    (∀ (i : Nat) (hi : i < s.instances.length),
      ∃ r model handle,
        acc.geometryInstances[i]? = some r ∧
        s.models[(s.instances[i]).modelIndex]? = some model ∧
        acc.blas[(s.instances[i]).modelIndex]? = some handle ∧
        r.transform = (s.instances[i]).transform ∧
        r.mask = 0xff ∧
        r.hitGroupIndex = model.shaderHitGroupIndex ∧
        r.accelerationStructureHandle = handle ∧
        handle ≠ 0) ∧
    (∀ (i j : Nat) (hi : i < s.instances.length) (hj : j < s.instances.length),
      (s.instances[i]).modelIndex = (s.instances[j]).modelIndex →
      ∃ ri rj, acc.geometryInstances[i]? = some ri ∧ acc.geometryInstances[j]? = some rj ∧
        ri.accelerationStructureHandle = rj.accelerationStructureHandle) := by
  have hloop := createAccelerationStructures_ok _ _ _ _ h
  obtain ⟨_, _, hrec⟩ := geometryInstancesLoop_spec _ _ _ 0 [] _ (by norm_num) hloop
  constructor
  · intro i hi
    obtain ⟨handle, model, hb, hz, hm, hr⟩ := hrec i hi
    simp only [List.length_nil, Nat.zero_add] at hr
    exact ⟨_, model, handle, hr, hm, hb, rfl, rfl, rfl, rfl, hz⟩
  · intro i j hi hj hij
    obtain ⟨handle1, model1, hb1, _, _, hr1⟩ := hrec i hi
    obtain ⟨handle2, model2, hb2, _, _, hr2⟩ := hrec j hj
    simp only [List.length_nil, Nat.zero_add] at hr1 hr2
    refine ⟨_, _, hr1, hr2, ?_⟩
    rw [hij, hb2] at hb1
    exact (Option.some.inj hb1).symm

/-- Witness for C6: in the example scene, instances 0 and 2 are both instances
of model B and both records carry the handle of B's bottom-level structure. -/
theorem topLevel_record_contents_witness :
    CreateAccelerationStructures numberedHandles none exampleScene = .ok exampleStructures ∧
    exampleStructures.geometryInstances.map (fun r => r.accelerationStructureHandle) = [2, 1, 2] ∧
    ∃ ri rj, exampleStructures.geometryInstances[0]? = some ri ∧
      exampleStructures.geometryInstances[2]? = some rj ∧
      ri.accelerationStructureHandle = rj.accelerationStructureHandle :=
  ⟨rfl, by decide,
   (topLevel_record_contents numberedHandles none exampleScene exampleStructures rfl).2 0 2
     (by decide) (by decide) (by decide)⟩

/-! ## Shader binding table stride (C7) -/

theorem land_high_mask (x k : Nat) (hx : x < 2 ^ 32) (hk : k ≤ 32) :
    x &&& (2 ^ 32 - 2 ^ k) = 2 ^ k * (x / 2 ^ k) := by
  apply Nat.eq_of_testBit_eq
  intro i
  have hmask : (2 ^ 32 - 2 ^ k).testBit i = (decide (i < 32) && !decide (i < k)) := by
    have h := Nat.testBit_two_pow_sub_succ (x := 2 ^ k - 1) (n := 32)
      (by have := Nat.pow_le_pow_right (show 0 < 2 by norm_num) hk
          have := Nat.two_pow_pos k
          omega) i
    have e : 2 ^ k - 1 + 1 = 2 ^ k := by have := Nat.two_pow_pos k; omega
    rw [e, Nat.testBit_two_pow_sub_one] at h
    exact h
  rw [Nat.testBit_and, hmask, Nat.testBit_mul_pow_two, ← Nat.shiftRight_eq_div_pow,
    Nat.testBit_shiftRight]
  by_cases hik : i < k
  · have : ¬ (i ≥ k) := by omega
    simp [hik, this]
  · have hge : i ≥ k := by omega
    have e : k + (i - k) = i := by omega
    rw [e]
    by_cases hi : i < 32
    · simp [hik, hge, hi]
    · have hfalse : x.testBit i = false :=
        Nat.testBit_lt_two_pow
          (Nat.lt_of_lt_of_le hx (Nat.pow_le_pow_right (by norm_num) (by omega)))
      simp [hfalse]

theorem entrySize_pow_two (handleSize k : Nat) (hk : k < 32) (hfit : handleSize + 2 ^ k ≤ 2 ^ 32) :
    shaderBindingTableEntrySize handleSize (2 ^ k) =
      2 ^ k * ((handleSize + 2 ^ k - 1) / 2 ^ k) := by
  have hpos : 0 < 2 ^ k := Nat.two_pow_pos k
  have hlt : 2 ^ k < 2 ^ 32 := Nat.pow_lt_pow_right (by norm_num) hk
  have hx : subU32 (addU32 handleSize (2 ^ k)) 1 = handleSize + 2 ^ k - 1 := by
    simp only [subU32, addU32]
    generalize 2 ^ k = a at *
    norm_num at *
    omega
  have hm : notU32 (subU32 (2 ^ k) 1) = 2 ^ 32 - 2 ^ k := by
    simp only [subU32, notU32]
    generalize 2 ^ k = a at *
    norm_num at *
    omega
  rw [shaderBindingTableEntrySize, hx, hm]
  exact land_high_mask _ k (by omega) (by omega)

/-- C7 (as amended): for every handle size and every base alignment that is a
power of two below `2^32` with `handleSize + alignment ≤ 2^32`, the entry
stride `(handleSize + alignment - 1) & ~(alignment - 1)` is at least the
handle size and is a multiple of the alignment; and for every handle size and
alignment the table size is `numGroups * entryStride`. -/
theorem entryStride_law (numGroups handleSize k : Nat) (hk : k < 32)
    (hfit : handleSize + 2 ^ k ≤ 2 ^ 32) :
    handleSize ≤ (tableLayout numGroups handleSize (2 ^ k)).entrySize ∧
    2 ^ k ∣ (tableLayout numGroups handleSize (2 ^ k)).entrySize ∧
    ∀ alignment : Nat,
      (tableLayout numGroups handleSize alignment).tableSize =
        numGroups * (tableLayout numGroups handleSize alignment).entrySize := by
  have he : (tableLayout numGroups handleSize (2 ^ k)).entrySize =
      2 ^ k * ((handleSize + 2 ^ k - 1) / 2 ^ k) := entrySize_pow_two handleSize k hk hfit
  have hpos : 0 < 2 ^ k := Nat.two_pow_pos k
  refine ⟨?_, ?_, ?_⟩
  · rw [he]
    have h1 := Nat.div_add_mod (handleSize + 2 ^ k - 1) (2 ^ k)
    have h2 := Nat.mod_lt (handleSize + 2 ^ k - 1) hpos
    omega
  · rw [he]
    exact Dvd.intro _ rfl
  · intro alignment
    simp only [tableLayout]
    exact Nat.mul_comm _ _

/-- Witness for C7: handle size 16 with base alignment 64 gives the stride 64. -/
theorem entryStride_law_witness :
    (tableLayout 5 16 (2 ^ 6)).entrySize = 64 ∧
    16 ≤ (tableLayout 5 16 (2 ^ 6)).entrySize ∧
    2 ^ 6 ∣ (tableLayout 5 16 (2 ^ 6)).entrySize :=
  ⟨by decide, (entryStride_law 5 16 6 (by decide) (by decide)).1,
    (entryStride_law 5 16 6 (by decide) (by decide)).2.1⟩

/-- Counterexample to C7 as stated: with handle size 16 and alignment 24 the
stride is 32, which is not a multiple of 24; with alignment 0 the stride is 0,
which is below the handle size; and with handle size `2^32 - 1` and alignment
2 the sum wraps and the stride is 0. -/
theorem entryStride_not_for_every_alignment :
    (tableLayout 5 16 24).entrySize = 32 ∧ ¬ (24 ∣ (tableLayout 5 16 24).entrySize) ∧
    (tableLayout 5 16 0).entrySize = 0 ∧ ¬ (16 ≤ (tableLayout 5 16 0).entrySize) ∧
    (tableLayout 5 4294967295 2).entrySize = 0 := by
  decide

/-! ## Frame accumulation (C8, C9) -/

theorem updateFrames_idle (inputs : List Input) :
    ∀ count : Nat, (∀ input ∈ inputs, input.movement = false) → count + inputs.length < 2 ^ 32 →
      UpdateFrames true inputs count = count + inputs.length := by
  induction inputs with
  | nil => intro count _ _; simp [UpdateFrames]
  | cons input rest ih =>
    intro count hidle hfit
    have h0 : input.movement = false := hidle input (List.mem_cons_self _ _)
    simp only [List.length_cons] at hfit
    have hstep : Update input true count = count + 1 := by
      simp only [Update, h0]
      norm_num at hfit ⊢
      omega
    simp only [UpdateFrames, hstep]
    rw [ih (count + 1) (fun x hx => hidle x (List.mem_cons_of_mem _ hx)) (by omega)]
    simp only [List.length_cons]
    omega

/-- C8 (as amended): with no movement-class input and accumulation enabled, a
call of `Update` on a counter below `2^32 - 1` leaves the counter increased by
exactly 1 (in general it leaves `(counter + 1) mod 2^32`), and after `k`
consecutive such frames that keep `counter + k` below `2^32` the counter has
grown by exactly `k`. -/
theorem update_increments_by_one (input : Input) (count : Nat)
    (hidle : input.movement = false) (hfit : count < 2 ^ 32 - 1) :
    Update input true count = count + 1 ∧
    (∀ c : Nat, Update input true c = (c + 1) % 2 ^ 32) ∧
    ∀ inputs : List Input, (∀ i ∈ inputs, i.movement = false) →
      count + inputs.length < 2 ^ 32 →
      UpdateFrames true inputs count = count + inputs.length := by
  refine ⟨?_, ?_, fun inputs h1 h2 => updateFrames_idle inputs count h1 h2⟩
  · simp only [Update, hidle]
    norm_num at hfit ⊢
    omega
  · intro c
    simp [Update, hidle]

/-- Witness for C8: an idle frame takes the counter from 41 to 42, and three
idle frames take it to 44. -/
theorem update_increments_by_one_witness :
    Update Input.idle true 41 = 42 ∧
    UpdateFrames true [Input.idle, Input.idle, Input.idle] 41 = 44 :=
  ⟨(update_increments_by_one Input.idle 41 (by decide) (by decide)).1,
   (update_increments_by_one Input.idle 41 (by decide) (by decide)).2.2
     [Input.idle, Input.idle, Input.idle] (by decide) (by decide)⟩

/-- Counterexample to C8 as stated: an idle frame with accumulation enabled
takes the counter `2^32 - 1` to 0, not to `2^32`. -/
theorem update_wraps_at_max :
    Input.idle.movement = false ∧ Update Input.idle true 4294967295 = 0 ∧
    Update Input.idle true 4294967295 ≠ 4294967295 + 1 := by
  decide

/-- C9 (as amended): for every prior counter value, if a movement-class input
is present or the scene has accumulation disabled, the counter is 1 after that
frame's `Update` (it is reset to 0 and then incremented in the same call);
with accumulation disabled it is 1 after every frame. -/
theorem update_resets_to_one (input : Input) (accumulateFrames : Bool) (count : Nat)
    (h : input.movement = true ∨ accumulateFrames = false) :
    Update input accumulateFrames count = 1 ∧
    ∀ (inputs : List Input) (c : Nat), inputs ≠ [] → UpdateFrames false inputs c = 1 := by
  constructor
  · rcases h with h | h
    · cases accumulateFrames <;> simp [Update, h]
    · simp [Update, h]
  · intro inputs
    induction inputs with
    | nil => intro c hne; exact absurd rfl hne
    | cons i rest ih =>
      intro c _
      have hstep : Update i false c = 1 := by simp [Update]
      simp only [UpdateFrames, hstep]
      cases rest with
      | nil => rfl
      | cons j rest2 => exact ih 1 (by simp)

/-- Witness for C9: a frame with the W key pressed takes the counter from 41
to 1. -/
theorem update_resets_to_one_witness :
    Input.forward.movement = true ∧ Update Input.forward true 41 = 1 :=
  ⟨by decide, (update_resets_to_one Input.forward true 41 (Or.inl (by decide))).1⟩

/-- Counterexample to C9 as stated: after a frame with the W key pressed, and
after a frame with accumulation disabled, the counter is 1, not 0. -/
theorem update_reset_is_not_zero :
    Input.forward.movement = true ∧ Update Input.forward true 41 ≠ 0 ∧
    Update Input.idle false 41 ≠ 0 := by
  decide

/-! ## Window resize (C10) -/

theorem descriptorSetsLoop_length (st : RayTracerState) :
    ∀ (remaining i : Nat) (acc sets : List DescriptorSet),
      descriptorSetsLoop st remaining i acc = some sets → sets.length = acc.length + remaining := by
  intro remaining
  induction remaining with
  | zero =>
    intro i acc sets h
    simp only [descriptorSetsLoop, Option.some.injEq] at h
    simp [h]
  | succ n ih =>
    intro i acc sets h
    simp only [descriptorSetsLoop] at h
    cases hw : writeDescriptorSet st i with
    | none => simp [hw] at h
    | some set =>
      simp only [hw] at h
      rw [ih _ _ _ h, List.length_append, List.length_singleton]
      omega

theorem recordLoop_length (g0 g1 g2 : Nat) (st : RayTracerState) :
    ∀ (remaining i : Nat) (acc recorded : List (List Command)),
      recordLoop g0 g1 g2 st remaining i acc = some recorded →
      recorded.length = acc.length + remaining := by
  intro remaining
  induction remaining with
  | zero =>
    intro i acc recorded h
    simp only [recordLoop, Option.some.injEq] at h
    simp [h]
  | succ n ih =>
    intro i acc recorded h
    simp only [recordLoop] at h
    cases hw : recordCommandBuffer g0 g1 g2 st i with
    | none => simp [hw] at h
    | some commands =>
      simp only [hw] at h
      rw [ih _ _ _ h, List.length_append, List.length_singleton]
      omega

/-- C10: whenever `OnWindowResized` completes, the accumulated-sample counter
is 0; the scene (models, instances, materials) and the vertex, index, offset,
material and AABB buffers are the ones from before the resize; and the whole
new state is the old one with the base-class part as the base handler left it
except for newly recorded command buffers (one per command buffer), both
storage images created at the new extent, and a new list of descriptor sets
(one per swap-chain frame buffer). -/
theorem resize_keeps_scene_and_resets_counter
    (superOnWindowResized : Application → Application) (eRayGenGroup eMissGroup eFirstHitGroup : Nat)
    (st st2 : RayTracerState)
    (h : OnWindowResized superOnWindowResized eRayGenGroup eMissGroup eFirstHitGroup st = some st2) :
    st2.accumulatedImageCount = 0 ∧
    st2.scene = st.scene ∧
    st2.scene.models = st.scene.models ∧
    st2.scene.instances = st.scene.instances ∧
    st2.scene.instances.map (fun inst => inst.material) =
      st.scene.instances.map (fun inst => inst.material) ∧
    st2.vertexBuffer = st.vertexBuffer ∧
    st2.indexBuffer = st.indexBuffer ∧
    st2.offsetBuffer = st.offsetBuffer ∧
    st2.materialBuffer = st.materialBuffer ∧
    st2.aabbBuffer = st.aabbBuffer ∧
    ∃ (sets : List DescriptorSet) (recorded : List (List Command)),
      sets.length = (superOnWindowResized st.app).swapChainFrameBuffers ∧
      recorded.length = (superOnWindowResized st.app).commandBuffers.length ∧
      st2 = { st with
              app := { superOnWindowResized st.app with commandBuffers := recorded }
              outputImage := some { width := (superOnWindowResized st.app).extentWidth
                                    height := (superOnWindowResized st.app).extentHeight
                                    format := (superOnWindowResized st.app).format }
              accumulationImage := some { width := (superOnWindowResized st.app).extentWidth
                                          height := (superOnWindowResized st.app).extentHeight
                                          format := eR32G32B32A32Sfloat }
              descriptorSets := sets
              accumulatedImageCount := 0 } := by
  simp only [OnWindowResized] at h
  cases h4 : CreateDescriptorSets (CreateStorageImages (DestroyDescriptorSets
      { st with app := superOnWindowResized st.app })) with
  | none => simp [h4] at h
  | some st4 =>
    simp only [h4] at h
    cases h5 : RecordCommandBuffers eRayGenGroup eMissGroup eFirstHitGroup st4 with
    | none => simp [h5] at h
    | some st5 =>
      simp only [h5, Option.some.injEq] at h
      simp only [CreateDescriptorSets] at h4
      cases hl : descriptorSetsLoop (CreateStorageImages (DestroyDescriptorSets
          { st with app := superOnWindowResized st.app }))
          (CreateStorageImages (DestroyDescriptorSets
            { st with app := superOnWindowResized st.app })).app.swapChainFrameBuffers 0 [] with
      | none => simp [hl] at h4
      | some sets =>
        simp only [hl, Option.some.injEq] at h4
        have hsets := descriptorSetsLoop_length _ _ _ _ _ hl
        simp only [RecordCommandBuffers] at h5
        cases hr : recordLoop eRayGenGroup eMissGroup eFirstHitGroup st4
            st4.app.commandBuffers.length 0 [] with
        | none => simp [hr] at h5
        | some recorded =>
          simp only [hr, Option.some.injEq] at h5
          have hrec := recordLoop_length _ _ _ _ _ _ _ _ hr
          subst h5
          subst h4
          subst h
          by_cases hd : (superOnWindowResized st.app).deviceValid = true
          · simp [DestroyDescriptorSets, CreateStorageImages, hd] at hsets hrec ⊢
            exact ⟨sets, hsets, recorded, hrec, rfl, rfl⟩
          · simp [DestroyDescriptorSets, CreateStorageImages, hd] at hsets hrec ⊢
            exact ⟨sets, hsets, recorded, hrec, rfl, rfl⟩

/-- Witness for C10: the example state is resized to 1024 x 768; the handler
completes, the counter drops from 41 to 0 and the scene is the example scene. -/
theorem resize_keeps_scene_and_resets_counter_witness :
    ∃ st2, OnWindowResized resizeTo1024 0 1 2 exampleState = some st2 ∧
      st2.accumulatedImageCount = 0 ∧ st2.scene = exampleScene ∧
      st2.outputImage = some { width := 1024, height := 768, format := 44 } := by
  cases h : OnWindowResized resizeTo1024 0 1 2 exampleState with
  | none =>
    have hsome : (OnWindowResized resizeTo1024 0 1 2 exampleState).isSome = true := by decide
    rw [h] at hsome
    cases hsome
  | some st2 =>
    have hthm := resize_keeps_scene_and_resets_counter resizeTo1024 0 1 2 exampleState st2 h
    obtain ⟨sets, recorded, _, _, heq⟩ := hthm.2.2.2.2.2.2.2.2.2.2
    exact ⟨st2, rfl, hthm.1, hthm.2.1, by rw [heq]; rfl⟩

/-! ## Dispatch tags and trace offsets (C11) -/

/-- C11: for the declared group order `[RayGen, Miss, Triangles, Sphere, Box]`
the tags registered by `CreateScene` are 0 for triangles, 1 for spheres and 2
for boxes; each tag added to the first hit group's index gives back the kind's
own group (and so for any enumerators with the kind's group at or after the
first hit group); and every recorded trace call uses the table offsets
`entryStride * 0`, `entryStride * 1` and `entryStride * 2` for ray generation,
miss and the first hit group, with miss and hit stride `entryStride`. -/
theorem dispatch_tags_select_own_group :
    registerDefaultHitGroups declaredGroups = { model := 0, sphere := 1, box := 2 } ∧
    declaredGroups.eFirstHitGroup + (registerDefaultHitGroups declaredGroups).model =
      declaredGroups.eTrianglesHitGroup ∧
    declaredGroups.eFirstHitGroup + (registerDefaultHitGroups declaredGroups).sphere =
      declaredGroups.eSphereHitGroup ∧
    declaredGroups.eFirstHitGroup + (registerDefaultHitGroups declaredGroups).box =
      declaredGroups.eBoxHitGroup ∧
    (∀ first kind : Nat, first ≤ kind → kind < 2 ^ 32 → first + subU32 kind first = kind) ∧
    ∀ (st : RayTracerState) (i : Nat) (commands : List Command),
      recordCommandBuffer declaredGroups.eRayGenGroup declaredGroups.eMissGroup
        declaredGroups.eFirstHitGroup st i = some commands →
      commands[3]? = some (Command.traceRaysNV
        (shaderBindingTableEntrySize st.shaderGroupHandleSize st.shaderGroupBaseAlignment * 0)
        (shaderBindingTableEntrySize st.shaderGroupHandleSize st.shaderGroupBaseAlignment * 1)
        (shaderBindingTableEntrySize st.shaderGroupHandleSize st.shaderGroupBaseAlignment)
        (shaderBindingTableEntrySize st.shaderGroupHandleSize st.shaderGroupBaseAlignment * 2)
        (shaderBindingTableEntrySize st.shaderGroupHandleSize st.shaderGroupBaseAlignment)
        st.app.extentWidth st.app.extentHeight 1) := by
  refine ⟨by decide, by decide, by decide, by decide, ?_, ?_⟩
  · intro first kind h1 h2
    simp only [subU32]
    norm_num at h2 ⊢
    omega
  · intro st i commands h
    unfold recordCommandBuffer at h
    split at h
    · simp only [Option.some.injEq] at h
      subst h
      rfl
    · cases h

set_option maxRecDepth 100000 in
/-- Witness for C11: after `Init` in the example environment (handle size 16,
alignment 64) command buffer 0 traces with offsets 0, 64 and 128 and strides
64. -/
theorem dispatch_tags_select_own_group_witness :
    ∃ commands,
      recordCommandBuffer 0 1 2 (Init exampleEnvironment freshState).state 0 = some commands ∧
      commands[3]? = some (Command.traceRaysNV 0 64 64 128 64 800 600 1) := by
  cases h : recordCommandBuffer 0 1 2 (Init exampleEnvironment freshState).state 0 with
  | none =>
    have hsome : (recordCommandBuffer 0 1 2 (Init exampleEnvironment freshState).state 0).isSome
        = true := rfl
    rw [h] at hsome
    cases hsome
  | some commands =>
    have hthm := dispatch_tags_select_own_group.2.2.2.2.2
      (Init exampleEnvironment freshState).state 0 commands h
    refine ⟨commands, rfl, ?_⟩
    rw [hthm]
    rfl

/-! ## Binding slots (C15) -/

/-- C15: the binding slots are 0 = top-level acceleration structure, 1 =
accumulation image, 2 = output image, 3 = uniform block, 4 = vertex buffer,
5 = index buffer, 6 = offset buffer, 7 = material buffer, 8 = texture sampler
array; they are pairwise distinct and are exactly `0..BINDING_NUMBINDINGS-1`;
the layout array of `CreateDescriptorSetLayout` and the write array of
`CreateDescriptorSets` list exactly these slots in this order, and the binding
count passed to the device is the number of slots, 9.  The first six slots
are those of the header of `005 - RayTraceSpheres`. -/
theorem binding_slots_contract (textureCount : Nat) :
    [BINDING_TLAS, BINDING_ACCUMULATIONIMAGE, BINDING_OUTPUTIMAGE, BINDING_UNIFORMBUFFER,
      BINDING_VERTEXBUFFER, BINDING_INDEXBUFFER, BINDING_OFFSETBUFFER, BINDING_MATERIALBUFFER,
      BINDING_TEXTURESAMPLERS] = [0, 1, 2, 3, 4, 5, 6, 7, 8] ∧
    writeDescriptorSlots.Nodup ∧
    writeDescriptorSlots = List.range BINDING_NUMBINDINGS ∧
    (CreateDescriptorSetLayout textureCount).1.map (fun b => b.binding) =
      List.range BINDING_NUMBINDINGS ∧
    (CreateDescriptorSetLayout textureCount).1 = listedLayoutBindings textureCount ∧
    (CreateDescriptorSetLayout textureCount).2 = 9 ∧
    BINDING_NUMBINDINGS = writeDescriptorSlots.length ∧
    raySpheresBindings.take 6 =
      [("BINDING_TLAS", BINDING_TLAS), ("BINDING_ACCUMULATIONIMAGE", BINDING_ACCUMULATIONIMAGE),
       ("BINDING_OUTPUTIMAGE", BINDING_OUTPUTIMAGE), ("BINDING_UNIFORMBUFFER", BINDING_UNIFORMBUFFER),
       ("BINDING_VERTEXBUFFER", BINDING_VERTEXBUFFER), ("BINDING_INDEXBUFFER", BINDING_INDEXBUFFER)] := by
  have hlist : (CreateDescriptorSetLayout textureCount).1 = listedLayoutBindings textureCount := by
    simp [CreateDescriptorSetLayout, listedLayoutBindings, BINDING_NUMBINDINGS]
  refine ⟨by decide, by decide, by decide, ?_, hlist, ?_, by decide, by decide⟩
  · rw [hlist]
    simp [listedLayoutBindings]
    decide
  · simp [CreateDescriptorSetLayout, listedLayoutBindings, BINDING_NUMBINDINGS, toU32]

/-! ## Vertex record layout (C16) -/

/-- C16: the vertex record consists of position (3 floats), normal (3 floats),
colour (3 floats) and texture coordinate (2 floats) in that order, at byte
offsets 0, 12, 24 and 36 with 4-byte floats; its size, the binding stride, is
44 bytes, the sum of the member sizes, so there is no padding. -/
theorem vertex_layout :
    vertexMembers.map (fun m => (m.name, m.size / sizeofFloat)) =
      [("pos", 3), ("normal", 3), ("color", 3), ("textureCoordinate", 2)] ∧
    memberOffsets vertexMembers 0 =
      [("pos", 0), ("normal", 12), ("color", 24), ("textureCoordinate", 36)] ∧
    GetAttributeDescriptions.map (fun a => (a.location, a.offset)) =
      [(0, 0), (1, 12), (2, 24), (3, 36)] ∧
    GetBindingDescription = (0, 44) ∧
    recordSize vertexMembers = (vertexMembers.map (fun m => m.size)).sum ∧
    recordSize vertexMembers = sizeofVertex ∧
    recordSize vertexMembers = 11 * sizeofFloat := by
  decide

/-! ## Unbound bottom-level handles (C14) -/

theorem geometryInstancesLoop_null (models : List Model) (blas : List Nat) (insts : List Instance) :
    ∀ (i : Nat) (acc : List GeometryInstance),
      (∃ inst ∈ insts, blas[inst.modelIndex]? = some 0) →
      ∃ e, geometryInstancesLoop models blas insts i acc = .error e ∧
        (e = Fault.assertion ∨ e = Fault.outOfRange) ∧
        ((∀ inst ∈ insts, inst.modelIndex < blas.length ∧ inst.modelIndex < models.length) →
          e = Fault.assertion) := by
  induction insts with
  | nil => intro i acc h; obtain ⟨inst, hmem, _⟩ := h; cases hmem
  | cons inst rest ih =>
    intro i acc h
    simp only [geometryInstancesLoop]
    cases hb : blas[inst.modelIndex]? with
    | none =>
      refine ⟨Fault.outOfRange, rfl, Or.inr rfl, ?_⟩
      intro hr
      have hlt := (hr inst (List.mem_cons_self _ _)).1
      rw [List.getElem?_eq_getElem hlt] at hb
      cases hb
    | some handle =>
      by_cases hz : handle = 0
      · exact ⟨Fault.assertion, by simp [hz], Or.inl rfl, fun _ => rfl⟩
      · simp only [hz, if_false]
        cases hm : models[inst.modelIndex]? with
        | none =>
          refine ⟨Fault.outOfRange, rfl, Or.inr rfl, ?_⟩
          intro hr
          have hlt := (hr inst (List.mem_cons_self _ _)).2
          rw [List.getElem?_eq_getElem hlt] at hm
          cases hm
        | some model =>
          have hrest : ∃ x ∈ rest, blas[x.modelIndex]? = some 0 := by
            obtain ⟨x, hx, hx0⟩ := h
            rcases List.mem_cons.mp hx with rfl | hx
            · rw [hb] at hx0
              exact absurd (Option.some.inj hx0) hz
            · exact ⟨x, hx, hx0⟩
          obtain ⟨e, he, hor, hass⟩ := ih ((i + 1) % 2 ^ 32) _ hrest
          exact ⟨e, he, hor, fun hr => hass (fun x hx => hr x (List.mem_cons_of_mem _ hx))⟩

/-- C14: if the bottom-level structure of some instance's model has a null
handle, `CreateAccelerationStructures` ends in a fatal error and hands no
instance list to the top-level build (the error is the failed assertion
whenever every model index is in range); and if it succeeds, every top-level
record carries a non-null handle taken from the bottom-level list. -/
theorem null_handle_is_fatal (createBottomLevel : List (List GeometryNV) → List Nat)
    (aabbBuffer : Option (Buffer AABB)) (s : Scene) :
    (∀ groups, geometryGroupsLoop aabbBuffer s.models 0 0 0 [] = .ok groups →
      (∃ inst ∈ s.instances, (createBottomLevel groups)[inst.modelIndex]? = some 0) →
      ∃ e, CreateAccelerationStructures createBottomLevel aabbBuffer s = .error e ∧
        ((∀ inst ∈ s.instances, inst.modelIndex < (createBottomLevel groups).length ∧
            inst.modelIndex < s.models.length) → e = Fault.assertion)) ∧
    (∀ e, geometryGroupsLoop aabbBuffer s.models 0 0 0 [] = .error e →
      CreateAccelerationStructures createBottomLevel aabbBuffer s = .error e) ∧
    ∀ acc, CreateAccelerationStructures createBottomLevel aabbBuffer s = .ok acc →
      ∀ r ∈ acc.geometryInstances,
        r.accelerationStructureHandle ≠ 0 ∧ r.accelerationStructureHandle ∈ acc.blas := by
  refine ⟨?_, ?_, ?_⟩
  · intro groups hg hnull
    obtain ⟨e, he, _, hass⟩ :=
      geometryInstancesLoop_null s.models (createBottomLevel groups) s.instances 0 [] hnull
    refine ⟨e, ?_, hass⟩
    unfold CreateAccelerationStructures
    rw [hg]
    simp only
    rw [he]
  · intro e hg
    unfold CreateAccelerationStructures
    rw [hg]
  · intro acc h r hr
    have hloop := createAccelerationStructures_ok _ _ _ _ h
    obtain ⟨hlen, _, hrec⟩ := geometryInstancesLoop_spec _ _ _ 0 [] _ (by norm_num) hloop
    obtain ⟨k, hk, hget⟩ := List.getElem_of_mem hr
    have hk2 : k < s.instances.length := by simpa [hlen] using hk
    obtain ⟨handle, model, hb, hz, _, hout⟩ := hrec k hk2
    simp only [List.length_nil, Nat.zero_add] at hout
    rw [List.getElem?_eq_getElem hk, hget] at hout
    have hr2 := Option.some.inj hout
    subst hr2
    exact ⟨hz, List.getElem?_mem hb⟩

/-- Witness for C14: with every bottom-level handle unbound the example scene
fails with the assertion, and with numbered handles it builds with handles 2,
1, 2. -/
theorem null_handle_is_fatal_witness :
    CreateAccelerationStructures unboundHandles none exampleScene = .error Fault.assertion ∧
    ∀ r ∈ exampleStructures.geometryInstances,
      r.accelerationStructureHandle ≠ 0 ∧ r.accelerationStructureHandle ∈ exampleStructures.blas :=
  ⟨rfl, (null_handle_is_fatal numberedHandles none exampleScene).2.2 exampleStructures rfl⟩

/-! ## AABB buffer (C17, C18) -/

theorem collectAABBs_eq (ms : List Model) :
    ∀ acc : List AABB,
      collectAABBs ms acc =
        acc ++ (ms.filter (fun m => m.isProcedural)).map (fun m => m.boundingBox) := by
  induction ms with
  | nil => intro acc; simp [collectAABBs]
  | cons m ms ih =>
    intro acc
    simp only [collectAABBs]
    cases hp : m.isProcedural <;> simp [ih, hp]

theorem createAABBBuffer_isSome (s : Scene) :
    (CreateAABBBuffer s).isSome = true ↔ ∃ m ∈ s.models, m.isProcedural = true := by
  simp only [CreateAABBBuffer, collectAABBs_eq, List.nil_append, List.length_map, sizeofAABB]
  constructor
  · intro h
    by_cases hpos : (s.models.filter (fun m => m.isProcedural)).length * 24 > 0
    · have hne : 0 < (s.models.filter (fun m => m.isProcedural)).length := by omega
      obtain ⟨m, hm⟩ := List.exists_mem_of_length_pos hne
      rw [List.mem_filter] at hm
      exact ⟨m, hm.1, hm.2⟩
    · simp [hpos] at h
  · intro h
    obtain ⟨m, hm, hp⟩ := h
    have hmem : m ∈ s.models.filter (fun m => m.isProcedural) := List.mem_filter.mpr ⟨hm, hp⟩
    have hne : 0 < (s.models.filter (fun m => m.isProcedural)).length := List.length_pos_of_mem hmem
    have hpos : (s.models.filter (fun m => m.isProcedural)).length * 24 > 0 := by omega
    simp [hpos]

/-- C17: `CreateAABBBuffer` creates a buffer if and only if the scene has at
least one procedural model; with no procedural model the AABB list is empty
and no buffer is created; a created buffer holds 24 bytes per procedural
model. -/
theorem aabbBuffer_created_iff_procedural (s : Scene) :
    ((CreateAABBBuffer s).isSome = true ↔ ∃ m ∈ s.models, m.isProcedural = true) ∧
    ((∀ m ∈ s.models, m.isProcedural = false) →
      collectAABBs s.models [] = [] ∧ CreateAABBBuffer s = none) ∧
    ∀ b, CreateAABBBuffer s = some b →
      b.size = 24 * (s.models.filter (fun m => m.isProcedural)).length ∧ 0 < b.size := by
  refine ⟨createAABBBuffer_isSome s, ?_, ?_⟩
  · intro hall
    have hfilter : s.models.filter (fun m => m.isProcedural) = [] := by
      rw [List.filter_eq_nil_iff]
      intro m hm
      simp [hall m hm]
    refine ⟨by rw [collectAABBs_eq, hfilter]; rfl, ?_⟩
    simp [CreateAABBBuffer, collectAABBs_eq, hfilter]
  · intro b hb
    simp only [CreateAABBBuffer, collectAABBs_eq, List.nil_append, List.length_map, sizeofAABB] at hb
    split at hb
    · rename_i hpos
      simp only [Option.some.injEq] at hb
      subst hb
      simp only
      omega
    · cases hb

/-- Witness for C17: the example scene has no procedural model and gets no
AABB buffer; the mixed scene has two and gets a buffer of 48 bytes. -/
theorem aabbBuffer_created_iff_procedural_witness :
    CreateAABBBuffer exampleScene = none ∧
    CreateAABBBuffer mixedScene = some { data := [unitBox, aabb0], size := 48 } ∧
    (∃ m ∈ mixedScene.models, m.isProcedural = true) :=
  ⟨((aabbBuffer_created_iff_procedural exampleScene).2.1 (by decide)).2, by decide,
   (aabbBuffer_created_iff_procedural mixedScene).1.mp (by decide)⟩

/-- C18: for every list of models the AABB list built by `CreateAABBBuffer`
is the list of the bounding boxes of the procedural models in registration
order, the model list filtered by `IsProcedural` and mapped by
`GetBoundingBox`; a created buffer holds exactly this list. -/
theorem aabb_list_is_filtered_boxes (models : List Model) :
    collectAABBs models [] =
      (models.filter (fun m => m.isProcedural)).map (fun m => m.boundingBox) ∧
    (∀ (s : Scene) (b : Buffer AABB), s.models = models → CreateAABBBuffer s = some b →
      b.data = (models.filter (fun m => m.isProcedural)).map (fun m => m.boundingBox)) ∧
    (∀ (pre post : List Model) (m : Model), m.isProcedural = false →
      collectAABBs (pre ++ m :: post) [] = collectAABBs (pre ++ post) []) := by
  refine ⟨by rw [collectAABBs_eq]; rfl, ?_, ?_⟩
  · intro s b hs hb
    simp only [CreateAABBBuffer, collectAABBs_eq, List.nil_append, hs] at hb
    split at hb
    · simp only [Option.some.injEq] at hb
      subst hb
      rfl
    · cases hb
  · intro pre post m hm
    simp [collectAABBs_eq, List.filter_append, List.filter_cons, hm]

/-! ## Bottom-level geometry entries (C19, C20) -/

theorem geometryGroupsLoop_spec (aabbBuffer : Option (Buffer AABB)) (ms : List Model) :
    ∀ (vo io ao : Nat) (acc out : List (List GeometryNV)),
      geometryGroupsLoop aabbBuffer ms vo io ao acc = .ok out →
      out.length = acc.length + ms.length ∧
      (∀ j, j < acc.length → out[j]? = acc[j]?) ∧
      ∀ (k : Nat) (hk : k < ms.length),
        ∃ g, out[acc.length + k]? = some [g] ∧
          geometryFor aabbBuffer ms[k]
            (vo + vertexCountBefore ms k * sizeofVertex)
            (io + indexCountBefore ms k * sizeofU32)
            (ao + proceduralCountBefore ms k * 24) = .ok g := by
  induction ms with
  | nil =>
    intro vo io ao acc out h
    simp only [geometryGroupsLoop, Except.ok.injEq] at h
    subst h
    exact ⟨by simp, fun _ _ => rfl, fun k hk => by simp at hk⟩
  | cons m rest ih =>
    intro vo io ao acc out h
    simp only [geometryGroupsLoop] at h
    cases hg : geometryFor aabbBuffer m vo io ao with
    | error e => simp [hg] at h
    | ok g =>
      simp only [hg] at h
      obtain ⟨hlen, hpre, hrec⟩ := ih _ _ _ _ out h
      refine ⟨?_, ?_, ?_⟩
      · simp only [List.length_append, List.length_cons, List.length_nil] at hlen ⊢
        omega
      · intro j hj
        rw [hpre j (by simp only [List.length_append, List.length_cons, List.length_nil]; omega),
          List.getElem?_append_left hj]
      · intro k hk
        cases k with
        | zero =>
          refine ⟨g, ?_, ?_⟩
          · rw [Nat.add_zero, hpre acc.length (by simp)]
            simp
          · simpa [vertexCountBefore, indexCountBefore, proceduralCountBefore] using hg
        | succ k =>
          have hk2 : k < rest.length := by simpa using hk
          obtain ⟨g2, h1, h2⟩ := hrec k hk2
          simp only [List.length_append, List.length_cons, List.length_nil, Nat.zero_add] at h1
          refine ⟨g2, ?_, ?_⟩
          · rw [show acc.length + (k + 1) = acc.length + 1 + k by omega]
            exact h1
          · have e1 : vo + vertexCountBefore (m :: rest) (k + 1) * sizeofVertex =
                vo + m.vertices.length * sizeofVertex + vertexCountBefore rest k * sizeofVertex := by
              simp only [vertexCountBefore, List.take_succ_cons, List.map_cons, List.sum_cons]
              rw [Nat.add_mul]
              omega
            have e2 : io + indexCountBefore (m :: rest) (k + 1) * sizeofU32 =
                io + m.indices.length * sizeofU32 + indexCountBefore rest k * sizeofU32 := by
              simp only [indexCountBefore, List.take_succ_cons, List.map_cons, List.sum_cons]
              rw [Nat.add_mul]
              omega
            have e3 : ao + proceduralCountBefore (m :: rest) (k + 1) * 24 =
                (if m.isProcedural = true then ao + 2 * 12 else ao) +
                  proceduralCountBefore rest k * 24 := by
              cases hp : m.isProcedural <;>
                (simp [proceduralCountBefore, List.take_succ_cons, List.filter_cons, hp]; try omega)
            simp only [List.getElem_cons_succ]
            rw [e1, e2, e3]
            exact h2

theorem geometryGroupsLoop_total (aabbBuffer : Option (Buffer AABB)) (ms : List Model) :
    ∀ (vo io ao : Nat) (acc : List (List GeometryNV)),
      ((∃ m ∈ ms, m.isProcedural = true) → aabbBuffer.isSome = true) →
      ∃ out, geometryGroupsLoop aabbBuffer ms vo io ao acc = .ok out := by
  induction ms with
  | nil => intro vo io ao acc _; exact ⟨acc, rfl⟩
  | cons m rest ih =>
    intro vo io ao acc h
    have hrest : (∃ x ∈ rest, x.isProcedural = true) → aabbBuffer.isSome = true := by
      intro hx
      obtain ⟨x, hx1, hx2⟩ := hx
      exact h ⟨x, List.mem_cons_of_mem _ hx1, hx2⟩
    simp only [geometryGroupsLoop]
    cases hp : m.isProcedural with
    | false =>
      simp only [geometryFor, hp]
      exact ih _ _ _ _ hrest
    | true =>
      have hsome := h ⟨m, List.mem_cons_self _ _, hp⟩
      cases hb : aabbBuffer with
      | none => rw [hb] at hsome; cases hsome
      | some b =>
        simp only [geometryFor, hp, if_true]
        exact hb ▸ ih _ _ _ _ hrest

theorem filtered_boxes_getElem (ms : List Model) :
    ∀ (i : Nat) (hi : i < ms.length), (ms[i]).isProcedural = true →
      ((ms.filter (fun m => m.isProcedural)).map (fun m => m.boundingBox))[
        proceduralCountBefore ms i]? = some (ms[i]).boundingBox := by
  induction ms with
  | nil => intro i hi; simp at hi
  | cons m rest ih =>
    intro i hi hp
    cases i with
    | zero =>
      simp only [List.getElem_cons_zero] at hp ⊢
      simp [proceduralCountBefore, List.filter_cons, hp]
    | succ k =>
      have hk : k < rest.length := by simpa using hi
      simp only [List.getElem_cons_succ] at hp ⊢
      have hrec := ih k hk hp
      cases hm : m.isProcedural
      · simpa [proceduralCountBefore, List.take_succ_cons, List.filter_cons, hm] using hrec
      · simpa [proceduralCountBefore, List.take_succ_cons, List.filter_cons, hm] using hrec

theorem geometryGroupsLoop_single_mesh (m : Model) (hp : m.isProcedural = false) :
    geometryGroupsLoop none [m] 0 0 0 [] =
      .ok [[{ geometryType := GeometryType.eTriangles
              triangles := { vertexOffset := 0, vertexCount := m.vertices.length % 2 ^ 32
                             vertexStride := 44
                             indexOffset := 0, indexCount := m.indices.length % 2 ^ 32 }
              aabbs := { numAABBs := 0, stride := 0, offset := 0 }
              opaqueFlag := true }]] := by
  simp [geometryGroupsLoop, geometryFor, hp, toU32, sizeofVertex]

/-- C19 (as amended): `CreateAABBBuffer` creates the AABB buffer whenever the
scene has a procedural model, and whenever that buffer exists in such a scene
the first loop of `CreateAccelerationStructures` produces exactly one
geometry group per model, in registration order, each holding exactly one
entry flagged opaque, and these are the groups of a successful call; for a
triangle model the entry has vertex byte offset 44 times the number of
vertices of all models before it, vertex stride 44, index byte offset 4 times
the number of indices of all models before it, and vertex and index counts
equal to the model's own counts modulo `2^32`, hence to the counts themselves
when they are below `2^32`. -/
theorem one_geometry_entry_per_model (s : Scene) :
    ((∃ m ∈ s.models, m.isProcedural = true) → (CreateAABBBuffer s).isSome = true) ∧
    ∀ aabbBuffer : Option (Buffer AABB),
    ((∃ m ∈ s.models, m.isProcedural = true) → aabbBuffer.isSome = true) →
    ∃ groups, geometryGroupsLoop aabbBuffer s.models 0 0 0 [] = .ok groups ∧
      groups.length = s.models.length ∧
      (∀ (createBottomLevel : List (List GeometryNV) → List Nat) (acc : AccelerationStructures),
        CreateAccelerationStructures createBottomLevel aabbBuffer s = .ok acc →
        acc.geometryGroups = groups) ∧
      ∀ (i : Nat) (hi : i < s.models.length),
        ∃ g, groups[i]? = some [g] ∧ g.opaqueFlag = true ∧
          ((s.models[i]).isProcedural = false →
            g.geometryType = GeometryType.eTriangles ∧
            g.triangles.vertexOffset = sizeofVertex * vertexCountBefore s.models i ∧
            g.triangles.vertexStride = sizeofVertex ∧
            g.triangles.indexOffset = 4 * indexCountBefore s.models i ∧
            g.triangles.vertexCount = (s.models[i]).vertices.length % 2 ^ 32 ∧
            g.triangles.indexCount = (s.models[i]).indices.length % 2 ^ 32 ∧
            ((s.models[i]).vertices.length < 2 ^ 32 →
              g.triangles.vertexCount = (s.models[i]).vertices.length) ∧
            ((s.models[i]).indices.length < 2 ^ 32 →
              g.triangles.indexCount = (s.models[i]).indices.length)) := by
  refine ⟨(createAABBBuffer_isSome s).mpr, ?_⟩
  intro aabbBuffer haabb
  obtain ⟨groups, hgroups⟩ := geometryGroupsLoop_total aabbBuffer s.models 0 0 0 [] haabb
  obtain ⟨hlen, _, hrec⟩ := geometryGroupsLoop_spec aabbBuffer s.models 0 0 0 [] groups hgroups
  refine ⟨groups, hgroups, by simpa using hlen, ?_, ?_⟩
  · intro createBottomLevel acc hacc
    unfold CreateAccelerationStructures at hacc
    rw [hgroups] at hacc
    simp only at hacc
    split at hacc
    · cases hacc
    · simp only [Except.ok.injEq] at hacc
      subst hacc
      rfl
  · intro i hi
    obtain ⟨g, hget, hfor⟩ := hrec i hi
    simp only [List.length_nil, Nat.zero_add] at hget hfor
    refine ⟨g, hget, ?_, ?_⟩
    · unfold geometryFor at hfor
      split at hfor
      · split at hfor
        · cases hfor
        · simp only [Except.ok.injEq] at hfor
          subst hfor
          rfl
      · simp only [Except.ok.injEq] at hfor
        subst hfor
        rfl
    · intro hp
      simp only [geometryFor, hp, Bool.false_eq_true, if_false, Except.ok.injEq] at hfor
      subst hfor
      refine ⟨rfl, Nat.mul_comm _ _, rfl, ?_, rfl, rfl, ?_, ?_⟩
      · simp only [sizeofU32]
        exact Nat.mul_comm _ _
      · intro hlt
        exact Nat.mod_eq_of_lt hlt
      · intro hlt
        exact Nat.mod_eq_of_lt hlt

/-- Witness for C19: the example scene gets the groups `[[A], [B]]`, with B's
entry at vertex byte offset 176 = 44 * 4 and index byte offset 24 = 4 * 6. -/
theorem one_geometry_entry_per_model_witness :
    geometryGroupsLoop none exampleScene.models 0 0 0 [] = .ok [[geometryA], [geometryB]] ∧
    ∃ groups, geometryGroupsLoop none exampleScene.models 0 0 0 [] = .ok groups ∧
      groups.length = exampleScene.models.length :=
  ⟨rfl,
   ((one_geometry_entry_per_model exampleScene).2 none (by decide)).imp
     (fun _ h => ⟨h.1, h.2.1⟩)⟩

/-- Counterexample to C19 as stated: for a triangle model with `2^32`
vertices and `2^32` indices the geometry entry carries the counts 0. -/
theorem geometry_counts_wrap :
    hugeMesh.isProcedural = false ∧
    hugeMesh.vertices.length = 4294967296 ∧
    hugeMesh.indices.length = 4294967296 ∧
    geometryGroupsLoop none [hugeMesh] 0 0 0 [] =
      .ok [[{ geometryType := GeometryType.eTriangles
              triangles := { vertexOffset := 0, vertexCount := 0, vertexStride := 44
                             indexOffset := 0, indexCount := 0 }
              aabbs := { numAABBs := 0, stride := 0, offset := 0 }
              opaqueFlag := true }]] := by
  have hv : hugeMesh.vertices.length = 4294967296 := by
    simp only [hugeMesh, meshOf, List.length_replicate]
    norm_num
  have hi : hugeMesh.indices.length = 4294967296 := by
    simp only [hugeMesh, meshOf, List.length_replicate]
    norm_num
  have hp : hugeMesh.isProcedural = false := rfl
  have h := geometryGroupsLoop_single_mesh hugeMesh hp
  rw [hv, hi] at h
  exact ⟨hp, hv, hi, h⟩

/-- C20: `CreateAABBBuffer` creates the AABB buffer whenever the scene has a
procedural model, and whenever that buffer exists in such a scene the
geometry entry of every procedural model references exactly one AABB with
stride 24 at byte offset 24 times the number of procedural models registered
before it; the AABB list of `CreateAABBBuffer` holds the model's bounding box
at that position; and a triangle model does not advance the count of
procedural models, so it does not advance the AABB offset. -/
theorem procedural_entry_matches_aabb_slot (s : Scene) :
    ((∃ m ∈ s.models, m.isProcedural = true) → (CreateAABBBuffer s).isSome = true) ∧
    ∀ aabbBuffer : Option (Buffer AABB),
    ((∃ m ∈ s.models, m.isProcedural = true) → aabbBuffer.isSome = true) →
    ∃ groups, geometryGroupsLoop aabbBuffer s.models 0 0 0 [] = .ok groups ∧
      (∀ (i : Nat) (hi : i < s.models.length), (s.models[i]).isProcedural = true →
        ∃ g, groups[i]? = some [g] ∧
          g.geometryType = GeometryType.eAabbs ∧
          g.aabbs = { numAABBs := 1, stride := 24
                      offset := 24 * proceduralCountBefore s.models i } ∧
          (collectAABBs s.models [])[proceduralCountBefore s.models i]? =
            some (s.models[i]).boundingBox) ∧
      ∀ (i : Nat) (hi : i < s.models.length), (s.models[i]).isProcedural = false →
        proceduralCountBefore s.models (i + 1) = proceduralCountBefore s.models i := by
  refine ⟨(createAABBBuffer_isSome s).mpr, ?_⟩
  intro aabbBuffer haabb
  obtain ⟨groups, hgroups⟩ := geometryGroupsLoop_total aabbBuffer s.models 0 0 0 [] haabb
  obtain ⟨_, _, hrec⟩ := geometryGroupsLoop_spec aabbBuffer s.models 0 0 0 [] groups hgroups
  refine ⟨groups, hgroups, ?_, ?_⟩
  · intro i hi hp
    obtain ⟨g, hget, hfor⟩ := hrec i hi
    simp only [List.length_nil, Nat.zero_add] at hget hfor
    have hsome := haabb ⟨s.models[i], List.getElem_mem hi, hp⟩
    cases hb : aabbBuffer with
    | none => rw [hb] at hsome; cases hsome
    | some b =>
      simp only [geometryFor, hp, if_true, hb, Except.ok.injEq] at hfor
      subst hfor
      refine ⟨_, hget, rfl, ?_, ?_⟩
      · simp only [GeometryAABB.mk.injEq, true_and]
        omega
      · rw [collectAABBs_eq]
        exact filtered_boxes_getElem s.models i hi hp
  · intro i hi hp
    simp only [proceduralCountBefore, List.take_succ, List.getElem?_eq_getElem hi,
      Option.toList, List.filter_append, List.length_append]
    simp [List.filter_cons, hp]

/-- Witness for C20: in the mixed scene (procedural, triangle, procedural) the
two procedural entries sit at AABB byte offsets 0 and 24. -/
theorem procedural_entry_matches_aabb_slot_witness :
    (∃ groups, geometryGroupsLoop (CreateAABBBuffer mixedScene) mixedScene.models 0 0 0 [] =
        .ok groups ∧
      groups.map (fun group => group.map (fun g => g.aabbs.offset)) = [[0], [0], [24]]) ∧
    ∃ groups, geometryGroupsLoop (CreateAABBBuffer mixedScene) mixedScene.models 0 0 0 [] =
        .ok groups ∧
      ∀ (i : Nat) (hi : i < mixedScene.models.length), (mixedScene.models[i]).isProcedural = false →
        proceduralCountBefore mixedScene.models (i + 1) =
          proceduralCountBefore mixedScene.models i :=
  ⟨⟨_, rfl, by decide⟩,
   ((procedural_entry_matches_aabb_slot mixedScene).2 (CreateAABBBuffer mixedScene)
     (procedural_entry_matches_aabb_slot mixedScene).1).imp (fun _ h => ⟨h.1, h.2.2⟩)⟩

/-! ## Scene assembly and initialisation (C12, C13) -/

theorem applySceneCall_fault (s : Scene) (call : SceneCall) (e : Fault)
    (h : applySceneCall s call = .error e) : e = Fault.assertion := by
  cases call with
  | AddTextureResource name fileName => simp [applySceneCall] at h
  | AddModel model =>
    simp only [applySceneCall, Scene.AddModel] at h
    by_cases hbad : (!model.isProcedural && model.vertices.isEmpty) = true
    · rw [if_pos hbad] at h
      simp only [Except.error.injEq] at h
      exact h.symm
    · rw [if_neg hbad] at h
      cases h
  | AddInstance inst =>
    simp only [applySceneCall, Scene.AddInstance] at h
    by_cases hlt : inst.modelIndex < s.models.length
    · rw [if_pos hlt] at h
      cases h
    · rw [if_neg hlt] at h
      simp only [Except.error.injEq] at h
      exact h.symm
  | SetHorizonColor color => simp [applySceneCall] at h
  | SetZenithColor color => simp [applySceneCall] at h
  | SetAccumulateFrames b => simp [applySceneCall] at h

theorem createScene_fault (calls : List SceneCall) :
    ∀ (s scene : Scene) (e : Fault), CreateScene calls s = (some e, scene) →
      e = Fault.assertion := by
  induction calls with
  | nil => intro s scene e h; simp [CreateScene] at h
  | cons call rest ih =>
    intro s scene e h
    simp only [CreateScene] at h
    cases hc : applySceneCall s call with
    | error e2 =>
      simp only [hc, Prod.mk.injEq, Option.some.injEq] at h
      rw [← h.1]
      exact applySceneCall_fault s call e2 hc
    | ok s2 =>
      simp only [hc] at h
      exact ih s2 scene e h

theorem createScene_append (pre rest : List SceneCall) :
    ∀ s : Scene, CreateScene (pre ++ rest) s =
      match CreateScene pre s with
      | (some e, s1) => (some e, s1)
      | (none, s1) => CreateScene rest s1 := by
  induction pre with
  | nil => intro s; simp [CreateScene]
  | cons call pre ih =>
    intro s
    simp only [List.cons_append, CreateScene]
    cases hc : applySceneCall s call with
    | error e => rfl
    | ok s2 => exact ih s2

theorem applySceneCall_valid (s s2 : Scene) (call : SceneCall)
    (hvalid : ∀ inst ∈ s.instances, inst.modelIndex < s.models.length)
    (h : applySceneCall s call = .ok s2) :
    ∀ inst ∈ s2.instances, inst.modelIndex < s2.models.length := by
  cases call with
  | AddTextureResource name fileName =>
    simp only [applySceneCall, Scene.AddTextureResource, Except.ok.injEq] at h
    subst h
    exact hvalid
  | AddModel model =>
    simp only [applySceneCall, Scene.AddModel] at h
    by_cases hbad : (!model.isProcedural && model.vertices.isEmpty) = true
    · rw [if_pos hbad] at h
      cases h
    · rw [if_neg hbad] at h
      simp only [Except.ok.injEq] at h
      subst h
      intro inst hinst
      have := hvalid inst hinst
      simp only [List.length_append, List.length_cons, List.length_nil]
      omega
  | AddInstance inst =>
    simp only [applySceneCall, Scene.AddInstance] at h
    by_cases hlt : inst.modelIndex < s.models.length
    · rw [if_pos hlt] at h
      simp only [Except.ok.injEq] at h
      subst h
      intro x hx
      rcases List.mem_append.mp hx with hx | hx
      · exact hvalid x hx
      · rw [List.mem_singleton] at hx
        subst hx
        exact hlt
    · rw [if_neg hlt] at h
      cases h
  | SetHorizonColor color =>
    simp only [applySceneCall, Except.ok.injEq] at h
    subst h
    exact hvalid
  | SetZenithColor color =>
    simp only [applySceneCall, Except.ok.injEq] at h
    subst h
    exact hvalid
  | SetAccumulateFrames b =>
    simp only [applySceneCall, Except.ok.injEq] at h
    subst h
    exact hvalid

theorem createScene_valid (calls : List SceneCall) :
    ∀ (s s2 : Scene), (∀ inst ∈ s.instances, inst.modelIndex < s.models.length) →
      CreateScene calls s = (none, s2) →
      ∀ inst ∈ s2.instances, inst.modelIndex < s2.models.length := by
  induction calls with
  | nil =>
    intro s s2 hvalid h
    simp only [CreateScene, Prod.mk.injEq, true_and] at h
    subst h
    exact hvalid
  | cons call rest ih =>
    intro s s2 hvalid h
    simp only [CreateScene] at h
    cases hc : applySceneCall s call with
    | error e => simp [hc] at h
    | ok s1 =>
      simp only [hc] at h
      exact ih s1 s2 (applySceneCall_valid s s1 call hvalid hc) h

theorem createOffsetBuffer_dangling (s : Scene)
    (h : ∃ inst ∈ s.instances, s.models.length ≤ inst.modelIndex) :
    CreateOffsetBuffer s = none := by
  unfold CreateOffsetBuffer
  cases hloop : instanceOffsetsLoop (modelOffsets s.models) s.instances [] with
  | none => rfl
  | some out =>
    obtain ⟨hvalid, _, _⟩ := instanceOffsetsLoop_spec _ _ _ _ hloop
    obtain ⟨inst, hmem, hge⟩ := h
    have hlt := hvalid inst hmem
    have hmo : (modelOffsets s.models).length = s.models.length :=
      modelOffsetsLoop_length s.models 0 0
    omega

theorem createAccelerationStructures_dangling
    (createBottomLevel : List (List GeometryNV) → List Nat) (aabbBuffer : Option (Buffer AABB))
    (s : Scene) (h : ∃ inst ∈ s.instances, s.models.length ≤ inst.modelIndex) :
    ∃ e, CreateAccelerationStructures createBottomLevel aabbBuffer s = .error e := by
  cases hc : CreateAccelerationStructures createBottomLevel aabbBuffer s with
  | error e => exact ⟨e, rfl⟩
  | ok acc =>
    have hloop := createAccelerationStructures_ok _ _ _ _ hc
    obtain ⟨_, _, hrec⟩ := geometryInstancesLoop_spec _ _ _ 0 [] _ (by norm_num) hloop
    obtain ⟨inst, hmem, hge⟩ := h
    obtain ⟨k, hk, hget⟩ := List.getElem_of_mem hmem
    obtain ⟨_, model, _, _, hm, _⟩ := hrec k hk
    rw [hget, List.getElem?_eq_none hge] at hm
    cases hm

theorem geometryGroupsLoop_fault (aabbBuffer : Option (Buffer AABB)) (ms : List Model) :
    ∀ (vo io ao : Nat) (acc : List (List GeometryNV)) (e : Fault),
      geometryGroupsLoop aabbBuffer ms vo io ao acc = .error e → e = Fault.nullPointer := by
  induction ms with
  | nil => intro vo io ao acc e h; simp [geometryGroupsLoop] at h
  | cons m rest ih =>
    intro vo io ao acc e h
    simp only [geometryGroupsLoop] at h
    cases hg : geometryFor aabbBuffer m vo io ao with
    | error e2 =>
      simp only [hg, Except.error.injEq] at h
      subst h
      unfold geometryFor at hg
      split at hg
      · split at hg
        · simp only [Except.error.injEq] at hg
          exact hg.symm
        · cases hg
      · cases hg
    | ok g =>
      simp only [hg] at h
      exact ih _ _ _ _ e h

theorem geometryInstancesLoop_fault (models : List Model) (blas : List Nat) (insts : List Instance) :
    ∀ (i : Nat) (acc : List GeometryInstance) (e : Fault),
      geometryInstancesLoop models blas insts i acc = .error e →
      e = Fault.assertion ∨ e = Fault.outOfRange := by
  induction insts with
  | nil => intro i acc e h; simp [geometryInstancesLoop] at h
  | cons inst rest ih =>
    intro i acc e h
    simp only [geometryInstancesLoop] at h
    cases hb : blas[inst.modelIndex]? with
    | none =>
      simp only [hb, Except.error.injEq] at h
      exact Or.inr h.symm
    | some handle =>
      simp only [hb] at h
      by_cases hz : handle = 0
      · rw [if_pos hz] at h
        simp only [Except.error.injEq] at h
        exact Or.inl h.symm
      · rw [if_neg hz] at h
        cases hm : models[inst.modelIndex]? with
        | none =>
          simp only [hm, Except.error.injEq] at h
          exact Or.inr h.symm
        | some model =>
          simp only [hm] at h
          exact ih _ _ e h

theorem createAccelerationStructures_fault
    (createBottomLevel : List (List GeometryNV) → List Nat) (aabbBuffer : Option (Buffer AABB))
    (s : Scene) (e : Fault)
    (h : CreateAccelerationStructures createBottomLevel aabbBuffer s = .error e) :
    e ≠ Fault.runtimeError := by
  unfold CreateAccelerationStructures at h
  cases hg : geometryGroupsLoop aabbBuffer s.models 0 0 0 [] with
  | error e2 =>
    simp only [hg, Except.error.injEq] at h
    subst h
    rw [geometryGroupsLoop_fault _ _ _ _ _ _ _ hg]
    decide
  | ok groups =>
    simp only [hg] at h
    cases hi : geometryInstancesLoop s.models (createBottomLevel groups) s.instances 0 [] with
    | error e2 =>
      simp only [hi, Except.error.injEq] at h
      subst h
      rcases geometryInstancesLoop_fault _ _ _ _ _ _ hi with h1 | h1 <;> rw [h1] <;> decide
    | ok insts => simp [hi] at h

theorem createTextureResources_fault (loadTexture : String → Option (Nat × Nat))
    (files : List String) :
    ∀ (textures out : List Image) (e : Fault),
      CreateTextureResources loadTexture files textures = (some e, out) → e = Fault.assertion := by
  induction files with
  | nil => intro textures out e h; simp [CreateTextureResources] at h
  | cons f rest ih =>
    intro textures out e h
    simp only [CreateTextureResources] at h
    cases hl : loadTexture f with
    | none =>
      simp only [hl, Prod.mk.injEq, Option.some.injEq] at h
      exact h.1.symm
    | some wh =>
      obtain ⟨w, ht⟩ := wh
      simp only [hl] at h
      exact ih _ out e h

theorem initFrameResources_fault (env : Environment) (acc : AccelerationStructures)
    (st : RayTracerState) :
    (initFrameResources env acc st).fault ≠ some Fault.runtimeError := by
  unfold initFrameResources
  simp only
  split
  · simp
  · split
    · simp
    · split
      · simp
      · simp

theorem initResources_fault (env : Environment) (st : RayTracerState) :
    (initResources env st).fault ≠ some Fault.runtimeError := by
  unfold initResources
  simp only
  split
  · simp
  · split
    · rename_i e textures ht
      rw [createTextureResources_fault _ _ _ _ _ ht]
      simp
    · split
      · rename_i e hc
        have hne := createAccelerationStructures_fault _ _ _ _ hc
        simpa using hne
      · exact initFrameResources_fault _ _ _

/-- C13 (as amended): `Init` ends with the push-constant error, the thrown
`std::runtime_error`, if and only if the device's maximum push-constant size
is smaller than the 16 bytes of the push-constant block; when it does, only
the base-class initialisation and the property query have run: the scene, all
buffers, the textures and the acceleration structures are as before `Init`.
Other fatal errors can still end `Init` later. -/
theorem init_push_constant_check (env : Environment) (st : RayTracerState) :
    ((Init env st).fault = some Fault.runtimeError ↔
      env.maxPushConstantsSize < sizeofConstants) ∧
    (env.maxPushConstantsSize < sizeofConstants →
      (Init env st).state = initQueried env st ∧
      (Init env st).accelerationStructures = none ∧
      (Init env st).state.scene = st.scene ∧
      (Init env st).state.vertexBuffer = st.vertexBuffer ∧
      (Init env st).state.indexBuffer = st.indexBuffer ∧
      (Init env st).state.offsetBuffer = st.offsetBuffer ∧
      (Init env st).state.aabbBuffer = st.aabbBuffer ∧
      (Init env st).state.materialBuffer = st.materialBuffer ∧
      (Init env st).state.textures = st.textures ∧
      (Init env st).state.tlas = st.tlas) ∧
    sizeofConstants = 16 := by
  refine ⟨?_, ?_, rfl⟩
  · constructor
    · intro h
      by_cases hsmall : env.maxPushConstantsSize < sizeofConstants
      · exact hsmall
      · exfalso
        unfold Init at h
        simp only [hsmall, if_false] at h
        split at h
        · rename_i e scene hc
          simp only [Option.some.injEq] at h
          have := createScene_fault _ _ _ _ hc
          rw [this] at h
          cases h
        · exact initResources_fault _ _ h
    · intro hsmall
      simp [Init, hsmall]
  · intro hsmall
    simp [Init, hsmall, initQueried]

set_option maxRecDepth 100000 in
/-- Witness for C13: on a device with an 8-byte limit `Init` ends with the
push-constant error and an untouched scene; with a 128-byte limit it completes. -/
theorem init_push_constant_check_witness :
    (Init smallLimitEnvironment freshState).fault = some Fault.runtimeError ∧
    (Init smallLimitEnvironment freshState).state.scene = emptyScene ∧
    (Init smallLimitEnvironment freshState).state.vertexBuffer = none ∧
    (Init exampleEnvironment freshState).fault = none ∧
    (Init exampleEnvironment freshState).state.scene.models = [modelA, modelB] :=
  ⟨(init_push_constant_check smallLimitEnvironment freshState).1.mpr (by decide),
   ((init_push_constant_check smallLimitEnvironment freshState).2.1 (by decide)).2.2.1,
   ((init_push_constant_check smallLimitEnvironment freshState).2.1 (by decide)).2.2.2.1,
   rfl, rfl⟩

set_option maxRecDepth 100000 in
/-- Counterexample to C13 as stated: on a device with a 128-byte limit, where
the texture file cannot be read, `Init` fails although the push-constant block
fits, and it fails after the scene and its buffers have been created. -/
theorem init_fails_for_other_reasons :
    ¬ (missingTextureEnvironment.maxPushConstantsSize < sizeofConstants) ∧
    (Init missingTextureEnvironment freshState).fault = some Fault.assertion ∧
    (Init missingTextureEnvironment freshState).state.scene.models = [modelA, modelB] ∧
    (Init missingTextureEnvironment freshState).state.vertexBuffer.isSome = true ∧
    (Init missingTextureEnvironment freshState).state.offsetBuffer.isSome = true :=
  ⟨by decide, rfl, rfl, rfl, rfl⟩

/-- C12: adding an instance whose model index is not below the number of
registered models fails fatally, so `CreateScene` stops at such a call and
every scene it completes has only instances of registered models; `Init` then
ends with that fault and produces no offset buffer, no material buffer and no
acceleration structures; and on any scene that does hold such an instance
`CreateOffsetBuffer` yields no buffer and `CreateAccelerationStructures`
fails. -/
theorem dangling_instance_is_fatal :
    (∀ (s : Scene) (inst : Instance), s.models.length ≤ inst.modelIndex →
      s.AddInstance inst = .error Fault.assertion) ∧
    (∀ (pre post : List SceneCall) (inst : Instance) (s : Scene),
      (∀ s1, CreateScene pre s = (none, s1) → s1.models.length ≤ inst.modelIndex) →
      ∃ scene, CreateScene (pre ++ SceneCall.AddInstance inst :: post) s =
        (some Fault.assertion, scene)) ∧
    (∀ (calls : List SceneCall) (s s2 : Scene),
      (∀ inst ∈ s.instances, inst.modelIndex < s.models.length) →
      CreateScene calls s = (none, s2) →
      ∀ inst ∈ s2.instances, inst.modelIndex < s2.models.length) ∧
    (∀ (env : Environment) (st : RayTracerState) (e : Fault) (scene : Scene),
      sizeofConstants ≤ env.maxPushConstantsSize →
      CreateScene env.sceneCalls st.scene = (some e, scene) →
      (Init env st).fault = some e ∧
      (Init env st).state.offsetBuffer = st.offsetBuffer ∧
      (Init env st).state.materialBuffer = st.materialBuffer ∧
      (Init env st).state.tlas = st.tlas ∧
      (Init env st).accelerationStructures = none) ∧
    (∀ s : Scene, (∃ inst ∈ s.instances, s.models.length ≤ inst.modelIndex) →
      CreateOffsetBuffer s = none ∧
      ∀ (createBottomLevel : List (List GeometryNV) → List Nat) (aabbBuffer : Option (Buffer AABB)),
        ∃ e, CreateAccelerationStructures createBottomLevel aabbBuffer s = .error e) := by
  refine ⟨?_, ?_, createScene_valid, ?_, ?_⟩
  · intro s inst hge
    have hnot : ¬ inst.modelIndex < s.models.length := by omega
    simp only [Scene.AddInstance, hnot, if_false]
  · intro pre post inst s hpre
    rw [createScene_append]
    cases hc : CreateScene pre s with
    | mk fault s1 =>
      cases fault with
      | some e =>
        have he := createScene_fault _ _ _ _ hc
        subst he
        exact ⟨s1, rfl⟩
      | none =>
        have hge := hpre s1 hc
        have hnot : ¬ inst.modelIndex < s1.models.length := by omega
        refine ⟨s1, ?_⟩
        simp only [CreateScene, applySceneCall, Scene.AddInstance, hnot, if_false]
  · intro env st e scene hfit hc
    have hnot : ¬ env.maxPushConstantsSize < sizeofConstants := by omega
    have hc2 : CreateScene env.sceneCalls (initQueried env st).scene = (some e, scene) := hc
    unfold Init
    simp only [hnot, if_false, hc2]
    simp [initQueried]
  · intro s h
    exact ⟨createOffsetBuffer_dangling s h,
      fun createBottomLevel aabbBuffer =>
        createAccelerationStructures_dangling createBottomLevel aabbBuffer s h⟩

/-- Witness for C12: an instance of model 3 is added when one model is
registered; `Init` ends with the fault and without offset buffer, material
buffer or acceleration structures; and the example scene with such an
instance appended gets no offset buffer and no top-level list. -/
theorem dangling_instance_is_fatal_witness :
    (Init danglingEnvironment freshState).fault = some Fault.assertion ∧
    (Init danglingEnvironment freshState).state.offsetBuffer = none ∧
    (Init danglingEnvironment freshState).state.materialBuffer = none ∧
    (Init danglingEnvironment freshState).accelerationStructures = none ∧
    CreateOffsetBuffer danglingScene = none ∧
    CreateAccelerationStructures numberedHandles none danglingScene = .error Fault.outOfRange :=
  have h := dangling_instance_is_fatal.2.2.2.1 danglingEnvironment freshState Fault.assertion
    { emptyScene with models := [modelA] } (by decide) rfl
  ⟨h.1, h.2.1, h.2.2.1, h.2.2.2.2,
   (dangling_instance_is_fatal.2.2.2.2 danglingScene ⟨instanceOf 3 greyMaterial, by decide, by decide⟩).1,
   rfl⟩

/-! ## Box instances (C22) -/

theorem boxInstance_afterCalls_append (calls : List Nat) (modelIndex : Nat) :
    BoxInstance.afterCalls (calls ++ [modelIndex]) = modelIndex := by
  simp [BoxInstance.afterCalls, BoxInstance.SetModelIndex, List.foldl_append]

/-- C22: constructing a `BoxInstance` fails with the assertion if and only if
the class-wide model index holds `0xFFFFFFFF`, which is its value when
`SetModelIndex` has not been called and when the last call passed
`0xFFFFFFFF`; otherwise the new instance's model index is the value most
recently passed to `SetModelIndex` and its material is the constructor
argument. -/
theorem boxInstance_needs_model_index (glmTransform : Vec3 → Vec3 → Vec3 → Mat3x4)
    (centre size rotateRadians : Vec3) (material : Material) :
    (∀ sm : Nat,
      BoxInstance.construct glmTransform sm centre size rotateRadians material =
          .error Fault.assertion ↔ sm = 0xFFFFFFFF) ∧
    BoxInstance.afterCalls [] = 0xFFFFFFFF ∧
    (∀ (calls : List Nat) (modelIndex : Nat),
      BoxInstance.afterCalls (calls ++ [modelIndex]) = modelIndex) ∧
    (∀ (calls : List Nat) (modelIndex : Nat), modelIndex ≠ 0xFFFFFFFF →
      ∃ inst, BoxInstance.construct glmTransform (BoxInstance.afterCalls (calls ++ [modelIndex]))
          centre size rotateRadians material = .ok inst ∧
        inst.modelIndex = modelIndex ∧ inst.material = material ∧
        inst.transform = glmTransform centre size rotateRadians) ∧
    (∀ sm : Nat, sm ≠ 0xFFFFFFFF →
      ∃ inst, BoxInstance.construct glmTransform sm centre size rotateRadians material = .ok inst ∧
        inst.modelIndex = sm ∧ inst.material = material) := by
  have hnot : notU32 0 = 0xFFFFFFFF := by decide
  have hok : ∀ sm : Nat, sm ≠ 0xFFFFFFFF →
      ∃ inst, BoxInstance.construct glmTransform sm centre size rotateRadians material = .ok inst ∧
        inst.modelIndex = sm ∧ inst.material = material ∧
        inst.transform = glmTransform centre size rotateRadians := by
    intro sm hsm
    refine ⟨{ modelIndex := sm, transform := glmTransform centre size rotateRadians
              material := material }, ?_, rfl, rfl, rfl⟩
    simp only [BoxInstance.construct, hnot]
    rw [if_pos hsm]
  refine ⟨?_, ?_, boxInstance_afterCalls_append, ?_, ?_⟩
  · intro sm
    constructor
    · intro h
      by_contra hsm
      obtain ⟨inst, hinst, _⟩ := hok sm hsm
      rw [hinst] at h
      cases h
    · intro hsm
      simp only [BoxInstance.construct, hnot]
      rw [if_neg (by simpa using hsm)]
  · simp only [BoxInstance.afterCalls, List.foldl_nil, BoxInstance.sm_ModelIndex, hnot]
  · intro calls modelIndex hne
    rw [boxInstance_afterCalls_append]
    exact hok modelIndex hne
  · intro sm hsm
    obtain ⟨inst, h1, h2, h3, _⟩ := hok sm hsm
    exact ⟨inst, h1, h2, h3⟩

/-- Witness for C22: before any call of `SetModelIndex` the constructor fails;
after the calls with 4 and then 1 it builds an instance of model 1 with the
given material. -/
theorem boxInstance_needs_model_index_witness :
    BoxInstance.construct identityTransform (BoxInstance.afterCalls []) zeroVec3 zeroVec3 zeroVec3
      greyMaterial = .error Fault.assertion ∧
    ∃ inst, BoxInstance.construct identityTransform (BoxInstance.afterCalls ([4] ++ [1]))
        zeroVec3 zeroVec3 zeroVec3 greyMaterial = .ok inst ∧
      inst.modelIndex = 1 ∧ inst.material = greyMaterial ∧
      inst.transform = identityTransform zeroVec3 zeroVec3 zeroVec3 :=
  ⟨((boxInstance_needs_model_index identityTransform zeroVec3 zeroVec3 zeroVec3
      greyMaterial).1 _).mpr (by decide),
   (boxInstance_needs_model_index identityTransform zeroVec3 zeroVec3 zeroVec3
      greyMaterial).2.2.2.1 [4] 1 (by decide)⟩

/-! ## Non-zero sample count (C24) -/

/-- C24: for every prior counter value below `2^32 - 1` and every input and
accumulation setting the counter is at least 1 after `Update`; it is exactly
1 after a frame with movement-class input or with accumulation disabled, for
every prior value; and the sample count that `RenderFrame` then writes to the
uniform block is the counter, hence not zero. -/
theorem update_leaves_nonzero_count (input : Input) (accumulateFrames : Bool) (count : Nat)
    (hcount : count < 2 ^ 32 - 1) :
    1 ≤ Update input accumulateFrames count ∧
    (∀ c : Nat, input.movement = true ∨ accumulateFrames = false →
      Update input accumulateFrames c = 1) ∧
    ∀ (viewInverse projInverse : List F32) (scene : Scene),
      (frameUniforms viewInverse projInverse scene
        (Update input accumulateFrames count)).accumulatedImageCount =
          Update input accumulateFrames count ∧
      (frameUniforms viewInverse projInverse scene
        (Update input accumulateFrames count)).accumulatedImageCount ≠ 0 := by
  have hpos : 1 ≤ Update input accumulateFrames count := by
    simp only [Update]
    cases input.movement <;> cases accumulateFrames <;> (simp; try omega)
  refine ⟨hpos, ?_, ?_⟩
  · intro c h
    rcases h with h | h
    · cases accumulateFrames <;> simp [Update, h]
    · simp [Update, h]
  · intro viewInverse projInverse scene
    refine ⟨rfl, ?_⟩
    show Update input accumulateFrames count ≠ 0
    omega

/-- Witness for C24: an idle frame takes the count 41 to 42, a frame with the
W key pressed takes it to 1, and neither value is 0. -/
theorem update_leaves_nonzero_count_witness :
    Update Input.idle true 41 = 42 ∧ Update Input.forward true 41 = 1 ∧
    1 ≤ Update Input.idle true 41 ∧ 1 ≤ Update Input.forward true 41 :=
  ⟨by decide, by decide, (update_leaves_nonzero_count Input.idle true 41 (by decide)).1,
   (update_leaves_nonzero_count Input.forward true 41 (by decide)).1⟩

/-! ## Rounding up to the base alignment (C25) -/

theorem roundUp_facts (a h : Nat) (ha : 0 < a) :
    h ≤ a * ((h + a - 1) / a) ∧ a * ((h + a - 1) / a) ≤ h + a - 1 ∧
    ∀ m : Nat, a ∣ m → h ≤ m → a * ((h + a - 1) / a) ≤ m := by
  have h1 := Nat.div_add_mod (h + a - 1) a
  have h2 := Nat.mod_lt (h + a - 1) ha
  refine ⟨by omega, by omega, ?_⟩
  intro m hm hle
  obtain ⟨c, rfl⟩ := hm
  apply Nat.mul_le_mul_left
  have h3 : (h + a - 1) / a ≤ (a * c + (a - 1)) / a := Nat.div_le_div_right (by omega)
  have h4 : (a * c + (a - 1)) / a = c := by
    rw [Nat.mul_add_div ha, Nat.div_eq_of_lt (by omega)]
    rfl
  omega

theorem entrySize_idempotent_fit (h k : Nat) (hk : k < 32) (hfit : h + 2 ^ k ≤ 2 ^ 32) :
    2 ^ k * ((h + 2 ^ k - 1) / 2 ^ k) + 2 ^ k ≤ 2 ^ 32 := by
  have hpos : 0 < 2 ^ k := Nat.two_pow_pos k
  have hsplit : (2 : Nat) ^ 32 = 2 ^ k * 2 ^ (32 - k) := by
    rw [← Nat.pow_add]
    congr 1
    omega
  have hle := (roundUp_facts (2 ^ k) h hpos).2.1
  have hlt : 2 ^ k * ((h + 2 ^ k - 1) / 2 ^ k) < 2 ^ k * 2 ^ (32 - k) := by
    rw [← hsplit]
    omega
  have hq : (h + 2 ^ k - 1) / 2 ^ k < 2 ^ (32 - k) := Nat.lt_of_mul_lt_mul_left hlt
  have hq2 : 2 ^ k * ((h + 2 ^ k - 1) / 2 ^ k + 1) ≤ 2 ^ k * 2 ^ (32 - k) :=
    Nat.mul_le_mul_left _ hq
  rw [← hsplit, Nat.mul_add, Nat.mul_one] at hq2
  exact hq2

/-- C25: when the base alignment is a power of two and
`handleSize + alignment - 1 < 2^32`, the expression
`(handleSize + alignment - 1) & ~(alignment - 1)` is
`ceil(handleSize / alignment) * alignment`, the least multiple of the alignment
that is at least the handle size; hence the stride exceeds the handle size by
less than the alignment, equals the handle size when that is already a
multiple, and rounding the stride again gives the stride. -/
theorem mask_is_least_multiple (handleSize k : Nat) (hk : k < 32)
    (hfit : handleSize + 2 ^ k - 1 < 2 ^ 32) :
    shaderBindingTableEntrySize handleSize (2 ^ k) =
      (handleSize + 2 ^ k - 1) / 2 ^ k * 2 ^ k ∧
    2 ^ k ∣ shaderBindingTableEntrySize handleSize (2 ^ k) ∧
    handleSize ≤ shaderBindingTableEntrySize handleSize (2 ^ k) ∧
    (∀ m : Nat, 2 ^ k ∣ m → handleSize ≤ m →
      shaderBindingTableEntrySize handleSize (2 ^ k) ≤ m) ∧
    shaderBindingTableEntrySize handleSize (2 ^ k) - handleSize < 2 ^ k ∧
    (2 ^ k ∣ handleSize → shaderBindingTableEntrySize handleSize (2 ^ k) = handleSize) ∧
    shaderBindingTableEntrySize (shaderBindingTableEntrySize handleSize (2 ^ k)) (2 ^ k) =
      shaderBindingTableEntrySize handleSize (2 ^ k) := by
  have hpos : 0 < 2 ^ k := Nat.two_pow_pos k
  have hfit2 : handleSize + 2 ^ k ≤ 2 ^ 32 := by omega
  have he := entrySize_pow_two handleSize k hk hfit2
  obtain ⟨hge, hle, hleast⟩ := roundUp_facts (2 ^ k) handleSize hpos
  have hdvd : 2 ^ k ∣ 2 ^ k * ((handleSize + 2 ^ k - 1) / 2 ^ k) := Dvd.intro _ rfl
  have hfit3 := entrySize_idempotent_fit handleSize k hk hfit2
  have he2 := entrySize_pow_two (2 ^ k * ((handleSize + 2 ^ k - 1) / 2 ^ k)) k hk hfit3
  obtain ⟨hge2, _, hleast2⟩ :=
    roundUp_facts (2 ^ k) (2 ^ k * ((handleSize + 2 ^ k - 1) / 2 ^ k)) hpos
  rw [he]
  refine ⟨Nat.mul_comm _ _, hdvd, hge, hleast, by omega, ?_, ?_⟩
  · intro hdiv
    exact Nat.le_antisymm (hleast handleSize hdiv (Nat.le_refl _)) hge
  · rw [he2]
    exact Nat.le_antisymm (hleast2 _ hdvd (Nat.le_refl _)) hge2

/-- Witness for C25: handle size 16 with alignment 64 rounds to 64, handle
size 128 with alignment 64 stays 128. -/
theorem mask_is_least_multiple_witness :
    shaderBindingTableEntrySize 16 (2 ^ 6) = 64 ∧
    shaderBindingTableEntrySize 128 (2 ^ 6) = 128 ∧
    shaderBindingTableEntrySize 16 (2 ^ 6) = (16 + 2 ^ 6 - 1) / 2 ^ 6 * 2 ^ 6 ∧
    shaderBindingTableEntrySize (shaderBindingTableEntrySize 16 (2 ^ 6)) (2 ^ 6) =
      shaderBindingTableEntrySize 16 (2 ^ 6) :=
  ⟨by decide, (mask_is_least_multiple 128 6 (by decide) (by decide)).2.2.2.2.2.1 (by decide),
   (mask_is_least_multiple 16 6 (by decide) (by decide)).1,
   (mask_is_least_multiple 16 6 (by decide) (by decide)).2.2.2.2.2.2⟩

/-! ## Running sums and positions in the flattened lists -/

theorem sum_take_succ {α : Type} (f : α → Nat) (l : List α) :
    ∀ (i : Nat) (hi : i < l.length),
      ((l.take (i + 1)).map f).sum = ((l.take i).map f).sum + f l[i] := by
  induction l with
  | nil => intro i hi; simp at hi
  | cons a rest ih =>
    intro i hi
    cases i with
    | zero => simp
    | succ k =>
      have hk : k < rest.length := by simpa using hi
      simp only [List.take_succ_cons, List.map_cons, List.sum_cons, List.getElem_cons_succ]
      rw [ih k hk]
      omega

theorem sum_take_le_total {α : Type} (f : α → Nat) (l : List α) :
    ∀ i : Nat, ((l.take i).map f).sum ≤ (l.map f).sum := by
  induction l with
  | nil => intro i; simp
  | cons a rest ih =>
    intro i
    cases i with
    | zero => simp
    | succ k =>
      simp only [List.take_succ_cons, List.map_cons, List.sum_cons]
      have := ih k
      omega

theorem sum_take_mono {α : Type} (f : α → Nat) (l : List α) :
    ∀ i j : Nat, i ≤ j → ((l.take i).map f).sum ≤ ((l.take j).map f).sum := by
  induction l with
  | nil => intro i j _; simp
  | cons a rest ih =>
    intro i j hij
    cases i with
    | zero => simp
    | succ k =>
      cases j with
      | zero => omega
      | succ m =>
        simp only [List.take_succ_cons, List.map_cons, List.sum_cons]
        have := ih k m (by omega)
        omega

theorem sum_take_succ_le {α : Type} (f : α → Nat) (l : List α) (i j : Nat) (hi : i < l.length)
    (hij : i < j) : ((l.take i).map f).sum + f l[i] ≤ ((l.take j).map f).sum := by
  rw [← sum_take_succ f l i hi]
  exact sum_take_mono f l (i + 1) j hij

theorem flatten_getElem {α : Type} (ls : List (List α)) :
    ∀ (i : Nat) (hi : i < ls.length) (k : Nat) (hk : k < (ls[i]).length),
      ls.flatten[((ls.take i).map List.length).sum + k]? = some (ls[i])[k] := by
  induction ls with
  | nil => intro i hi; simp at hi
  | cons a rest ih =>
    intro i hi k hk
    cases i with
    | zero =>
      simp only [List.getElem_cons_zero] at hk
      simp only [List.take_zero, List.map_nil, List.sum_nil, Nat.zero_add, List.flatten_cons,
        List.getElem_cons_zero]
      rw [List.getElem?_append_left hk, List.getElem?_eq_getElem hk]
    | succ m =>
      have hm : m < rest.length := by simpa using hi
      simp only [List.getElem_cons_succ] at hk
      simp only [List.take_succ_cons, List.map_cons, List.sum_cons, List.flatten_cons,
        List.getElem_cons_succ]
      rw [List.getElem?_append_right (by omega)]
      have e : a.length + ((rest.take m).map List.length).sum + k - a.length =
          ((rest.take m).map List.length).sum + k := by omega
      rw [e]
      exact ih m hm k hk

theorem flattenedVertices_getElem (models : List Model) (i : Nat) (hi : i < models.length)
    (k : Nat) (hk : k < (models[i]).vertices.length) :
    (flattenedVertices models)[vertexCountBefore models i + k]? =
      some (models[i]).vertices[k] := by
  have h := flatten_getElem (models.map (fun m => m.vertices)) i (by simpa using hi) k
    (by simpa using hk)
  simp only [flattenedVertices, packVertices_eq, List.nil_append, vertexCountBefore]
  simpa [← List.map_take, List.map_map, Function.comp] using h

theorem flattenedIndices_getElem (models : List Model) (i : Nat) (hi : i < models.length)
    (t : Nat) (ht : t < (models[i]).indices.length) :
    (flattenedIndices models)[indexCountBefore models i + t]? =
      some (models[i]).indices[t] := by
  have h := flatten_getElem (models.map (fun m => m.indices)) i (by simpa using hi) t
    (by simpa using ht)
  simp only [flattenedIndices, packIndices_eq, List.nil_append, indexCountBefore]
  simpa [← List.map_take, List.map_map, Function.comp] using h

theorem proceduralCountBefore_lt (ms : List Model) :
    ∀ (i : Nat) (hi : i < ms.length), (ms[i]).isProcedural = true →
      proceduralCountBefore ms i < (ms.filter (fun m => m.isProcedural)).length := by
  induction ms with
  | nil => intro i hi; simp at hi
  | cons m rest ih =>
    intro i hi hp
    cases i with
    | zero =>
      simp only [List.getElem_cons_zero] at hp
      simp [proceduralCountBefore, List.filter_cons, hp]
    | succ k =>
      have hk : k < rest.length := by simpa using hi
      simp only [List.getElem_cons_succ] at hp
      have hrec := ih k hk hp
      cases hm : m.isProcedural
      · simpa [proceduralCountBefore, List.take_succ_cons, List.filter_cons, hm] using hrec
      · simpa [proceduralCountBefore, List.take_succ_cons, List.filter_cons, hm] using hrec

theorem flattenedIndices_length (models : List Model) :
    (flattenedIndices models).length = (models.map (fun m => m.indices.length)).sum := by
  simp only [flattenedIndices, packIndices_eq, List.nil_append, List.length_flatten, List.map_map]
  rfl

theorem flattenedVertices_length (models : List Model) :
    (flattenedVertices models).length = (models.map (fun m => m.vertices.length)).sum := by
  simp only [flattenedVertices, packVertices_eq, List.nil_append, List.length_flatten,
    List.map_map]
  rfl

theorem modelOffsets_exact (models : List Model) (i : Nat) (hi : i < models.length)
    (hv : (models.map (fun m => m.vertices.length)).sum < 2 ^ 32)
    (hx : (models.map (fun m => m.indices.length)).sum < 2 ^ 32) :
    (modelOffsets models)[i]? =
      some { vertexOffset := vertexCountBefore models i
             indexOffset := indexCountBefore models i } := by
  have h := modelOffsetsLoop_getElem models 0 0 i (by norm_num) (by norm_num) hi
  have h1 : vertexCountBefore models i < 2 ^ 32 :=
    Nat.lt_of_le_of_lt (sum_take_le_total _ models i) hv
  have h2 : indexCountBefore models i < 2 ^ 32 :=
    Nat.lt_of_le_of_lt (sum_take_le_total _ models i) hx
  rw [modelOffsets, h, Nat.zero_add, Nat.zero_add, Nat.mod_eq_of_lt h1, Nat.mod_eq_of_lt h2]

/-! ## End-to-end lookup (C23) -/

/-- C23: for every scene in which every instance names a registered model and
the total vertex and index counts are below `2^32`, the offset buffer is
built, the vertex and index buffers hold the flattened lists, and for every
instance `i`, every `k` below the vertex count and every `t` below the index
count of its model, the vertex buffer at `offsetBuffer[i].vertexOffset + k`
holds vertex `k` of the model and the index buffer at
`offsetBuffer[i].indexOffset + t` holds its index `t`. -/
theorem lookup_through_offsets (s : Scene)
    (hvalid : ∀ inst ∈ s.instances, inst.modelIndex < s.models.length)
    (hv : (s.models.map (fun m => m.vertices.length)).sum < 2 ^ 32)
    (hx : (s.models.map (fun m => m.indices.length)).sum < 2 ^ 32) :
    ∃ b, CreateOffsetBuffer s = some b ∧
      (CreateVertexBuffer s).data = flattenedVertices s.models ∧
      (CreateIndexBuffer s).data = flattenedIndices s.models ∧
      ∀ (i : Nat) (hi : i < s.instances.length),
        ∃ o model, b.data[i]? = some o ∧
          s.models[(s.instances[i]).modelIndex]? = some model ∧
          (∀ (k : Nat) (hk : k < model.vertices.length),
            (CreateVertexBuffer s).data[o.vertexOffset + k]? = some model.vertices[k]) ∧
          (∀ (t : Nat) (ht : t < model.indices.length),
            (CreateIndexBuffer s).data[o.indexOffset + t]? = some model.indices[t]) := by
  have hmo : (modelOffsets s.models).length = s.models.length :=
    modelOffsetsLoop_length s.models 0 0
  have hvalid2 : ∀ inst ∈ s.instances, inst.modelIndex < (modelOffsets s.models).length :=
    fun x hx2 => hmo ▸ hvalid x hx2
  obtain ⟨out, hout⟩ := instanceOffsetsLoop_total (modelOffsets s.models) s.instances [] hvalid2
  obtain ⟨_, hdata, _⟩ := instanceOffsetsLoop_spec _ _ _ _ hout
  have hvb : (CreateVertexBuffer s).data = flattenedVertices s.models := rfl
  have hib : (CreateIndexBuffer s).data = flattenedIndices s.models := by
    simp only [CreateIndexBuffer, toU32]
    rw [Nat.mod_eq_of_lt (by rw [flattenedIndices_length]; exact hx), List.take_length]
  refine ⟨{ data := out, size := out.length * sizeofOffset }, ?_, hvb, hib, ?_⟩
  · simp only [CreateOffsetBuffer, hout]
  · intro i hi
    have hlt : (s.instances[i]).modelIndex < s.models.length := hvalid _ (List.getElem_mem hi)
    refine ⟨{ vertexOffset := vertexCountBefore s.models (s.instances[i]).modelIndex
              indexOffset := indexCountBefore s.models (s.instances[i]).modelIndex },
      s.models[(s.instances[i]).modelIndex], ?_, List.getElem?_eq_getElem hlt, ?_, ?_⟩
    · show out[i]? = _
      rw [hdata, List.nil_append, filterMap_lookup_getElem _ _ hvalid2 i hi]
      exact modelOffsets_exact s.models _ hlt hv hx
    · intro k hk
      rw [hvb]
      exact flattenedVertices_getElem s.models _ hlt k hk
    · intro t ht
      rw [hib]
      exact flattenedIndices_getElem s.models _ hlt t ht

/-- Witness for C23: in the example scene instance 0 is an instance of model
B, the offset buffer gives it the offsets (4, 6), and the vertex buffer holds
B's first vertex at position 4. -/
theorem lookup_through_offsets_witness :
    ∃ b, CreateOffsetBuffer exampleScene = some b ∧
      b.data[0]? = some { vertexOffset := 4, indexOffset := 6 } ∧
      (CreateVertexBuffer exampleScene).data[4 + 0]? = some vertex0 ∧
      (CreateIndexBuffer exampleScene).data.length = 42 :=
  (lookup_through_offsets exampleScene (by decide) (by decide) (by decide)).imp
    (fun b h => ⟨h.1,
      by
        have hb := h.1
        have : CreateOffsetBuffer exampleScene =
            some { data := [{ vertexOffset := 4, indexOffset := 6 },
                            { vertexOffset := 0, indexOffset := 0 },
                            { vertexOffset := 4, indexOffset := 6 }], size := 24 } := by decide
        rw [this] at hb
        cases hb
        rfl,
      by decide, by decide⟩)

/-! ## Geometry entries stay inside the shared buffers (C26, C27, C28) -/

theorem triangle_entry_of_geometryFor (aabbBuffer : Option (Buffer AABB)) (m : Model)
    (vo io ao : Nat) (g : GeometryNV) (hp : m.isProcedural = false)
    (h : geometryFor aabbBuffer m vo io ao = .ok g) :
    g.triangles = { vertexOffset := vo, vertexCount := m.vertices.length % 2 ^ 32
                    vertexStride := sizeofVertex, indexOffset := io
                    indexCount := m.indices.length % 2 ^ 32 } := by
  simp only [geometryFor, hp, Bool.false_eq_true, if_false, Except.ok.injEq] at h
  subst h
  rfl

/-- C26: every triangle geometry entry built by `CreateAccelerationStructures`
stays inside the shared buffers: its vertex byte offset plus 44 times its
vertex count is at most the size of the vertex buffer; with a total index
count below `2^32` its index byte offset plus 4 times its index count is at
most the size of the index buffer; and for two triangle models the byte ranges
of the earlier one end at or before the offsets of the later one. -/
theorem triangle_entries_in_bounds (s : Scene) :
    ((∃ m ∈ s.models, m.isProcedural = true) → (CreateAABBBuffer s).isSome = true) ∧
    ∀ aabbBuffer : Option (Buffer AABB),
    ((∃ m ∈ s.models, m.isProcedural = true) → aabbBuffer.isSome = true) →
    ∃ groups, geometryGroupsLoop aabbBuffer s.models 0 0 0 [] = .ok groups ∧
      (∀ (i : Nat) (hi : i < s.models.length), (s.models[i]).isProcedural = false →
        ∃ g, groups[i]? = some [g] ∧
          g.triangles.vertexOffset + g.triangles.vertexCount * sizeofVertex ≤
            (CreateVertexBuffer s).size ∧
          ((s.models.map (fun m => m.indices.length)).sum < 2 ^ 32 →
            g.triangles.indexOffset + g.triangles.indexCount * 4 ≤ (CreateIndexBuffer s).size)) ∧
      ∀ (i j : Nat) (hi : i < s.models.length) (hj : j < s.models.length), i < j →
        (s.models[i]).isProcedural = false → (s.models[j]).isProcedural = false →
        ∃ gi gj, groups[i]? = some [gi] ∧ groups[j]? = some [gj] ∧
          gi.triangles.vertexOffset + gi.triangles.vertexCount * sizeofVertex ≤
            gj.triangles.vertexOffset ∧
          gi.triangles.indexOffset + gi.triangles.indexCount * 4 ≤
            gj.triangles.indexOffset := by
  refine ⟨(createAABBBuffer_isSome s).mpr, ?_⟩
  intro aabbBuffer haabb
  obtain ⟨groups, hgroups⟩ := geometryGroupsLoop_total aabbBuffer s.models 0 0 0 [] haabb
  obtain ⟨_, _, hrec⟩ := geometryGroupsLoop_spec aabbBuffer s.models 0 0 0 [] groups hgroups
  refine ⟨groups, hgroups, ?_, ?_⟩
  · intro i hi hp
    obtain ⟨g, hget, hfor⟩ := hrec i hi
    simp only [List.length_nil, Nat.zero_add] at hget hfor
    have htri := triangle_entry_of_geometryFor _ _ _ _ _ g hp hfor
    refine ⟨g, hget, ?_, ?_⟩
    · rw [htri]
      simp only [CreateVertexBuffer, flattenedVertices_length, sizeofVertex]
      have h1 := sum_take_succ (fun m : Model => m.vertices.length) s.models i hi
      have h2 := sum_take_le_total (fun m : Model => m.vertices.length) s.models (i + 1)
      have h3 := Nat.mod_le (s.models[i]).vertices.length (2 ^ 32)
      simp only [vertexCountBefore]
      omega
    · intro hx
      rw [htri]
      simp only [CreateIndexBuffer, toU32, flattenedIndices_length, sizeofU32]
      rw [Nat.mod_eq_of_lt hx]
      have h1 := sum_take_succ (fun m : Model => m.indices.length) s.models i hi
      have h2 := sum_take_le_total (fun m : Model => m.indices.length) s.models (i + 1)
      have h3 := Nat.mod_le (s.models[i]).indices.length (2 ^ 32)
      simp only [indexCountBefore]
      omega
  · intro i j hi hj hij hpi hpj
    obtain ⟨gi, hgeti, hfori⟩ := hrec i hi
    obtain ⟨gj, hgetj, hforj⟩ := hrec j hj
    simp only [List.length_nil, Nat.zero_add] at hgeti hfori hgetj hforj
    have htri := triangle_entry_of_geometryFor _ _ _ _ _ gi hpi hfori
    have htrj := triangle_entry_of_geometryFor _ _ _ _ _ gj hpj hforj
    refine ⟨gi, gj, hgeti, hgetj, ?_, ?_⟩
    · rw [htri, htrj]
      simp only [sizeofVertex, vertexCountBefore]
      have h1 := sum_take_succ_le (fun m : Model => m.vertices.length) s.models i j hi hij
      beta_reduce at h1
      have h3 := Nat.mod_le (s.models[i]).vertices.length (2 ^ 32)
      omega
    · rw [htri, htrj]
      simp only [sizeofU32, indexCountBefore]
      have h1 := sum_take_succ_le (fun m : Model => m.indices.length) s.models i j hi hij
      beta_reduce at h1
      have h3 := Nat.mod_le (s.models[i]).indices.length (2 ^ 32)
      omega

/-- Witness for C26: in the example scene the entry of model B ends at byte
176 + 8 * 44 = 528, the size of the vertex buffer, and the entry of model A
ends where B's begins. -/
theorem triangle_entries_in_bounds_witness :
    (CreateVertexBuffer exampleScene).size = 528 ∧ (CreateIndexBuffer exampleScene).size = 168 ∧
    ∃ groups, geometryGroupsLoop none exampleScene.models 0 0 0 [] = .ok groups ∧
      ∀ (i : Nat) (hi : i < exampleScene.models.length),
        (exampleScene.models[i]).isProcedural = false →
        ∃ g, groups[i]? = some [g] ∧
          g.triangles.vertexOffset + g.triangles.vertexCount * sizeofVertex ≤
            (CreateVertexBuffer exampleScene).size ∧
          ((exampleScene.models.map (fun m => m.indices.length)).sum < 2 ^ 32 →
            g.triangles.indexOffset + g.triangles.indexCount * 4 ≤
              (CreateIndexBuffer exampleScene).size) :=
  ⟨by decide, by decide,
   ((triangle_entries_in_bounds exampleScene).2 none (by decide)).imp
     (fun _ h => ⟨h.1, h.2.1⟩)⟩

/-- C27: the AABB buffer is only dereferenced when it exists and every AABB
reference is in range: if the scene has a procedural model then
`CreateAABBBuffer` created a buffer, so the first loop of
`CreateAccelerationStructures` never meets a null AABB buffer; the buffer has
24 bytes per procedural model; and the entry of every procedural model ends,
24 bytes after its offset, inside the buffer. -/
theorem aabb_references_in_bounds (s : Scene) :
    ((∃ m ∈ s.models, m.isProcedural = true) → (CreateAABBBuffer s).isSome = true) ∧
    (∃ groups, geometryGroupsLoop (CreateAABBBuffer s) s.models 0 0 0 [] = .ok groups ∧
      ∀ (i : Nat) (hi : i < s.models.length), (s.models[i]).isProcedural = true →
        ∃ g b, groups[i]? = some [g] ∧ CreateAABBBuffer s = some b ∧
          b.size = 24 * (s.models.filter (fun m => m.isProcedural)).length ∧
          g.aabbs.offset = 24 * proceduralCountBefore s.models i ∧
          g.aabbs.offset + g.aabbs.numAABBs * g.aabbs.stride ≤ b.size ∧
          g.aabbs.offset + 24 ≤ b.size) := by
  have hsome := (createAABBBuffer_isSome s).mpr
  refine ⟨hsome, ?_⟩
  obtain ⟨groups, hgroups⟩ :=
    geometryGroupsLoop_total (CreateAABBBuffer s) s.models 0 0 0 [] hsome
  obtain ⟨_, _, hrec⟩ :=
    geometryGroupsLoop_spec (CreateAABBBuffer s) s.models 0 0 0 [] groups hgroups
  refine ⟨groups, hgroups, ?_⟩
  intro i hi hp
  obtain ⟨g, hget, hfor⟩ := hrec i hi
  simp only [List.length_nil, Nat.zero_add] at hget hfor
  have hex := hsome ⟨s.models[i], List.getElem_mem hi, hp⟩
  cases hb : CreateAABBBuffer s with
  | none => rw [hb] at hex; cases hex
  | some b =>
    have hsize : b.size = 24 * (s.models.filter (fun m => m.isProcedural)).length := by
      have hb2 := hb
      simp only [CreateAABBBuffer, collectAABBs_eq, List.nil_append, List.length_map,
        sizeofAABB] at hb2
      split at hb2
      · simp only [Option.some.injEq] at hb2
        subst hb2
        simp only
        omega
      · cases hb2
    have hlt := proceduralCountBefore_lt s.models i hi hp
    simp only [hb, geometryFor, hp, if_true, Except.ok.injEq] at hfor
    subst hfor
    refine ⟨_, b, hget, rfl, hsize, ?_, ?_, ?_⟩
    · simp only
      omega
    · simp only
      omega
    · simp only
      omega

/-- C28: for every model the byte offsets used for its bottom-level geometry
are 44 times the sum of the vertex counts and 4 times the sum of the index
counts of the models before it, while its entry of the offset table holds
these sums modulo `2^32`; so when the total vertex and index counts are below
`2^32`, the vertex byte offset is `sizeof(Vertex)` times
`modelOffsets[m].vertexOffset` and the index byte offset is 4 times
`modelOffsets[m].indexOffset`. -/
theorem byte_offsets_match_element_offsets (s : Scene) :
    ∀ aabbBuffer : Option (Buffer AABB),
    ((∃ m ∈ s.models, m.isProcedural = true) → aabbBuffer.isSome = true) →
    ∃ groups, geometryGroupsLoop aabbBuffer s.models 0 0 0 [] = .ok groups ∧
      ∀ (i : Nat) (hi : i < s.models.length),
        ∃ g o, groups[i]? = some [g] ∧ (modelOffsets s.models)[i]? = some o ∧
          o.vertexOffset = vertexCountBefore s.models i % 2 ^ 32 ∧
          o.indexOffset = indexCountBefore s.models i % 2 ^ 32 ∧
          geometryFor aabbBuffer s.models[i] (sizeofVertex * vertexCountBefore s.models i)
            (4 * indexCountBefore s.models i) (24 * proceduralCountBefore s.models i) = .ok g ∧
          ((s.models.map (fun m => m.vertices.length)).sum < 2 ^ 32 →
            (s.models.map (fun m => m.indices.length)).sum < 2 ^ 32 →
            geometryFor aabbBuffer s.models[i] (sizeofVertex * o.vertexOffset)
              (4 * o.indexOffset) (24 * proceduralCountBefore s.models i) = .ok g ∧
            ((s.models[i]).isProcedural = false →
              g.triangles.vertexOffset = sizeofVertex * o.vertexOffset ∧
              g.triangles.indexOffset = 4 * o.indexOffset)) := by
  intro aabbBuffer haabb
  obtain ⟨groups, hgroups⟩ := geometryGroupsLoop_total aabbBuffer s.models 0 0 0 [] haabb
  obtain ⟨_, _, hrec⟩ := geometryGroupsLoop_spec aabbBuffer s.models 0 0 0 [] groups hgroups
  refine ⟨groups, hgroups, ?_⟩
  intro i hi
  obtain ⟨g, hget, hfor⟩ := hrec i hi
  simp only [List.length_nil, Nat.zero_add, sizeofU32] at hget hfor
  have hfor2 : geometryFor aabbBuffer s.models[i] (sizeofVertex * vertexCountBefore s.models i)
      (4 * indexCountBefore s.models i) (24 * proceduralCountBefore s.models i) = .ok g := by
    rw [Nat.mul_comm sizeofVertex, Nat.mul_comm 4, Nat.mul_comm 24]
    exact hfor
  have hmo := modelOffsetsLoop_getElem s.models 0 0 i (by norm_num) (by norm_num) hi
  simp only [Nat.zero_add] at hmo
  refine ⟨g, _, hget, hmo, rfl, rfl, hfor2, ?_⟩
  intro hv hx
  have h1 : vertexCountBefore s.models i < 2 ^ 32 :=
    Nat.lt_of_le_of_lt (sum_take_le_total _ s.models i) hv
  have h2 : indexCountBefore s.models i < 2 ^ 32 :=
    Nat.lt_of_le_of_lt (sum_take_le_total _ s.models i) hx
  simp only [Nat.mod_eq_of_lt h1, Nat.mod_eq_of_lt h2]
  refine ⟨hfor2, ?_⟩
  intro hp
  have htri := triangle_entry_of_geometryFor _ _ _ _ _ g hp hfor2
  rw [htri]
  exact ⟨rfl, rfl⟩

/-- Witness for C28: in the example scene model B has the element offsets
(4, 6) and its geometry entry the byte offsets 176 = 44 * 4 and 24 = 4 * 6. -/
theorem byte_offsets_match_element_offsets_witness :
    (modelOffsets exampleScene.models)[1]? = some { vertexOffset := 4, indexOffset := 6 } ∧
    geometryB.triangles.vertexOffset = sizeofVertex * 4 ∧
    geometryB.triangles.indexOffset = 4 * 6 ∧
    ∃ groups, geometryGroupsLoop none exampleScene.models 0 0 0 [] = .ok groups ∧
      groups = [[geometryA], [geometryB]] :=
  ⟨by decide, by decide, by decide,
   ((byte_offsets_match_element_offsets exampleScene) none (by decide)).imp
     (fun groups h => ⟨h.1, by
        have h1 := h.1
        have h2 : geometryGroupsLoop none exampleScene.models 0 0 0 [] =
            .ok [[geometryA], [geometryB]] := rfl
        rw [h2] at h1
        exact (Except.ok.inj h1).symm⟩)⟩

/-! ## The copy loop of the shader binding table -/

theorem memcpy_spec (dst : List Nat) (d : Nat) (src : List Nat) (so n : Nat) (t : List Nat)
    (h : memcpy dst d src so n = some t) :
    so + n ≤ src.length ∧ d + n ≤ dst.length ∧ t.length = dst.length ∧
    (∀ x : Nat, x < d ∨ d + n ≤ x → t[x]? = dst[x]?) ∧
    ∀ j : Nat, j < n → t[d + j]? = src[so + j]? := by
  unfold memcpy at h
  split at h
  · rename_i hr
    simp only [Option.some.injEq] at h
    subst h
    refine ⟨hr.1, hr.2, ?_, ?_, ?_⟩
    · simp only [List.length_append, List.length_take, List.length_drop]
      omega
    · intro x hx
      rcases hx with hx | hx
      · rw [List.append_assoc, List.getElem?_append_left (by
          simp only [List.length_take]; omega)]
        exact List.getElem?_take_of_lt hx
      · rw [List.getElem?_append_right (by
          simp only [List.length_append, List.length_take, List.length_drop]; omega)]
        rw [List.getElem?_drop]
        congr 1
        simp only [List.length_append, List.length_take, List.length_drop]
        omega
    · intro j hj
      rw [List.append_assoc, List.getElem?_append_right (by
        simp only [List.length_take]; omega)]
      rw [List.getElem?_append_left (by
        simp only [List.length_take, List.length_drop]; omega)]
      have e : d + j - (List.take d dst).length = j := by
        simp only [List.length_take]; omega
      rw [e, List.getElem?_take_of_lt hj, List.getElem?_drop]
  · cases h

theorem memcpy_ok (dst : List Nat) (d : Nat) (src : List Nat) (so n : Nat)
    (h1 : so + n ≤ src.length) (h2 : d + n ≤ dst.length) :
    ∃ t, memcpy dst d src so n = some t := by
  unfold memcpy
  rw [if_pos ⟨h1, h2⟩]
  exact ⟨_, rfl⟩

theorem copyGroupHandles_total (ts hs : Nat) (storage : List Nat) (hle : hs ≤ ts) :
    ∀ (r i : Nat) (table : List Nat),
      (i + r) * ts ≤ table.length → (i + r) * hs ≤ storage.length →
      ∃ out, copyGroupHandles ts hs storage r i table = some out ∧
        out.length = table.length := by
  intro r
  induction r with
  | zero => intro i table _ _; exact ⟨table, rfl, rfl⟩
  | succ r ih =>
    intro i table ht hst
    have e1 : (i + (r + 1)) * ts = i * ts + ts + r * ts := by
      rw [Nat.add_mul, Nat.add_mul, Nat.one_mul]; omega
    have e2 : (i + (r + 1)) * hs = i * hs + hs + r * hs := by
      rw [Nat.add_mul, Nat.add_mul, Nat.one_mul]; omega
    have m1 := Nat.mod_le (i * ts) (2 ^ 32)
    have m2 := Nat.mod_le (i * hs) (2 ^ 32)
    obtain ⟨t2, ht2⟩ := memcpy_ok table ((i * ts) % 2 ^ 32) storage ((i * hs) % 2 ^ 32) hs
      (by omega) (by omega)
    have hlen := (memcpy_spec _ _ _ _ _ _ ht2).2.2.1
    simp only [copyGroupHandles, ht2]
    have e3 : (i + 1 + r) * ts = (i + (r + 1)) * ts := by congr 1; omega
    have e4 : (i + 1 + r) * hs = (i + (r + 1)) * hs := by congr 1; omega
    obtain ⟨out, hout, hlen2⟩ := ih (i + 1) t2 (by rw [e3, hlen]; exact ht)
      (by rw [e4]; exact hst)
    exact ⟨out, hout, by rw [hlen2, hlen]⟩

theorem copyGroupHandles_succ (ts hs : Nat) (storage : List Nat) (r i : Nat) (table : List Nat) :
    copyGroupHandles ts hs storage (r + 1) i table =
      (memcpy table ((i * ts) % 2 ^ 32) storage ((i * hs) % 2 ^ 32) hs).bind
        (fun table2 => copyGroupHandles ts hs storage r (i + 1) table2) := by
  rw [copyGroupHandles]
  cases memcpy table ((i * ts) % 2 ^ 32) storage ((i * hs) % 2 ^ 32) hs with
  | none => rfl
  | some t2 => rfl

theorem copyGroupHandles_last (ts hs : Nat) (storage : List Nat) :
    ∀ (r i : Nat) (table out : List Nat),
      copyGroupHandles ts hs storage (r + 1) i table = some out →
      ∃ before, before.length = table.length ∧
        memcpy before (((i + r) * ts) % 2 ^ 32) storage (((i + r) * hs) % 2 ^ 32) hs =
          some out := by
  intro r
  induction r with
  | zero =>
    intro i table out h
    rw [copyGroupHandles_succ] at h
    cases hm : memcpy table ((i * ts) % 2 ^ 32) storage ((i * hs) % 2 ^ 32) hs with
    | none => rw [hm] at h; cases h
    | some t2 =>
      rw [hm] at h
      have h2 : some t2 = some out := h
      rw [← h2]
      exact ⟨table, rfl, hm⟩
  | succ r ih =>
    intro i table out h
    rw [copyGroupHandles_succ] at h
    cases hm : memcpy table ((i * ts) % 2 ^ 32) storage ((i * hs) % 2 ^ 32) hs with
    | none => rw [hm] at h; cases h
    | some t2 =>
      rw [hm] at h
      obtain ⟨before, hlen, hb⟩ := ih (i + 1) t2 out h
      have e : i + 1 + r = i + (r + 1) := by omega
      rw [e] at hb
      exact ⟨before, by rw [hlen, (memcpy_spec _ _ _ _ _ _ hm).2.2.1], hb⟩

theorem copyGroupHandles_spec (ts hs : Nat) (storage : List Nat) (hle : hs ≤ ts) :
    ∀ (r i : Nat) (table out : List Nat),
      (∀ g, g < i + r → g * ts < 2 ^ 32) →
      copyGroupHandles ts hs storage r i table = some out →
      out.length = table.length ∧
      (∀ x : Nat, (∀ g, i ≤ g → g < i + r → x < g * ts ∨ g * ts + hs ≤ x) →
        out[x]? = table[x]?) ∧
      ∀ g, i ≤ g → g < i + r → ∀ j, j < hs → out[g * ts + j]? = storage[g * hs + j]? := by
  intro r
  induction r with
  | zero =>
    intro i table out _ h
    simp only [copyGroupHandles, Option.some.injEq] at h
    subst h
    exact ⟨rfl, fun _ _ => rfl, fun g h1 h2 => by omega⟩
  | succ r ih =>
    intro i table out hwrap h
    rw [copyGroupHandles_succ] at h
    cases hm : memcpy table ((i * ts) % 2 ^ 32) storage ((i * hs) % 2 ^ 32) hs with
    | none => rw [hm] at h; cases h
    | some t2 =>
      rw [hm] at h
      have hi : i * ts < 2 ^ 32 := hwrap i (by omega)
      have hih : i * hs < 2 ^ 32 := Nat.lt_of_le_of_lt (Nat.mul_le_mul_left i hle) hi
      rw [Nat.mod_eq_of_lt hi, Nat.mod_eq_of_lt hih] at hm
      obtain ⟨_, _, hlen, hkeep, hcopy⟩ := memcpy_spec _ _ _ _ _ _ hm
      obtain ⟨hlen2, hkeep2, hcopy2⟩ := ih (i + 1) t2 out
        (fun g hg => hwrap g (by omega)) h
      refine ⟨by rw [hlen2, hlen], ?_, ?_⟩
      · intro x hx
        rw [hkeep2 x (fun g h1 h2 => hx g (by omega) (by omega))]
        exact hkeep x (by have := hx i (Nat.le_refl _) (by omega); omega)
      · intro g h1 h2 j hj
        by_cases hgi : g = i
        · subst hgi
          rw [hkeep2 (g * ts + j) (fun g2 h3 h4 => by
            have hmul : (g + 1) * ts ≤ g2 * ts := Nat.mul_le_mul_right ts h3
            rw [Nat.add_mul, Nat.one_mul] at hmul
            left
            omega)]
          exact hcopy j hj
        · exact hcopy2 g (by omega) (by omega) j hj

theorem createPipeline_eq (n h a : Nat) (dev : List Nat) :
    CreatePipeline n h a dev =
      (copyGroupHandles (shaderBindingTableEntrySize h a) h
        ((List.range (h * n)).map (fun j => dev.getD j 0)) n 0
        (List.replicate (shaderBindingTableEntrySize h a * n) 0)).map
        (fun table => { data := table, size := shaderBindingTableEntrySize h a * n }) := by
  unfold CreatePipeline tableLayout
  dsimp only
  cases copyGroupHandles (shaderBindingTableEntrySize h a) h
      ((List.range (h * n)).map (fun j => dev.getD j 0)) n 0
      (List.replicate (shaderBindingTableEntrySize h a * n) 0) with
  | none => rfl
  | some t => rfl

theorem storage_getElem (dev : List Nat) (m k : Nat) (hk : k < m) :
    ((List.range m).map (fun j => dev.getD j 0))[k]? = some (dev.getD k 0) := by
  rw [List.getElem?_map, List.getElem?_range hk]
  rfl

theorem createPipeline_total (n h a : Nat) (dev : List Nat)
    (hle : h ≤ shaderBindingTableEntrySize h a) :
    ∃ table, CreatePipeline n h a dev = some table := by
  obtain ⟨out, hout, _⟩ := copyGroupHandles_total (shaderBindingTableEntrySize h a) h
    ((List.range (h * n)).map (fun j => dev.getD j 0)) hle n 0
    (List.replicate (shaderBindingTableEntrySize h a * n) 0)
    (by rw [List.length_replicate, Nat.zero_add, Nat.mul_comm])
    (by rw [List.length_map, List.length_range, Nat.zero_add, Nat.mul_comm])
  rw [createPipeline_eq, hout]
  exact ⟨_, rfl⟩

theorem createPipeline_last (r h a : Nat) (dev : List Nat) (table : Buffer Nat)
    (hc : CreatePipeline (r + 1) h a dev = some table) :
    (r * shaderBindingTableEntrySize h a) % 2 ^ 32 + h ≤
      shaderBindingTableEntrySize h a * (r + 1) ∧
    ∀ j, j < h →
      table.data[(r * shaderBindingTableEntrySize h a) % 2 ^ 32 + j]? =
        some (dev.getD ((r * h) % 2 ^ 32 + j) 0) := by
  rw [createPipeline_eq] at hc
  cases hl : copyGroupHandles (shaderBindingTableEntrySize h a) h
      ((List.range (h * (r + 1))).map (fun j => dev.getD j 0)) (r + 1) 0
      (List.replicate (shaderBindingTableEntrySize h a * (r + 1)) 0) with
  | none => rw [hl] at hc; cases hc
  | some out =>
    rw [hl] at hc
    have hc2 : some ({ data := out, size := shaderBindingTableEntrySize h a * (r + 1) } :
        Buffer Nat) = some table := hc
    have ht := Option.some.inj hc2
    obtain ⟨before, hlen, hm⟩ := copyGroupHandles_last _ _ _ r 0 _ out hl
    rw [Nat.zero_add] at hm
    obtain ⟨hsrc, hdst, _, _, hcopy⟩ := memcpy_spec _ _ _ _ _ _ hm
    rw [List.length_map, List.length_range] at hsrc
    rw [hlen, List.length_replicate] at hdst
    refine ⟨hdst, ?_⟩
    intro j hj
    rw [← ht]
    show out[_]? = _
    rw [hcopy j hj]
    exact storage_getElem dev _ _ (by omega)

theorem createPipeline_contents (n h a : Nat) (dev : List Nat) (table : Buffer Nat)
    (hc : CreatePipeline n h a dev = some table)
    (hwrap : ∀ i, i < n → i * shaderBindingTableEntrySize h a < 2 ^ 32) :
    (0 < n → h ≤ shaderBindingTableEntrySize h a) ∧
    table.size = n * shaderBindingTableEntrySize h a ∧
    table.data.length = n * shaderBindingTableEntrySize h a ∧
    ∀ i, i < n → ∀ j, j < h →
      table.data[i * shaderBindingTableEntrySize h a + j]? =
        some (dev.getD (i * h + j) 0) := by
  have hle : 0 < n → h ≤ shaderBindingTableEntrySize h a := by
    intro hn
    obtain ⟨r, rfl⟩ : ∃ r, n = r + 1 := ⟨n - 1, by omega⟩
    have hlast := (createPipeline_last r h a dev table hc).1
    rw [Nat.mod_eq_of_lt (hwrap r (by omega)), Nat.mul_add, Nat.mul_one, Nat.mul_comm] at hlast
    omega
  refine ⟨hle, ?_⟩
  rw [createPipeline_eq] at hc
  cases hl : copyGroupHandles (shaderBindingTableEntrySize h a) h
      ((List.range (h * n)).map (fun j => dev.getD j 0)) n 0
      (List.replicate (shaderBindingTableEntrySize h a * n) 0) with
  | none => rw [hl] at hc; cases hc
  | some out =>
    rw [hl] at hc
    have hc2 : some ({ data := out, size := shaderBindingTableEntrySize h a * n } :
        Buffer Nat) = some table := hc
    have ht := Option.some.inj hc2
    rw [← ht]
    by_cases hn : 0 < n
    · obtain ⟨hlen, _, hcopy⟩ := copyGroupHandles_spec _ _ _ (hle hn) n 0 _ out
        (fun g hg => hwrap g (by omega)) hl
      rw [List.length_replicate] at hlen
      refine ⟨Nat.mul_comm _ _, by show out.length = _; rw [hlen, Nat.mul_comm], ?_⟩
      intro i hi j hj
      show out[_]? = _
      rw [hcopy i (Nat.zero_le _) (by omega) j hj]
      apply storage_getElem
      have hmul : (i + 1) * h ≤ n * h := Nat.mul_le_mul_right h hi
      rw [Nat.add_mul, Nat.one_mul] at hmul
      rw [Nat.mul_comm h n]
      omega
    · have hn0 : n = 0 := by omega
      subst hn0
      have ho : out = List.replicate (shaderBindingTableEntrySize h a * 0) 0 := by
        have h0 : copyGroupHandles (shaderBindingTableEntrySize h a) h
            ((List.range (h * 0)).map (fun j => dev.getD j 0)) 0 0
            (List.replicate (shaderBindingTableEntrySize h a * 0) 0) =
            some (List.replicate (shaderBindingTableEntrySize h a * 0) 0) := rfl
        rw [h0] at hl
        exact (Option.some.inj hl).symm
      refine ⟨Nat.mul_comm _ _, by show out.length = _; rw [ho, List.length_replicate, Nat.mul_comm], ?_⟩
      intro i hi
      omega

/-! ## The shader binding table (C21, C29) -/

/-- C21 (amended): when the handle size does not exceed the entry stride,
`CreatePipeline` builds a table; and whenever it builds one and no byte offset
`i * entryStride` of a group `i < numGroups` reaches `2^32`, the table has
`numGroups * entryStride` bytes and
`table[i * entryStride + j] = handles[i * handleSize + j]` for every group
`i < numGroups` and every byte `j < handleSize`, where `handles` is the packed
array the device returned. -/
theorem table_holds_handles (numGroups handleSize alignment : Nat) (deviceHandles : List Nat) :
    (handleSize ≤ shaderBindingTableEntrySize handleSize alignment →
      ∃ table, CreatePipeline numGroups handleSize alignment deviceHandles = some table) ∧
    ∀ table, CreatePipeline numGroups handleSize alignment deviceHandles = some table →
      (∀ i, i < numGroups → i * shaderBindingTableEntrySize handleSize alignment < 2 ^ 32) →
      table.size = numGroups * shaderBindingTableEntrySize handleSize alignment ∧
      table.data.length = numGroups * shaderBindingTableEntrySize handleSize alignment ∧
      ∀ i, i < numGroups → ∀ j, j < handleSize →
        table.data[i * shaderBindingTableEntrySize handleSize alignment + j]? =
          some (deviceHandles.getD (i * handleSize + j) 0) :=
  ⟨createPipeline_total numGroups handleSize alignment deviceHandles,
   fun table hc hwrap =>
     (createPipeline_contents numGroups handleSize alignment deviceHandles table hc hwrap).2⟩

/-- C21 on a device with 16-byte handles and 64-byte alignment: the table of
the five groups is built, has 320 bytes, and byte 3 of group 2 (table byte 131)
is byte 35 of the handle array. -/
theorem table_holds_handles_witness :
    ∃ table, CreatePipeline 5 16 64 (List.range 80) = some table ∧
      table.size = 5 * shaderBindingTableEntrySize 16 64 ∧
      table.data[2 * shaderBindingTableEntrySize 16 64 + 3]? =
        some ((List.range 80).getD (2 * 16 + 3) 0) := by
  obtain ⟨table, ht⟩ := (table_holds_handles 5 16 64 (List.range 80)).1 (by decide)
  have hwrap : ∀ i, i < 5 → i * shaderBindingTableEntrySize 16 64 < 2 ^ 32 := by
    intro i hi
    have he : shaderBindingTableEntrySize 16 64 = 64 := by decide
    rw [he]
    omega
  have h := (table_holds_handles 5 16 64 (List.range 80)).2 table ht hwrap
  exact ⟨table, ht, h.1, h.2.2 2 (by decide) 3 (by decide)⟩

/-- Counterexample to C21 as stated: with one-byte handles and an alignment of
`2^31` the entry stride is `2^31`, the 32-bit offsets of groups 2 and 4 wrap
to 0, and the finished table holds the handle of group 4 (14) at byte 0,
where the claim puts the handle of group 0 (10). -/
theorem table_offsets_wrap :
    shaderBindingTableEntrySize 1 (2 ^ 31) = 2 ^ 31 ∧
    ∃ table, CreatePipeline 5 1 (2 ^ 31) fiveHandles = some table ∧
      table.data[0 * shaderBindingTableEntrySize 1 (2 ^ 31) + 0]? = some 14 ∧
      fiveHandles.getD (0 * 1 + 0) 0 = 10 := by
  have he : shaderBindingTableEntrySize 1 (2 ^ 31) = 2 ^ 31 := by decide
  refine ⟨he, ?_⟩
  obtain ⟨table, ht⟩ := createPipeline_total 5 1 (2 ^ 31) fiveHandles (by decide)
  have h := (createPipeline_last 4 1 (2 ^ 31) fiveHandles table ht).2 0 (by decide)
  have e1 : (4 * shaderBindingTableEntrySize 1 (2 ^ 31)) % 2 ^ 32 + 0 = 0 := by decide
  have e2 : 0 * shaderBindingTableEntrySize 1 (2 ^ 31) + 0 = 0 := by decide
  rw [e1] at h
  rw [e2]
  exact ⟨table, ht, h, rfl⟩

/-- C29 (amended): when `entryStride >= handleSize`, every copy of the loop of
`CreatePipeline` reads inside the handle array and writes inside the table,
also at the 32-bit offsets the loop computes, so the table is built; and when
in addition no offset `i * entryStride` of a group reaches `2^32`, the
destination ranges of distinct groups do not overlap and every copied handle
is still in the finished table. -/
theorem copies_inside_and_apart (numGroups handleSize alignment : Nat)
    (deviceHandles : List Nat)
    (hle : handleSize ≤ shaderBindingTableEntrySize handleSize alignment) :
    (∀ i, i < numGroups →
      i * handleSize + handleSize ≤ numGroups * handleSize ∧
      i * shaderBindingTableEntrySize handleSize alignment + handleSize ≤
        numGroups * shaderBindingTableEntrySize handleSize alignment ∧
      (i * handleSize) % 2 ^ 32 + handleSize ≤
        (tableLayout numGroups handleSize alignment).handlesSize ∧
      (i * shaderBindingTableEntrySize handleSize alignment) % 2 ^ 32 + handleSize ≤
        (tableLayout numGroups handleSize alignment).tableSize) ∧
    (∃ table, CreatePipeline numGroups handleSize alignment deviceHandles = some table) ∧
    ((∀ i, i < numGroups → i * shaderBindingTableEntrySize handleSize alignment < 2 ^ 32) →
      (∀ i k, i < k → k < numGroups →
        (i * shaderBindingTableEntrySize handleSize alignment) % 2 ^ 32 + handleSize ≤
          (k * shaderBindingTableEntrySize handleSize alignment) % 2 ^ 32) ∧
      ∀ table, CreatePipeline numGroups handleSize alignment deviceHandles = some table →
        ∀ i, i < numGroups → ∀ j, j < handleSize →
          table.data[i * shaderBindingTableEntrySize handleSize alignment + j]? =
            some (deviceHandles.getD (i * handleSize + j) 0)) := by
  refine ⟨?_, createPipeline_total numGroups handleSize alignment deviceHandles hle, ?_⟩
  · intro i hi
    have h1 : (i + 1) * handleSize ≤ numGroups * handleSize := Nat.mul_le_mul_right _ hi
    have h2 : (i + 1) * shaderBindingTableEntrySize handleSize alignment ≤
        numGroups * shaderBindingTableEntrySize handleSize alignment :=
      Nat.mul_le_mul_right _ hi
    rw [Nat.add_mul, Nat.one_mul] at h1 h2
    have m1 := Nat.mod_le (i * handleSize) (2 ^ 32)
    have m2 := Nat.mod_le (i * shaderBindingTableEntrySize handleSize alignment) (2 ^ 32)
    have t1 : (tableLayout numGroups handleSize alignment).handlesSize =
        numGroups * handleSize := Nat.mul_comm _ _
    have t2 : (tableLayout numGroups handleSize alignment).tableSize =
        numGroups * shaderBindingTableEntrySize handleSize alignment := Nat.mul_comm _ _
    rw [t1, t2]
    omega
  · intro hwrap
    refine ⟨?_, fun table hc =>
      (createPipeline_contents numGroups handleSize alignment deviceHandles table hc hwrap).2.2.2⟩
    intro i k hik hk
    rw [Nat.mod_eq_of_lt (hwrap i (by omega)), Nat.mod_eq_of_lt (hwrap k hk)]
    have h2 : (i + 1) * shaderBindingTableEntrySize handleSize alignment ≤
        k * shaderBindingTableEntrySize handleSize alignment :=
      Nat.mul_le_mul_right _ hik
    rw [Nat.add_mul, Nat.one_mul] at h2
    omega

/-- C29 on a device with 16-byte handles and 64-byte alignment: the stride 64
is at least the handle size, the table of the five groups is built, and the
destination range of group 1 ends before that of group 2 begins. -/
theorem copies_inside_and_apart_witness :
    16 ≤ shaderBindingTableEntrySize 16 64 ∧
    (∃ table, CreatePipeline 5 16 64 (List.range 80) = some table) ∧
    (1 * shaderBindingTableEntrySize 16 64) % 2 ^ 32 + 16 ≤
      (2 * shaderBindingTableEntrySize 16 64) % 2 ^ 32 := by
  have he : shaderBindingTableEntrySize 16 64 = 64 := by decide
  have h := copies_inside_and_apart 5 16 64 (List.range 80) (by decide)
  have hwrap : ∀ i, i < 5 → i * shaderBindingTableEntrySize 16 64 < 2 ^ 32 := by
    intro i hi
    rw [he]
    omega
  exact ⟨by decide, h.2.1, (h.2.2 hwrap).1 1 2 (by decide) (by decide)⟩

/-- Counterexample to C29 as stated: with two-byte handles and an alignment of
`2^31` the entry stride `2^31` is at least the handle size, yet the 32-bit
destination offsets of groups 0 and 2 are both 0, so their ranges overlap, and
in the finished table byte 0 holds the first byte of the handle of group 4 (9):
the handle of group 0 (bytes 1, 2) was overwritten. -/
theorem copy_ranges_overlap_after_wrap :
    2 ≤ shaderBindingTableEntrySize 2 (2 ^ 31) ∧
    (0 * shaderBindingTableEntrySize 2 (2 ^ 31)) % 2 ^ 32 =
      (2 * shaderBindingTableEntrySize 2 (2 ^ 31)) % 2 ^ 32 ∧
    ∃ table, CreatePipeline 5 2 (2 ^ 31) tenHandles = some table ∧
      table.data[0]? = some 9 ∧ tenHandles.getD 0 0 = 1 := by
  refine ⟨by decide, by decide, ?_⟩
  obtain ⟨table, ht⟩ := createPipeline_total 5 2 (2 ^ 31) tenHandles (by decide)
  have h := (createPipeline_last 4 2 (2 ^ 31) tenHandles table ht).2 0 (by decide)
  have e1 : (4 * shaderBindingTableEntrySize 2 (2 ^ 31)) % 2 ^ 32 + 0 = 0 := by decide
  rw [e1] at h
  exact ⟨table, ht, h, rfl⟩

/-! ## Per-frame indexing (C30) -/

theorem descriptorSetsLoop_succ (st : RayTracerState) (r i : Nat) (acc : List DescriptorSet) :
    descriptorSetsLoop st (r + 1) i acc =
      (writeDescriptorSet st i).bind
        (fun set => descriptorSetsLoop st r (i + 1) (acc ++ [set])) := by
  rw [descriptorSetsLoop]
  cases writeDescriptorSet st i with
  | none => rfl
  | some set => rfl

theorem descriptorSetsLoop_total (st : RayTracerState) :
    ∀ (r i : Nat) (acc : List DescriptorSet),
      (∀ k, k < r → ∃ set, writeDescriptorSet st (i + k) = some set) →
      ∃ sets, descriptorSetsLoop st r i acc = some sets := by
  intro r
  induction r with
  | zero => intro i acc _; exact ⟨acc, rfl⟩
  | succ r ih =>
    intro i acc hall
    obtain ⟨set, hset⟩ := hall 0 (by omega)
    rw [Nat.add_zero] at hset
    rw [descriptorSetsLoop_succ, hset]
    exact ih (i + 1) (acc ++ [set]) (fun k hk => by
      have h := hall (k + 1) (by omega)
      have e : i + (k + 1) = i + 1 + k := by omega
      rw [e] at h
      exact h)

theorem descriptorSetsLoop_spec (st : RayTracerState) :
    ∀ (r i : Nat) (acc sets : List DescriptorSet),
      descriptorSetsLoop st r i acc = some sets →
      sets.length = acc.length + r ∧
      ∀ k, k < r → sets[acc.length + k]? = writeDescriptorSet st (i + k) := by
  intro r
  induction r with
  | zero =>
    intro i acc sets h
    have h2 : some acc = some sets := h
    rw [← Option.some.inj h2]
    exact ⟨rfl, fun k hk => by omega⟩
  | succ r ih =>
    intro i acc sets h
    have hlen := descriptorSetsLoop_length st (r + 1) i acc sets h
    rw [descriptorSetsLoop_succ] at h
    cases hw : writeDescriptorSet st i with
    | none => rw [hw] at h; cases h
    | some set =>
      rw [hw] at h
      have h2 : descriptorSetsLoop st r (i + 1) (acc ++ [set]) = some sets := h
      refine ⟨hlen, ?_⟩
      intro k hk
      cases k with
      | zero =>
        rw [Nat.add_zero, Nat.add_zero, hw]
        have hkeep : ∀ (r2 i2 : Nat) (acc2 out : List DescriptorSet),
            descriptorSetsLoop st r2 i2 acc2 = some out →
            ∀ x, x < acc2.length → out[x]? = acc2[x]? := by
          intro r2
          induction r2 with
          | zero =>
            intro i2 acc2 out ho x _
            have ho2 : some acc2 = some out := ho
            rw [← Option.some.inj ho2]
          | succ r2 ih2 =>
            intro i2 acc2 out ho x hx
            rw [descriptorSetsLoop_succ] at ho
            cases hw2 : writeDescriptorSet st i2 with
            | none => rw [hw2] at ho; cases ho
            | some set2 =>
              rw [hw2] at ho
              have ho3 : descriptorSetsLoop st r2 (i2 + 1) (acc2 ++ [set2]) = some out := ho
              rw [ih2 (i2 + 1) (acc2 ++ [set2]) out ho3 x (by
                rw [List.length_append]; omega)]
              exact List.getElem?_append_left hx
        rw [hkeep r (i + 1) (acc ++ [set]) sets h2 acc.length (by
          rw [List.length_append, List.length_singleton]; omega)]
        rw [List.getElem?_append_right (Nat.le_refl _), Nat.sub_self]
        rfl
      | succ k =>
        have h3 := (ih (i + 1) (acc ++ [set]) sets h2).2 k (by omega)
        rw [List.length_append, List.length_singleton] at h3
        have e1 : acc.length + (k + 1) = acc.length + 1 + k := by omega
        have e2 : i + (k + 1) = i + 1 + k := by omega
        rw [e1, e2]
        exact h3

theorem recordLoop_succ (g0 g1 g2 : Nat) (st : RayTracerState) (r i : Nat)
    (acc : List (List Command)) :
    recordLoop g0 g1 g2 st (r + 1) i acc =
      (recordCommandBuffer g0 g1 g2 st i).bind
        (fun commands => recordLoop g0 g1 g2 st r (i + 1) (acc ++ [commands])) := by
  rw [recordLoop]
  cases recordCommandBuffer g0 g1 g2 st i with
  | none => rfl
  | some commands => rfl

theorem recordLoop_total (g0 g1 g2 : Nat) (st : RayTracerState) :
    ∀ (r i : Nat) (acc : List (List Command)),
      (∀ k, k < r → ∃ commands, recordCommandBuffer g0 g1 g2 st (i + k) = some commands) →
      ∃ recorded, recordLoop g0 g1 g2 st r i acc = some recorded := by
  intro r
  induction r with
  | zero => intro i acc _; exact ⟨acc, rfl⟩
  | succ r ih =>
    intro i acc hall
    obtain ⟨commands, hc⟩ := hall 0 (by omega)
    rw [Nat.add_zero] at hc
    rw [recordLoop_succ, hc]
    exact ih (i + 1) (acc ++ [commands]) (fun k hk => by
      have h := hall (k + 1) (by omega)
      have e : i + (k + 1) = i + 1 + k := by omega
      rw [e] at h
      exact h)

theorem recordLoop_keeps (g0 g1 g2 : Nat) (st : RayTracerState) :
    ∀ (r i : Nat) (acc out : List (List Command)),
      recordLoop g0 g1 g2 st r i acc = some out →
      ∀ x, x < acc.length → out[x]? = acc[x]? := by
  intro r
  induction r with
  | zero =>
    intro i acc out ho x _
    have ho2 : some acc = some out := ho
    rw [← Option.some.inj ho2]
  | succ r ih =>
    intro i acc out ho x hx
    rw [recordLoop_succ] at ho
    cases hw : recordCommandBuffer g0 g1 g2 st i with
    | none => rw [hw] at ho; cases ho
    | some commands =>
      rw [hw] at ho
      have ho3 : recordLoop g0 g1 g2 st r (i + 1) (acc ++ [commands]) = some out := ho
      rw [ih (i + 1) (acc ++ [commands]) out ho3 x (by rw [List.length_append]; omega)]
      exact List.getElem?_append_left hx

theorem recordLoop_spec (g0 g1 g2 : Nat) (st : RayTracerState) :
    ∀ (r i : Nat) (acc recorded : List (List Command)),
      recordLoop g0 g1 g2 st r i acc = some recorded →
      recorded.length = acc.length + r ∧
      ∀ k, k < r → recorded[acc.length + k]? = recordCommandBuffer g0 g1 g2 st (i + k) := by
  intro r
  induction r with
  | zero =>
    intro i acc recorded h
    have h2 : some acc = some recorded := h
    rw [← Option.some.inj h2]
    exact ⟨rfl, fun k hk => by omega⟩
  | succ r ih =>
    intro i acc recorded h
    have hlen := recordLoop_length g0 g1 g2 st (r + 1) i acc recorded h
    rw [recordLoop_succ] at h
    cases hw : recordCommandBuffer g0 g1 g2 st i with
    | none => rw [hw] at h; cases h
    | some commands =>
      rw [hw] at h
      have h2 : recordLoop g0 g1 g2 st r (i + 1) (acc ++ [commands]) = some recorded := h
      refine ⟨hlen, ?_⟩
      intro k hk
      cases k with
      | zero =>
        rw [Nat.add_zero, Nat.add_zero, hw]
        rw [recordLoop_keeps g0 g1 g2 st r (i + 1) (acc ++ [commands]) recorded h2 acc.length (by
          rw [List.length_append, List.length_singleton]; omega)]
        rw [List.getElem?_append_right (Nat.le_refl _), Nat.sub_self]
        rfl
      | succ k =>
        have h3 := (ih (i + 1) (acc ++ [commands]) recorded h2).2 k (by omega)
        rw [List.length_append, List.length_singleton] at h3
        have e1 : acc.length + (k + 1) = acc.length + 1 + k := by omega
        have e2 : i + (k + 1) = i + 1 + k := by omega
        rw [e1, e2]
        exact h3

theorem writeDescriptorSet_none (st : RayTracerState) (i : Nat)
    (h : st.uniformBuffers.length ≤ i) : writeDescriptorSet st i = none := by
  have hu : st.uniformBuffers[i]? = none := List.getElem?_eq_none h
  unfold writeDescriptorSet
  split
  · rename_i h1 h2 h3 h4 h5 h6 h7
    rw [hu] at h3
    cases h3
  · rfl

theorem writeDescriptorSet_some (st : RayTracerState) (i : Nat)
    (hres : resourcesPresent st = true) (h : i < st.uniformBuffers.length) :
    ∃ set, writeDescriptorSet st i = some set ∧ set.uniformBufferIndex = i ∧
      set.accelerationStructure = st.tlas ∧
      some set.accumulationImage = st.accumulationImage ∧
      some set.outputImage = st.outputImage ∧
      some set.vertexBuffer = st.vertexBuffer ∧ some set.indexBuffer = st.indexBuffer ∧
      some set.offsetBuffer = st.offsetBuffer ∧ some set.materialBuffer = st.materialBuffer ∧
      set.textureSamplers = st.textures := by
  have hu : st.uniformBuffers[i]? = some st.uniformBuffers[i] := List.getElem?_eq_getElem h
  unfold resourcesPresent at hres
  simp only [Bool.and_eq_true, Option.isSome_iff_exists] at hres
  obtain ⟨⟨⟨⟨⟨⟨⟨vb, hvb⟩, ⟨ib, hib⟩⟩, ⟨ob, hob⟩⟩, ⟨mb, hmb⟩⟩, ⟨ai, hai⟩⟩, ⟨oi, hoi⟩⟩, _⟩ := hres
  unfold writeDescriptorSet
  rw [hai, hoi, hu, hvb, hib, hob, hmb]
  exact ⟨_, rfl, rfl, rfl, rfl, rfl, rfl, rfl, rfl, rfl, rfl⟩

theorem recordCommandBuffer_none (g0 g1 g2 : Nat) (st : RayTracerState) (i : Nat)
    (h : st.descriptorSets.length ≤ i ∨ st.app.swapChainImages.length ≤ i) :
    recordCommandBuffer g0 g1 g2 st i = none := by
  unfold recordCommandBuffer
  split
  · rename_i h1 h2 h3 h4
    rcases h with h | h
    · rw [List.getElem?_eq_none h] at h1
      cases h1
    · rw [List.getElem?_eq_none h] at h2
      cases h2
  · rfl

theorem recordCommandBuffer_some (g0 g1 g2 : Nat) (st : RayTracerState) (i : Nat)
    (set : DescriptorSet) (image : Nat)
    (hres : resourcesPresent st = true)
    (hs : st.descriptorSets[i]? = some set) (hi : st.app.swapChainImages[i]? = some image) :
    ∃ commands, recordCommandBuffer g0 g1 g2 st i = some commands ∧
      commands[2]? = some (Command.bindDescriptorSets set) ∧
      commands[4]? = some (Command.pipelineBarrier (ImageRef.swapChain image)
        ImageLayout.eUndefined ImageLayout.eTransferDstOptimal) ∧
      commands[6]? = some (Command.copyImage image st.app.extentWidth st.app.extentHeight) ∧
      commands[7]? = some (Command.pipelineBarrier (ImageRef.swapChain image)
        ImageLayout.eTransferDstOptimal ImageLayout.ePresentSrcKHR) := by
  unfold resourcesPresent at hres
  simp only [Bool.and_eq_true, Option.isSome_iff_exists] at hres
  obtain ⟨⟨⟨_, _⟩, ⟨oi, hoi⟩⟩, ⟨sbt, hsbt⟩⟩ := hres
  unfold recordCommandBuffer
  rw [hs, hi, hsbt, hoi]
  exact ⟨_, rfl, rfl, rfl, rfl, rfl⟩

theorem createDescriptorSets_spec (st st2 : RayTracerState)
    (h : CreateDescriptorSets st = some st2) :
    ∃ sets, st2 = { st with descriptorSets := sets } ∧
      sets.length = st.app.swapChainFrameBuffers ∧
      ∀ i, i < st.app.swapChainFrameBuffers → sets[i]? = writeDescriptorSet st i := by
  unfold CreateDescriptorSets at h
  cases hl : descriptorSetsLoop st st.app.swapChainFrameBuffers 0 [] with
  | none => rw [hl] at h; cases h
  | some sets =>
    rw [hl] at h
    have h2 : some { st with descriptorSets := sets } = some st2 := h
    obtain ⟨hlen, hget⟩ := descriptorSetsLoop_spec st _ 0 [] sets hl
    refine ⟨sets, (Option.some.inj h2).symm, by rw [hlen, List.length_nil, Nat.zero_add], ?_⟩
    intro i hi
    have h3 := hget i hi
    rw [List.length_nil, Nat.zero_add] at h3
    exact h3

theorem createDescriptorSets_total (st : RayTracerState) (hres : resourcesPresent st = true)
    (hb : st.app.swapChainFrameBuffers ≤ st.uniformBuffers.length) :
    ∃ st2, CreateDescriptorSets st = some st2 := by
  obtain ⟨sets, hsets⟩ := descriptorSetsLoop_total st st.app.swapChainFrameBuffers 0 []
    (fun k hk => by
      obtain ⟨set, hset, _⟩ := writeDescriptorSet_some st (0 + k) hres (by omega)
      exact ⟨set, hset⟩)
  unfold CreateDescriptorSets
  rw [hsets]
  exact ⟨_, rfl⟩

theorem createDescriptorSets_bound (st st2 : RayTracerState)
    (h : CreateDescriptorSets st = some st2) :
    st.app.swapChainFrameBuffers ≤ st.uniformBuffers.length := by
  obtain ⟨sets, _, hlen, hget⟩ := createDescriptorSets_spec st st2 h
  by_contra hcon
  have hlt : st.uniformBuffers.length < st.app.swapChainFrameBuffers := by omega
  have h1 := hget _ hlt
  rw [writeDescriptorSet_none st _ (Nat.le_refl _)] at h1
  rw [List.getElem?_eq_getElem (by omega)] at h1
  cases h1

theorem recordCommandBuffers_spec (g0 g1 g2 : Nat) (st st3 : RayTracerState)
    (h : RecordCommandBuffers g0 g1 g2 st = some st3) :
    ∃ recorded, st3 = { st with app := { st.app with commandBuffers := recorded } } ∧
      recorded.length = st.app.commandBuffers.length ∧
      ∀ i, i < st.app.commandBuffers.length →
        recorded[i]? = recordCommandBuffer g0 g1 g2 st i := by
  unfold RecordCommandBuffers at h
  cases hl : recordLoop g0 g1 g2 st st.app.commandBuffers.length 0 [] with
  | none => rw [hl] at h; cases h
  | some recorded =>
    rw [hl] at h
    have h2 : some { st with app := { st.app with commandBuffers := recorded } } = some st3 := h
    obtain ⟨hlen, hget⟩ := recordLoop_spec g0 g1 g2 st _ 0 [] recorded hl
    refine ⟨recorded, (Option.some.inj h2).symm,
      by rw [hlen, List.length_nil, Nat.zero_add], ?_⟩
    intro i hi
    have h3 := hget i hi
    rw [List.length_nil, Nat.zero_add] at h3
    exact h3

theorem recordCommandBuffers_total (g0 g1 g2 : Nat) (st : RayTracerState)
    (hres : resourcesPresent st = true)
    (hsets : st.app.commandBuffers.length ≤ st.descriptorSets.length)
    (himages : st.app.commandBuffers.length ≤ st.app.swapChainImages.length) :
    ∃ st3, RecordCommandBuffers g0 g1 g2 st = some st3 := by
  obtain ⟨recorded, hrec⟩ := recordLoop_total g0 g1 g2 st st.app.commandBuffers.length 0 []
    (fun k hk => by
      obtain ⟨commands, hc, _⟩ := recordCommandBuffer_some g0 g1 g2 st (0 + k)
        (st.descriptorSets.get ⟨0 + k, by omega⟩) (st.app.swapChainImages.get ⟨0 + k, by omega⟩)
        hres (List.getElem?_eq_getElem (by omega)) (List.getElem?_eq_getElem (by omega))
      exact ⟨commands, hc⟩)
  unfold RecordCommandBuffers
  rw [hrec]
  exact ⟨_, rfl⟩

theorem recordCommandBuffers_bound (g0 g1 g2 : Nat) (st st3 : RayTracerState)
    (h : RecordCommandBuffers g0 g1 g2 st = some st3) :
    st.app.commandBuffers.length ≤ st.descriptorSets.length ∧
    st.app.commandBuffers.length ≤ st.app.swapChainImages.length := by
  obtain ⟨recorded, _, hlen, hget⟩ := recordCommandBuffers_spec g0 g1 g2 st st3 h
  have key : ∀ i, i < st.app.commandBuffers.length →
      i < st.descriptorSets.length ∧ i < st.app.swapChainImages.length := by
    intro i hi
    by_contra hcon
    have h1 := hget i hi
    rw [recordCommandBuffer_none g0 g1 g2 st i (by omega)] at h1
    rw [List.getElem?_eq_getElem (by omega)] at h1
    cases h1
  by_cases h0 : st.app.commandBuffers.length = 0
  · omega
  · have := key (st.app.commandBuffers.length - 1) (by omega)
    omega

/-- C30 (amended): with the scene buffers, storage images and binding table in
place and the uniform buffers created by `CreateUniformBuffers`, the indexing
of `CreateDescriptorSets` and `RecordCommandBuffers` stays in bounds exactly
when there are as many command buffers as swap-chain framebuffers and at least
as many swap-chain images; in particular, if all three counts equal `n`, both
functions complete, there are `n` uniform buffers, `n` descriptor sets and `n`
recorded command buffers, descriptor set `i` is bound to uniform buffer `i`,
command buffer `i` binds descriptor set `i` and names swap-chain image `i`,
and every other binding of a set is the one shared member of the
application. -/
theorem frame_indexing_in_bounds (sizeofUniformBufferObject g0 g1 g2 : Nat)
    (st0 : RayTracerState) (hu : st0.uniformBuffers = [])
    (hres : resourcesPresent st0 = true) :
    ((∃ st2 st3,
        CreateDescriptorSets (CreateUniformBuffers sizeofUniformBufferObject st0) = some st2 ∧
        RecordCommandBuffers g0 g1 g2 st2 = some st3) ↔
      (st0.app.commandBuffers.length = st0.app.swapChainFrameBuffers ∧
       st0.app.commandBuffers.length ≤ st0.app.swapChainImages.length)) ∧
    ∀ n, st0.app.commandBuffers.length = n → st0.app.swapChainFrameBuffers = n →
      st0.app.swapChainImages.length = n →
      ∃ st2 st3,
        CreateDescriptorSets (CreateUniformBuffers sizeofUniformBufferObject st0) = some st2 ∧
        RecordCommandBuffers g0 g1 g2 st2 = some st3 ∧
        (CreateUniformBuffers sizeofUniformBufferObject st0).uniformBuffers.length = n ∧
        st2.descriptorSets.length = n ∧ st3.descriptorSets = st2.descriptorSets ∧
        st3.app.commandBuffers.length = n ∧
        ∀ i, i < n → ∃ set image commands,
          st2.descriptorSets[i]? = some set ∧
          st0.app.swapChainImages[i]? = some image ∧
          st3.app.commandBuffers[i]? = some commands ∧
          set.uniformBufferIndex = i ∧
          commands[2]? = some (Command.bindDescriptorSets set) ∧
          commands[4]? = some (Command.pipelineBarrier (ImageRef.swapChain image)
            ImageLayout.eUndefined ImageLayout.eTransferDstOptimal) ∧
          commands[6]? =
            some (Command.copyImage image st0.app.extentWidth st0.app.extentHeight) ∧
          set.accelerationStructure = st0.tlas ∧
          some set.accumulationImage = st0.accumulationImage ∧
          some set.outputImage = st0.outputImage ∧
          some set.vertexBuffer = st0.vertexBuffer ∧
          some set.indexBuffer = st0.indexBuffer ∧
          some set.offsetBuffer = st0.offsetBuffer ∧
          some set.materialBuffer = st0.materialBuffer ∧
          set.textureSamplers = st0.textures := by
  have hubs : (CreateUniformBuffers sizeofUniformBufferObject st0).uniformBuffers.length =
      st0.app.commandBuffers.length := by
    simp only [CreateUniformBuffers, hu, List.nil_append, List.length_replicate]
  have hres1 : resourcesPresent (CreateUniformBuffers sizeofUniformBufferObject st0) = true :=
    hres
  have build : st0.app.commandBuffers.length = st0.app.swapChainFrameBuffers →
      st0.app.commandBuffers.length ≤ st0.app.swapChainImages.length →
      ∃ sets st3,
        CreateDescriptorSets (CreateUniformBuffers sizeofUniformBufferObject st0) =
          some { CreateUniformBuffers sizeofUniformBufferObject st0 with descriptorSets := sets } ∧
        RecordCommandBuffers g0 g1 g2
          { CreateUniformBuffers sizeofUniformBufferObject st0 with descriptorSets := sets } =
          some st3 ∧
        sets.length = st0.app.swapChainFrameBuffers ∧
        ∀ i, i < st0.app.swapChainFrameBuffers →
          sets[i]? = writeDescriptorSet (CreateUniformBuffers sizeofUniformBufferObject st0) i := by
    intro h1 h2
    obtain ⟨st2, hst2⟩ := createDescriptorSets_total _ hres1 (by
      rw [hubs]
      exact Nat.le_of_eq h1.symm)
    obtain ⟨sets, hsets, hlen, hget⟩ := createDescriptorSets_spec _ st2 hst2
    subst hsets
    have hlen2 : sets.length = st0.app.swapChainFrameBuffers := hlen
    obtain ⟨st3, hst3⟩ := recordCommandBuffers_total g0 g1 g2
      { CreateUniformBuffers sizeofUniformBufferObject st0 with descriptorSets := sets } hres
      (by show st0.app.commandBuffers.length ≤ sets.length; omega) h2
    exact ⟨sets, st3, hst2, hst3, hlen2, hget⟩
  refine ⟨⟨?_, ?_⟩, ?_⟩
  · rintro ⟨st2, st3, h2, h3⟩
    have hb := createDescriptorSets_bound _ st2 h2
    obtain ⟨sets, hsets, hlen, _⟩ := createDescriptorSets_spec _ st2 h2
    subst hsets
    have hlen2 : sets.length = st0.app.swapChainFrameBuffers := hlen
    have hb1 : st0.app.swapChainFrameBuffers ≤
        (CreateUniformBuffers sizeofUniformBufferObject st0).uniformBuffers.length := hb
    have hb2 : st0.app.commandBuffers.length ≤ sets.length ∧
        st0.app.commandBuffers.length ≤ st0.app.swapChainImages.length :=
      recordCommandBuffers_bound g0 g1 g2 _ st3 h3
    omega
  · rintro ⟨h1, h2⟩
    obtain ⟨sets, st3, hs, hr, _⟩ := build h1 h2
    exact ⟨_, st3, hs, hr⟩
  · intro n hc hf hi
    obtain ⟨sets, st3, hs, hr, hlen, hget⟩ := build (by omega) (by omega)
    obtain ⟨recorded, hrec, hrlen, hrget⟩ := recordCommandBuffers_spec g0 g1 g2 _ st3 hr
    subst hrec
    have hrlen2 : recorded.length = st0.app.commandBuffers.length := hrlen
    refine ⟨_, _, hs, hr, by rw [hubs]; exact hc, by show sets.length = n; omega, rfl,
      by show recorded.length = n; omega, ?_⟩
    intro i hlt
    obtain ⟨set, hset, hidx, htlas, hacc, hout, hvb, hib, hob, hmb, htex⟩ :=
      writeDescriptorSet_some (CreateUniformBuffers sizeofUniformBufferObject st0) i hres1
        (by rw [hubs]; omega)
    have hsi : sets[i]? = some set := by rw [hget i (by omega), hset]
    have himg : st0.app.swapChainImages[i]? =
        some (st0.app.swapChainImages.get ⟨i, by omega⟩) := List.getElem?_eq_getElem (by omega)
    obtain ⟨commands, hcmd, hc2, hc4, hc6, _⟩ := recordCommandBuffer_some g0 g1 g2
      { CreateUniformBuffers sizeofUniformBufferObject st0 with descriptorSets := sets } i set
      (st0.app.swapChainImages.get ⟨i, by omega⟩) hres hsi himg
    have hri : recorded[i]? = some commands := by
      rw [hrget i (by show i < st0.app.commandBuffers.length; omega), hcmd]
    exact ⟨set, _, commands, hsi, himg, hri, hidx, hc2, hc4, hc6, htlas, hacc, hout, hvb, hib,
      hob, hmb, htex⟩

set_option maxRecDepth 100000 in
/-- C30 on the example state with two command buffers, two framebuffers and
two swap-chain images: both functions complete, and the second descriptor set
is bound to uniform buffer 1 and to the top-level structure of the state. -/
theorem frame_indexing_in_bounds_witness :
    framesState.uniformBuffers = [] ∧ resourcesPresent framesState = true ∧
    ∃ st2 st3, CreateDescriptorSets (CreateUniformBuffers 176 framesState) = some st2 ∧
      RecordCommandBuffers 0 1 2 st2 = some st3 ∧
      st2.descriptorSets.length = 2 ∧ st3.app.commandBuffers.length = 2 := by
  obtain ⟨st2, st3, h2, h3, _, hl2, _, hl3, _⟩ :=
    (frame_indexing_in_bounds 176 0 1 2 framesState rfl rfl).2 2 rfl rfl rfl
  exact ⟨rfl, rfl, st2, st3, h2, h3, hl2, hl3⟩

set_option maxRecDepth 100000 in
/-- Counterexample to C30 as stated: with three swap-chain images for two
framebuffers and two command buffers the counts do not agree, yet `Init` runs
`CreateUniformBuffers`, `CreateDescriptorSets` and `RecordCommandBuffers` to
the end without leaving any vector: two sets and two command buffers result. -/
theorem frame_indexing_in_bounds_with_spare_image :
    (Init threeImageEnvironment freshState).fault = none ∧
    (Init threeImageEnvironment freshState).state.app.swapChainImages.length = 3 ∧
    (Init threeImageEnvironment freshState).state.app.swapChainFrameBuffers = 2 ∧
    (Init threeImageEnvironment freshState).state.app.commandBuffers.length = 2 ∧
    (Init threeImageEnvironment freshState).state.uniformBuffers.length = 2 ∧
    (Init threeImageEnvironment freshState).state.descriptorSets.length = 2 :=
  ⟨rfl, rfl, rfl, rfl, rfl, rfl⟩

/-! ## The mixed scene (C27) -/

/-- C27 on the mixed scene, whose first and third models are procedural: the
AABB buffer exists and has 48 bytes, and the entry of the third model starts
at byte 24 and ends at byte 48. -/
theorem aabb_references_in_bounds_witness :
    (∃ m ∈ mixedScene.models, m.isProcedural = true) ∧
    (CreateAABBBuffer mixedScene).isSome = true ∧
    ∃ (groups : List (List GeometryNV)) (g : GeometryNV) (b : Buffer AABB),
      geometryGroupsLoop (CreateAABBBuffer mixedScene) mixedScene.models 0 0 0 [] = .ok groups ∧
      groups[2]? = some [g] ∧ CreateAABBBuffer mixedScene = some b ∧ b.size = 48 ∧
      g.aabbs.offset = 24 ∧ g.aabbs.offset + 24 ≤ b.size := by
  have hex : ∃ m ∈ mixedScene.models, m.isProcedural = true :=
    ⟨proceduralOf unitBox 1, List.mem_cons_self _ _, rfl⟩
  obtain ⟨groups, hloop, hall⟩ := (aabb_references_in_bounds mixedScene).2
  obtain ⟨g, b, hg, hb, hsize, hoff, _, hend⟩ := hall 2 (by decide) rfl
  have e1 : (mixedScene.models.filter (fun m => m.isProcedural)).length = 2 := by decide
  have e2 : proceduralCountBefore mixedScene.models 2 = 1 := by decide
  rw [e1] at hsize
  rw [e2] at hoff
  exact ⟨hex, (aabb_references_in_bounds mixedScene).1 hex, groups, g, b, hloop, hg, hb, hsize,
    hoff, hend⟩

end RayTracer
